import Mathlib

/-! # homix: NATS clients for embedded devices

A shallow embedding of `arduino-nats-client/src/NATSClient.cpp` (the Arduino client,
namespace `Arduino`) and of `esphome-components/components/nats_client/nats_client.cpp`
(the ESPHome component, namespace `ESPHome`), and theorems about them.  The
definitions of both come first, the theorems follow.

Conventions of the embedding of the Arduino client; those of the ESPHome component
are stated at its definitions.

* A byte is a natural number; a C string is the list of its bytes up to, and not
  including, the terminating NUL.  `bytes "PING"` is the byte list of an ASCII literal.
  A `const char*` argument of a method is given by its content.
* The target is a 32-bit board (ESP8266 / ESP32): `int` is a 32-bit two-complement
  integer, `unsigned long` and `size_t` are 32-bit unsigned integers.
* The object lives in zero-initialised storage.  Character arrays that the code only
  ever reads and writes through the C string functions are represented by their C
  string content.  The line buffer `_inBuffer` is read at fixed offsets past its
  terminator, so it is represented as the raw array of `NATS_MAX_PAYLOAD_SIZE + 512`
  bytes together with its cursor.  The two tables are lists of slots.
* The transport `_client`, the clock `millis()`, the random source `random()` and the
  user supplied handlers are the environment.  They are fields of the state: the
  transport holds the bytes that are available for reading (`rx`) and the bytes
  that were written (`tx`); a handler is identified by a number and every invocation
  is appended to the event log `events`.  A handler observes; it does not call back
  into the client.
* Reading a byte that is available takes no clock time; waiting for a byte that
  never arrives ends exactly when the handshake timeout has elapsed.  During one
  call no further bytes arrive.
* A run that never returns, or that writes past the end of a fixed buffer, has no
  final state: it is a `Fault`.  A `sprintf` into a local buffer is checked against
  the size of the buffer wherever an argument of unbounded length is formatted.
* Output on `Serial` (verbose logging) is not part of the state.
-/

namespace Arduino

/-! ## Bytes and the C library -/

/-- The bytes of an ASCII string literal. -/
def bytes (s : String) : List Nat := s.toList.map Char.toNat

/-- The two bytes of `NATS_CR_LF`. -/
def NATS_CR_LF : List Nat := [13, 10]

def NATS_MAX_SUBJECT_LENGTH : Nat := 256
def NATS_MAX_PAYLOAD_SIZE : Nat := 1024
def NATS_INBOX_PREFIX : List Nat := bytes "_INBOX."
def NATS_CONNECTION_TIMEOUT : Nat := 5000
def NATS_PING_INTERVAL : Nat := 120000
def NATS_MAX_RECONNECT_ATTEMPTS : Int := 5
def MAX_SUBSCRIPTIONS : Nat := 10
def MAX_PENDING_REQUESTS : Nat := 5

/-- Size of `_inBuffer`: `NATS_MAX_PAYLOAD_SIZE + 512`. -/
def IN_BUFFER_SIZE : Nat := NATS_MAX_PAYLOAD_SIZE + 512

/-- Number of values of an `unsigned long` / `size_t` / `unsigned int`. -/
def WORD : Nat := 2 ^ 32

/-- Unsigned subtraction `a - b` of two `unsigned long` values. -/
def usub (a b : Nat) : Nat := (a + (WORD - b % WORD)) % WORD

/-- Reduction of a mathematical integer to the `int` that holds it
(two-complement wrap-around). -/
def wrapInt (i : Int) : Int := (i + 2 ^ 31) % 2 ^ 32 - 2 ^ 31

/-- Conversion of an `int` to `size_t`. -/
def toSize (i : Int) : Nat := (i % 2 ^ 32).toNat

/-- Conversion of a `size_t` to the `int` that `%d` prints. -/
def sizeAsInt (n : Nat) : Int := wrapInt (n % WORD)

/-- The C string stored at the start of a memory area: the bytes before the first NUL. -/
def cstr (mem : List Nat) : List Nat := mem.takeWhile (fun b => b ≠ 0)

/-- The C string that starts at offset `k` of an array. -/
def cstrAt (buf : List Nat) (k : Nat) : List Nat := cstr (buf.drop k)

/-- Result of `strncmp(s, lit, n) == 0` on two C strings. -/
def strncmpEq (s lit : List Nat) (n : Nat) : Bool := decide (s.take n = lit.take n)

/-- Content of `dst` after `strncpy(dst, src, n)` into a zero-filled array of `n + 1`
bytes. -/
def strncpy (src : List Nat) (n : Nat) : List Nat := src.take n

/-- The C `isspace` of the "C" locale. -/
def isspace (c : Nat) : Bool := decide (c = 32 ∨ (9 ≤ c ∧ c ≤ 13))

/-- The C `isdigit`. -/
def isdigit (c : Nat) : Bool := decide (48 ≤ c ∧ c ≤ 57)

/-- Decimal digits of `n`, most significant first, prepended to `acc`. -/
def decimalCore : Nat → Nat → List Nat → List Nat
  | 0, _, acc => acc
  | fuel + 1, n, acc =>
    if n / 10 = 0 then (48 + n % 10) :: acc
    else decimalCore fuel (n / 10) ((48 + n % 10) :: acc)

/-- Output of `%u` / `%lu`: the decimal rendering of a natural number. -/
def decimal (n : Nat) : List Nat := decimalCore (n + 1) n []

/-- Output of `%d` for an `int`. -/
def fmtInt (i : Int) : List Nat :=
  if i < 0 then 45 :: decimal (-i).toNat else decimal i.toNat

/-- One upper-case hexadecimal digit. -/
def hexDigit (d : Nat) : Nat := if d < 10 then 48 + d else 55 + d

/-- Upper-case hexadecimal digits of `n`, most significant first, prepended to `acc`. -/
def hexCore : Nat → Nat → List Nat → List Nat
  | 0, _, acc => acc
  | fuel + 1, n, acc =>
    if n / 16 = 0 then hexDigit (n % 16) :: acc
    else hexCore fuel (n / 16) (hexDigit (n % 16) :: acc)

/-- Output of `%0wX`: upper-case hexadecimal, zero padded to at least `w` digits. -/
def fmtHex (w n : Nat) : List Nat :=
  let ds := hexCore (n + 1) n []
  List.replicate (w - ds.length) 48 ++ ds

/-- Value of a run of decimal digits. -/
def digitsVal (ds : List Nat) : Nat := ds.foldl (fun a d => 10 * a + (d - 48)) 0

/-- The `%s` conversion of `sscanf`: skips white space, then takes the longest run
of bytes that are not white space.  Fails when the input is exhausted. -/
def scanStr (s : List Nat) : Option (List Nat × List Nat) :=
  let t := s.dropWhile isspace
  if t = [] then none
  else some (t.takeWhile (fun c => !isspace c), t.dropWhile (fun c => !isspace c))

/-- The `%d` conversion of `sscanf` (and the body of `atoi`): skips white space,
reads an optional sign and the longest run of digits.  Fails without a digit.
A value outside the range of `int` wraps around. -/
def scanInt (s : List Nat) : Option (Int × List Nat) :=
  let t := s.dropWhile isspace
  let neg : Bool := decide (t.head? = some 45)
  let u := if t.head? = some 45 ∨ t.head? = some 43 then t.tail else t
  let ds := u.takeWhile isdigit
  if ds = [] then none
  else some (wrapInt (if neg then -(digitsVal ds : Int) else (digitsVal ds : Int)),
             u.dropWhile isdigit)

/-- The C `atoi`. -/
def atoi (s : List Nat) : Int :=
  match scanInt s with
  | some (v, _) => v
  | none => 0

/-- What `sscanf(args, "%s %d %s %d", subject, &sid, reply, &size)` assigned. -/
inductive ScanMsg where
  /-- Fewer than three conversions succeeded; `count` is the return value. -/
  | fewer (count : Int)
  /-- Return value 3: `subject`, `sid` and `reply` were assigned. -/
  | three (subject : List Nat) (sid : Int) (reply : List Nat)
  /-- Return value 4: all four were assigned. -/
  | four (subject : List Nat) (sid : Int) (reply : List Nat) (size : Int)
  deriving DecidableEq, Repr

/-- A run that has no final state. -/
inductive Fault where
  /-- The call never returns (a wait loop without timeout whose bytes never arrive). -/
  | hang
  /-- A write past the end of a fixed-size buffer. -/
  | overflow
  deriving DecidableEq, Repr

deriving instance DecidableEq for Except

/-- The call `sscanf(args, "%s %d %s %d", subject, &sid, reply, &size)` of
`_processMsg`; `subject` and `reply` are arrays of `cap` bytes, so a token of
`cap` or more bytes is written past their end. -/
def sscanfMsg (cap : Nat) (args : List Nat) : Except Fault ScanMsg :=
  match scanStr args with
  | none => .ok (.fewer (-1))
  | some (subject, r1) =>
    if cap ≤ subject.length then .error .overflow
    else
      match scanInt r1 with
      | none => .ok (.fewer 1)
      | some (sid, r2) =>
        match scanStr r2 with
        | none => .ok (.fewer 2)
        | some (reply, r3) =>
          if cap ≤ reply.length then .error .overflow
          else
            match scanInt r3 with
            | none => .ok (.three subject sid reply)
            | some (size, _) => .ok (.four subject sid reply size)

/-! ## The state -/

/-- The transport `_client` (a `WiFiClient` / `EthernetClient`), as the test double
`MockClient` implements it. -/
structure Transport where
  /-- Whether `connect(host, port)` succeeds. -/
  reachable : Bool
  /-- The value of `connected()`. -/
  isOpen : Bool
  /-- The bytes available for `read()`, next byte first. -/
  rx : List Nat
  /-- All bytes written so far, oldest first. -/
  tx : List Nat
  deriving DecidableEq, Repr

/-- A `MessageHandler`: an empty `std::function`, or a callable known by a number. -/
abbrev MessageHandler := Option Nat

/-- A `ConnectionHandler`: an empty `std::function`, or a callable known by a number. -/
abbrev ConnectionHandler := Option Nat

/-- An invocation of a user supplied handler. -/
inductive Event where
  /-- A call `handler(subject, data, reply)` of a `MessageHandler`. -/
  | message (handler : Nat) (subject data reply : List Nat)
  /-- A call `handler(connected)` of a `ConnectionHandler`. -/
  | connection (handler : Nat) (connected : Bool)
  deriving DecidableEq, Repr

/-- The `struct Subscription`. -/
structure Subscription where
  subject : List Nat
  handler : MessageHandler
  sid : Int
  active : Bool
  deriving DecidableEq, Repr

/-- The `struct PendingRequest`. -/
structure PendingRequest where
  inbox : List Nat
  handler : MessageHandler
  timeout : Nat
  timestamp : Nat
  active : Bool
  deriving DecidableEq, Repr

/-- The members of `class NATSClient`, followed by the environment. -/
structure NATSClient where
  _client : Transport
  _server : List Nat
  _port : Nat
  _user : List Nat
  _pass : List Nat
  _token : List Nat
  _clientId : List Nat
  _deviceId : List Nat
  _deviceType : List Nat
  _deviceName : List Nat
  _autoDiscovery : Bool
  _lastAnnounce : Nat
  _connected : Bool
  _reconnecting : Bool
  _reconnectEnabled : Bool
  _reconnectAttempts : Int
  _lastReconnectAttempt : Nat
  _subscriptions : List Subscription
  _nextSid : Int
  _pendingRequests : List PendingRequest
  _connectHandler : ConnectionHandler
  _disconnectHandler : ConnectionHandler
  _inBuffer : List Nat
  _inBufferPos : Nat
  _lastError : List Nat
  _lastPing : Nat
  _pingInterval : Nat
  _verbose : Bool
  /-- The current value of `millis()`. -/
  millis : Nat
  /-- The values that the coming calls of `random(0xFFFF)` return. -/
  randomSource : List Nat
  /-- The handler invocations so far, oldest first. -/
  events : List Event
  deriving DecidableEq, Repr

namespace Transport

/-- The method `connect(host, port)`. -/
def connect (t : Transport) : Bool × Transport :=
  if t.reachable then (true, { t with isOpen := true }) else (false, t)

/-- The methods `print` and `write`. -/
def write (t : Transport) (s : List Nat) : Transport := { t with tx := t.tx ++ s }

/-- The method `stop()`. -/
def stop (t : Transport) : Transport := { t with isOpen := false }

end Transport

namespace NATSClient

/-- Writes bytes to the transport: `_client.print(s)` / `_client.write(s, n)`. -/
def send (c : NATSClient) (s : List Nat) : NATSClient :=
  { c with _client := c._client.write s }

/-- Replaces the bytes that are available for reading. -/
def setRx (c : NATSClient) (rx : List Nat) : NATSClient :=
  { c with _client := { c._client with rx := rx } }

/-- Records a handler invocation. -/
def emit (c : NATSClient) (e : Event) : NATSClient :=
  { c with events := c.events ++ [e] }

/-- The constructor `NATSClient::NATSClient()`, for an object in zero-initialised
storage, given the environment it runs in. -/
def new (net : Transport) (now : Nat) (rnd : List Nat) : NATSClient where
  _client := net
  _server := []
  _port := 0
  _user := []
  _pass := []
  _token := []
  _clientId := bytes "arduino_" ++ decimal now
  _deviceId := []
  _deviceType := []
  _deviceName := []
  _autoDiscovery := false
  _lastAnnounce := 0
  _connected := false
  _reconnecting := false
  _reconnectEnabled := true
  _reconnectAttempts := 0
  _lastReconnectAttempt := 0
  _subscriptions :=
    List.replicate MAX_SUBSCRIPTIONS { subject := [], handler := none, sid := 0, active := false }
  _nextSid := 1
  _pendingRequests :=
    List.replicate MAX_PENDING_REQUESTS
      { inbox := [], handler := none, timeout := 0, timestamp := 0, active := false }
  _connectHandler := none
  _disconnectHandler := none
  _inBuffer := List.replicate IN_BUFFER_SIZE 0
  _inBufferPos := 0
  _lastError := []
  _lastPing := 0
  _pingInterval := NATS_PING_INTERVAL
  _verbose := false
  millis := now
  randomSource := rnd
  events := []

end NATSClient

/-! ## The operations of `NATSClient.cpp` -/

namespace NATSClient

/-- The method `connected()`. -/
def connected (c : NATSClient) : Bool := c._connected && c._client.isOpen

/-- The method `isReconnecting()`. -/
def isReconnecting (c : NATSClient) : Bool := c._reconnecting

/-- The method `getLastPingTime()`. -/
def getLastPingTime (c : NATSClient) : Nat := c._lastPing

/-- The method `getLastError()`. -/
def getLastError (c : NATSClient) : List Nat := c._lastError

/-- The method `setDeviceInfo`. -/
def setDeviceInfo (c : NATSClient) (deviceId deviceType deviceName : List Nat) : NATSClient :=
  { c with _deviceId := strncpy deviceId 63, _deviceType := strncpy deviceType 31,
           _deviceName := strncpy deviceName 63 }

/-- The method `enableAutoDiscovery`. -/
def enableAutoDiscovery (c : NATSClient) (enable : Bool) : NATSClient :=
  { c with _autoDiscovery := enable }

/-- The method `onConnect`. -/
def onConnect (c : NATSClient) (handler : ConnectionHandler) : NATSClient :=
  { c with _connectHandler := handler }

/-- The method `onDisconnect`. -/
def onDisconnect (c : NATSClient) (handler : ConnectionHandler) : NATSClient :=
  { c with _disconnectHandler := handler }

/-- The method `setClientID`. -/
def setClientID (c : NATSClient) (clientId : List Nat) : NATSClient :=
  { c with _clientId := strncpy clientId 63 }

/-- The method `setReconnect`. -/
def setReconnect (c : NATSClient) (enable : Bool) : NATSClient :=
  { c with _reconnectEnabled := enable }

/-- The method `setPingInterval`. -/
def setPingInterval (c : NATSClient) (interval : Nat) : NATSClient :=
  { c with _pingInterval := interval % WORD }

/-- The method `setVerbose`. -/
def setVerbose (c : NATSClient) (verbose : Bool) : NATSClient :=
  { c with _verbose := verbose }

/-- The first line of a `PUB` command as `publish` formats it:
`sprintf(cmd, "PUB %s %d" NATS_CR_LF, subject, size)`. -/
def pubHeader (subject : List Nat) (size : Nat) : List Nat :=
  bytes "PUB " ++ subject ++ bytes " " ++ fmtInt (sizeAsInt size) ++ NATS_CR_LF

/-- The method `publish(const char* subject, const uint8_t* data, size_t size)`, where
`size` is the length of `data`.  The command line is formatted into `char cmd[512]`. -/
def publish (c : NATSClient) (subject data : List Nat) : Except Fault (Bool × NATSClient) :=
  if !c._connected then
    .ok (false, { c with _lastError := bytes "Not connected" })
  else if 512 ≤ (pubHeader subject data.length).length then
    .error .overflow
  else
    .ok (true, ((c.send (pubHeader subject data.length)).send data).send NATS_CR_LF)

/-- The method `publish(const char* subject, const char* data)`. -/
def publishStr (c : NATSClient) (subject data : List Nat) : Except Fault (Bool × NATSClient) :=
  publish c subject data

/-- The command `sprintf(cmd, "SUB %s %d" NATS_CR_LF, subject, sid)`. -/
def subCommand (subject : List Nat) (sid : Int) : List Nat :=
  bytes "SUB " ++ subject ++ bytes " " ++ fmtInt sid ++ NATS_CR_LF

/-- The command `sprintf(cmd, "UNSUB %d" NATS_CR_LF, sid)`. -/
def unsubCommand (sid : Int) : List Nat :=
  bytes "UNSUB " ++ fmtInt sid ++ NATS_CR_LF

/-- Index of the first slot that is not active (the "find free slot" loop of
`subscribe`), if there is one. -/
def freeSubscription (subs : List Subscription) : Option Nat :=
  subs.findIdx? (fun s => !s.active)

/-- The method `subscribe`.  The `SUB` line is formatted into
`char cmd[NATS_MAX_SUBJECT_LENGTH + 20]` from the subject as it was passed. -/
def subscribe (c : NATSClient) (subject : List Nat) (handler : MessageHandler) :
    Except Fault (Bool × NATSClient) :=
  if !c._connected then
    .ok (false, { c with _lastError := bytes "Not connected" })
  else
    match freeSubscription c._subscriptions with
    | none => .ok (false, { c with _lastError := bytes "Max subscriptions reached" })
    | some slot =>
      if NATS_MAX_SUBJECT_LENGTH + 20 ≤ (subCommand subject c._nextSid).length then
        .error .overflow
      else
        let entry : Subscription :=
          { subject := strncpy subject (NATS_MAX_SUBJECT_LENGTH - 1), handler := handler,
            sid := c._nextSid, active := true }
        .ok (true,
          ({ c with _subscriptions := c._subscriptions.set slot entry,
                    _nextSid := wrapInt (c._nextSid + 1) }).send
            (subCommand subject c._nextSid))

/-- The method `_findSubscription`: index of the first active slot that stores the
subject. -/
def _findSubscription (c : NATSClient) (subject : List Nat) : Option Nat :=
  c._subscriptions.findIdx? (fun s => s.active && decide (s.subject = subject))

/-- The method `_findPendingRequest`. -/
def _findPendingRequest (c : NATSClient) (inbox : List Nat) : Option Nat :=
  c._pendingRequests.findIdx? (fun r => r.active && decide (r.inbox = inbox))

/-- Marks slot `slot` of a subscription table inactive. -/
def deactivate (subs : List Subscription) (slot : Nat) : List Subscription :=
  subs.modify (fun s => { s with active := false }) slot

/-- The method `unsubscribe`.  The `UNSUB` line always fits into `char cmd[20]`. -/
def unsubscribe (c : NATSClient) (subject : List Nat) : Bool × NATSClient :=
  if !c._connected then (false, c)
  else
    match c._findSubscription subject with
    | none => (false, c)
    | some slot =>
      (true,
        { c.send (unsubCommand ((c._subscriptions[slot]?).elim 0 (fun s => s.sid))) with
          _subscriptions := deactivate c._subscriptions slot })

/-- The method `_generateInbox`:
`sprintf(inbox, "%s%08lX%04X", NATS_INBOX_PREFIX, millis(), random(0xFFFF))`.
Returns the inbox and the state in which the random value is used up. -/
def _generateInbox (c : NATSClient) : List Nat × NATSClient :=
  (NATS_INBOX_PREFIX ++ fmtHex 8 c.millis ++ fmtHex 4 (c.randomSource.headD 0 % 65535),
   { c with randomSource := c.randomSource.tail })

/-- Index of the first pending-request slot that is not active. -/
def freePendingRequest (reqs : List PendingRequest) : Option Nat :=
  reqs.findIdx? (fun r => !r.active)

/-- The first line of the `PUB` command of `request`:
`sprintf(cmd, "PUB %s %s %d" NATS_CR_LF, subject, inbox, strlen(data))`. -/
def requestHeader (subject inbox : List Nat) (size : Nat) : List Nat :=
  bytes "PUB " ++ subject ++ bytes " " ++ inbox ++ bytes " " ++ fmtInt (sizeAsInt size)
    ++ NATS_CR_LF

/-- The method `request`. -/
def request (c : NATSClient) (subject data : List Nat) (handler : MessageHandler)
    (timeout : Nat) : Except Fault (Bool × NATSClient) :=
  if !c._connected then
    .ok (false, { c with _lastError := bytes "Not connected" })
  else
    match freePendingRequest c._pendingRequests with
    | none => .ok (false, { c with _lastError := bytes "Max pending requests reached" })
    | some slot =>
      let (inbox, c1) := c._generateInbox
      let c2 : NATSClient :=
        { c1 with _pendingRequests :=
                    c1._pendingRequests.modify (fun r => { r with inbox := inbox }) slot }
      match c2.subscribe inbox handler with
      | .error f => .error f
      | .ok (false, c3) => .ok (false, c3)
      | .ok (true, c3) =>
        let c4 : NATSClient :=
          { c3 with _pendingRequests :=
                      c3._pendingRequests.modify
                        (fun r => { r with handler := handler, timeout := timeout % WORD,
                                           timestamp := c3.millis, active := true }) slot }
        if 512 ≤ (requestHeader subject inbox data.length).length then .error .overflow
        else
          .ok (true,
            ((c4.send (requestHeader subject inbox data.length)).send data).send NATS_CR_LF)

/-- The JSON text that `announceDevice` formats.  With the capacities of `_deviceId`,
`_deviceType` and `_deviceName` it always fits into `char json[512]`. -/
def announceJson (c : NATSClient) : List Nat :=
  bytes "\x7b\"device_id\":\"" ++ c._deviceId ++ bytes "\",\"device_type\":\"" ++ c._deviceType
    ++ bytes "\",\"name\":\"" ++ c._deviceName
    ++ bytes "\",\"platform\":\"arduino\",\"online\":true\x7d"

/-- The method `announceDevice`. -/
def announceDevice (c : NATSClient) : Except Fault NATSClient :=
  if !c._connected || c._deviceId.length = 0 then .ok c
  else
    match c.publishStr (bytes "home.discovery.announce") c.announceJson with
    | .error f => .error f
    | .ok (_, c1) => .ok { c1 with _lastAnnounce := c1.millis }

/-- The JSON text that `_sendConnect` formats.  With the capacities of `_clientId`,
`_token`, `_user` and `_pass` it always fits into `char json[512]`. -/
def connectJson (c : NATSClient) : List Nat :=
  if c._token.length > 0 then
    bytes "\x7b\"verbose\":false,\"pedantic\":false,\"tls_required\":false,\"name\":\""
      ++ c._clientId ++ bytes "\",\"auth_token\":\"" ++ c._token
      ++ bytes "\",\"proto\":1,\"echo\":true\x7d"
  else if c._user.length > 0 then
    bytes "\x7b\"verbose\":false,\"pedantic\":false,\"tls_required\":false,\"name\":\""
      ++ c._clientId ++ bytes "\",\"user\":\"" ++ c._user ++ bytes "\",\"pass\":\"" ++ c._pass
      ++ bytes "\",\"proto\":1,\"echo\":true\x7d"
  else
    bytes "\x7b\"verbose\":false,\"pedantic\":false,\"tls_required\":false,\"name\":\""
      ++ c._clientId ++ bytes "\",\"proto\":1,\"echo\":true\x7d"

/-- The method `_sendConnect`. -/
def _sendConnect (c : NATSClient) : Bool × NATSClient :=
  (true, ((c.send (bytes "CONNECT ")).send c.connectJson).send NATS_CR_LF)

/-- The method `_sendPing`. -/
def _sendPing (c : NATSClient) : Bool × NATSClient :=
  if !c._connected then (false, c)
  else (true, { c.send (bytes "PING" ++ NATS_CR_LF) with _lastPing := c.millis })

/-- The method `_sendPong`. -/
def _sendPong (c : NATSClient) : Bool × NATSClient :=
  if !c._connected then (false, c)
  else (true, c.send (bytes "PONG" ++ NATS_CR_LF))

/-- The method `_processInfo`. -/
def _processInfo (c : NATSClient) (_json : List Nat) : Bool × NATSClient := (true, c)

/-- The method `_processPing`. -/
def _processPing (c : NATSClient) : Bool × NATSClient := c._sendPong

/-- The method `_processOk`. -/
def _processOk (c : NATSClient) : Bool × NATSClient := (true, c)

/-- The method `_processErr`. -/
def _processErr (c : NATSClient) (error : List Nat) : Bool × NATSClient :=
  (false, { c with _lastError := strncpy error 127 })

/-- The part of `_processMsg` after the arguments are parsed: reads the payload,
discards the line ends that follow it and calls the handler of the first active
subscription with the identifier `sid`. -/
def deliver (c : NATSClient) (subject : List Nat) (sid : Int) (reply : List Nat) (size : Int) :
    Except Fault (Bool × NATSClient) :=
  let need := min (toSize size) (NATS_MAX_PAYLOAD_SIZE - 1)
  if c._client.rx.length < need then .error .hang
  else
    let payload := c._client.rx.take need
    let c1 := c.setRx ((c._client.rx.drop need).dropWhile (fun b => b = 13 ∨ b = 10))
    match c1._subscriptions.find? (fun s => s.active && decide (s.sid = sid)) with
    | none => .ok (false, c1)
    | some s =>
      match s.handler with
      | none => .ok (true, c1)
      | some h => .ok (true, c1.emit (.message h subject (cstr payload) reply))

/-- The method `_processMsg`. -/
def _processMsg (c : NATSClient) (args : List Nat) : Except Fault (Bool × NATSClient) :=
  match sscanfMsg NATS_MAX_SUBJECT_LENGTH args with
  | .error f => .error f
  | .ok (.fewer _) => .ok (false, c)
  | .ok (.three subject sid reply) => c.deliver subject sid [] (atoi reply)
  | .ok (.four subject sid reply size) => c.deliver subject sid reply size

/-- The method `_processLine`, on the line that `_inBuffer` holds. -/
def _processLine (c : NATSClient) : Except Fault (Bool × NATSClient) :=
  if strncmpEq (cstr c._inBuffer) (bytes "MSG") 3 then c._processMsg (cstrAt c._inBuffer 4)
  else if strncmpEq (cstr c._inBuffer) (bytes "PING") 4 then .ok c._processPing
  else if strncmpEq (cstr c._inBuffer) (bytes "PONG") 4 then .ok (true, c)
  else if strncmpEq (cstr c._inBuffer) (bytes "+OK") 3 then .ok c._processOk
  else if strncmpEq (cstr c._inBuffer) (bytes "-ERR") 4 then
    .ok (c._processErr (cstrAt c._inBuffer 5))
  else if strncmpEq (cstr c._inBuffer) (bytes "INFO") 4 then
    .ok (c._processInfo (cstrAt c._inBuffer 5))
  else .ok (true, c)

/-- The "Wait for INFO" loop of `connect`, on the bytes `rx` that are available.
Every byte is stored at the cursor without a bounds check.  The loop ends at the
first complete line that starts with `INFO`; when the bytes run out before, it
ends by timeout. -/
def awaitInfo (c : NATSClient) : List Nat → Except Fault NATSClient
  | [] => .ok { c.setRx [] with millis := (c.millis + NATS_CONNECTION_TIMEOUT) % WORD }
  | b :: rest =>
    if IN_BUFFER_SIZE ≤ c._inBufferPos then .error .overflow
    else
      let buf := c._inBuffer.set c._inBufferPos b
      let pos := c._inBufferPos + 1
      if b = 10 ∧ pos > 1 ∧ buf.getD (pos - 2) 0 = 13 then
        let line := buf.set (pos - 2) 0
        let c1 : NATSClient := { c.setRx rest with _inBuffer := line, _inBufferPos := 0 }
        if strncmpEq (cstr line) (bytes "INFO") 4 then .ok (c1._processInfo (cstrAt line 5)).2
        else awaitInfo c1 rest
      else awaitInfo { c.setRx rest with _inBuffer := buf, _inBufferPos := pos } rest

/-- The commands that re-subscribe all active subscriptions, in slot order.  A stored
subject has at most 255 bytes, so each command fits into
`char cmd[NATS_MAX_SUBJECT_LENGTH + 20]`. -/
def resubscribeCommands (subs : List Subscription) : List Nat :=
  ((subs.filter (fun s => s.active)).map (fun s => subCommand s.subject s.sid)).flatten

/-- The branch of `connect` that is taken when the line `+OK` arrives. -/
def acknowledged (c : NATSClient) : Except Fault (Bool × NATSClient) :=
  let c1 : NATSClient :=
    { c with _connected := true, _reconnectAttempts := 0, _lastPing := c.millis }
  let c2 := match c1._connectHandler with
    | some h => c1.emit (.connection h true)
    | none => c1
  let c3 := c2.send (resubscribeCommands c2._subscriptions)
  if c3._autoDiscovery && decide (c3._deviceId.length > 0) then
    match c3.announceDevice with
    | .error f => .error f
    | .ok c4 => .ok (true, c4)
  else .ok (true, c3)

/-- The "Wait for +OK" loop of `connect`, with the code that follows it. -/
def awaitOk (c : NATSClient) : List Nat → Except Fault (Bool × NATSClient)
  | [] =>
    .ok (false,
      { c.setRx [] with millis := (c.millis + NATS_CONNECTION_TIMEOUT) % WORD,
                        _lastError := bytes "Connection timeout",
                        _client := ({ c._client with rx := [] }).stop })
  | b :: rest =>
    if IN_BUFFER_SIZE ≤ c._inBufferPos then .error .overflow
    else
      let buf := c._inBuffer.set c._inBufferPos b
      let pos := c._inBufferPos + 1
      if b = 10 ∧ pos > 1 ∧ buf.getD (pos - 2) 0 = 13 then
        let line := buf.set (pos - 2) 0
        let c1 : NATSClient := { c.setRx rest with _inBuffer := line, _inBufferPos := 0 }
        if cstr line = bytes "+OK" then c1.acknowledged
        else if strncmpEq (cstr line) (bytes "-ERR") 4 then
          .ok (false, { c1 with _lastError := strncpy (cstrAt line 5) 127,
                                _client := c1._client.stop })
        else awaitOk c1 rest
      else awaitOk { c.setRx rest with _inBuffer := buf, _inBufferPos := pos } rest

/-- The method `connect(server, port, user, pass)`. -/
def connect (c : NATSClient) (server : List Nat) (port : Nat) (user pass : List Nat) :
    Except Fault (Bool × NATSClient) :=
  let c1 : NATSClient :=
    { c with _server := strncpy server 63, _port := port % 65536, _user := strncpy user 63,
             _pass := strncpy pass 63 }
  if !c1._client.connect.1 then
    .ok (false, { c1 with _lastError := bytes "Connection failed" })
  else
    let c2 : NATSClient := { c1 with _client := c1._client.connect.2 }
    match c2.awaitInfo c2._client.rx with
    | .error f => .error f
    | .ok c3 =>
      let c4 := c3._sendConnect.2
      c4.awaitOk c4._client.rx

/-- The method `connect(server, port)`. -/
def connectAnonymous (c : NATSClient) (server : List Nat) (port : Nat) :
    Except Fault (Bool × NATSClient) :=
  c.connect server port [] []

/-- The method `connect(server, port, token)`. -/
def connectToken (c : NATSClient) (server : List Nat) (port : Nat) (token : List Nat) :
    Except Fault (Bool × NATSClient) :=
  ({ c with _token := strncpy token 255 }).connect server port [] []

/-- The method `disconnect`. -/
def disconnect (c : NATSClient) : NATSClient :=
  if c._connected then
    let c1 : NATSClient := { c with _client := c._client.stop, _connected := false }
    match c1._disconnectHandler with
    | some h => c1.emit (.connection h false)
    | none => c1
  else c

/-- The method `_cleanupPendingRequests`, on the slots from index `i` on. -/
def cleanupFrom (c : NATSClient) : Nat → List PendingRequest → NATSClient
  | _, [] => c
  | i, r :: rest =>
    if r.active && decide (usub c.millis r.timestamp > r.timeout) then
      let c1 := (c.unsubscribe r.inbox).2
      cleanupFrom
        { c1 with _pendingRequests :=
                    c1._pendingRequests.modify (fun q => { q with active := false }) i }
        (i + 1) rest
    else cleanupFrom c (i + 1) rest

/-- The method `_cleanupPendingRequests`. -/
def _cleanupPendingRequests (c : NATSClient) : NATSClient :=
  c.cleanupFrom 0 c._pendingRequests

/-- The method `_reconnect`. -/
def _reconnect (c : NATSClient) : Except Fault (Bool × NATSClient) :=
  if c._reconnectAttempts ≥ NATS_MAX_RECONNECT_ATTEMPTS then .ok (false, c)
  else
    let c1 : NATSClient :=
      { c with _reconnecting := true, _reconnectAttempts := wrapInt (c._reconnectAttempts + 1) }
    match c1.connect c1._server c1._port c1._user c1._pass with
    | .error f => .error f
    | .ok (result, c2) => .ok (result, { c2 with _reconnecting := false })

/-- The method `_reset`. -/
def _reset (c : NATSClient) : NATSClient :=
  { c with _connected := false, _inBufferPos := 0, _lastPing := 0 }

/-- The "Process incoming data" loop of `loop`.  Every pass reads one byte, so
`fuel` passes are enough when at most `fuel` bytes are available. -/
def drain : Nat → NATSClient → Except Fault NATSClient
  | 0, c => .ok c
  | fuel + 1, c =>
    match c._client.rx with
    | [] => .ok c
    | b :: rest =>
      let c1 := c.setRx rest
      let c2 : NATSClient :=
        if c1._inBufferPos < IN_BUFFER_SIZE - 1 then
          { c1 with _inBuffer := c1._inBuffer.set c1._inBufferPos b,
                    _inBufferPos := c1._inBufferPos + 1 }
        else c1
      if b = 10 ∧ c2._inBufferPos > 1 ∧ c2._inBuffer.getD (c2._inBufferPos - 2) 0 = 13 then
        match ({ c2 with _inBuffer := c2._inBuffer.set (c2._inBufferPos - 2) 0 })._processLine with
        | .error f => .error f
        | .ok (_, c3) => drain fuel { c3 with _inBufferPos := 0 }
      else drain fuel c2

/-- The part of `loop` that follows the "Process incoming data" loop. -/
def housekeeping (c : NATSClient) : Except Fault NATSClient :=
  let c1 :=
    if c._connected && decide (usub c.millis c._lastPing > c._pingInterval) then c._sendPing.2
    else c
  let c2 := c1._cleanupPendingRequests
  if c2._connected && c2._autoDiscovery && decide (c2._deviceId.length > 0) then
    if usub c2.millis c2._lastAnnounce > 300000 then c2.announceDevice else .ok c2
  else .ok c2

/-- The start of the "Check connection" branch of `loop`: when the connected flag is
still set, it is cleared and the disconnect handler is called. -/
def noticeDisconnect (c : NATSClient) : NATSClient :=
  if c._connected then
    match c._disconnectHandler with
    | some h => ({ c with _connected := false }).emit (.connection h false)
    | none => { c with _connected := false }
  else c

/-- The method `loop`. -/
def loop (c : NATSClient) : Except Fault NATSClient :=
  if !c._client.isOpen then
    let c1 := c.noticeDisconnect
    if c1._reconnectEnabled && !c1._reconnecting then
      if usub c1.millis c1._lastReconnectAttempt > 5000 then
        match ({ c1 with _lastReconnectAttempt := c1.millis })._reconnect with
        | .error f => .error f
        | .ok (_, c2) => .ok c2
      else .ok c1
    else .ok c1
  else
    match drain c._client.rx.length c with
    | .error f => .error f
    | .ok c1 => c1.housekeeping

end NATSClient

/-! ## The environment, and runs of the client -/

namespace NATSClient

/-- The environment delivers bytes: they are appended to the bytes that are
available for reading. -/
def receive (c : NATSClient) (data : List Nat) : NATSClient :=
  c.setRx (c._client.rx ++ data)

/-- The environment closes the connection: `_client.connected()` becomes false. -/
def linkDown (c : NATSClient) : NATSClient :=
  { c with _client := c._client.stop }

/-- The clock advances by `ms` milliseconds. -/
def elapse (c : NATSClient) (ms : Nat) : NATSClient :=
  { c with millis := (c.millis + ms) % WORD }

end NATSClient

/-- One step of a run: a call of a public method of the client, or an event of
the environment. -/
inductive Op where
  | connect (server : List Nat) (port : Nat) (user pass : List Nat)
  | connectAnonymous (server : List Nat) (port : Nat)
  | connectToken (server : List Nat) (port : Nat) (token : List Nat)
  | disconnect
  | loop
  | publish (subject data : List Nat)
  | subscribe (subject : List Nat) (handler : MessageHandler)
  | unsubscribe (subject : List Nat)
  | request (subject data : List Nat) (handler : MessageHandler) (timeout : Nat)
  | setDeviceInfo (deviceId deviceType deviceName : List Nat)
  | enableAutoDiscovery (enable : Bool)
  | announceDevice
  | onConnect (handler : ConnectionHandler)
  | onDisconnect (handler : ConnectionHandler)
  | setClientID (clientId : List Nat)
  | setReconnect (enable : Bool)
  | setPingInterval (interval : Nat)
  | setVerbose (verbose : Bool)
  /-- Bytes arrive from the server. -/
  | receive (data : List Nat)
  /-- Time passes. -/
  | elapse (ms : Nat)
  /-- The connection is closed by the peer. -/
  | linkDown
  /-- The server becomes reachable, or unreachable. -/
  | reachable (up : Bool)
  /-- The random source is replaced. -/
  | reseed (values : List Nat)
  deriving DecidableEq, Repr

/-- The effect of one step; the boolean is the value that the method returns
(`true` for a method without return value and for an event of the environment). -/
def step (c : NATSClient) : Op → Except Fault (Bool × NATSClient)
  | .connect server port user pass => c.connect server port user pass
  | .connectAnonymous server port => c.connectAnonymous server port
  | .connectToken server port token => c.connectToken server port token
  | .disconnect => .ok (true, c.disconnect)
  | .loop => (c.loop).map (fun c1 => (true, c1))
  | .publish subject data => c.publish subject data
  | .subscribe subject handler => c.subscribe subject handler
  | .unsubscribe subject => .ok (c.unsubscribe subject)
  | .request subject data handler timeout => c.request subject data handler timeout
  | .setDeviceInfo deviceId deviceType deviceName =>
    .ok (true, c.setDeviceInfo deviceId deviceType deviceName)
  | .enableAutoDiscovery enable => .ok (true, c.enableAutoDiscovery enable)
  | .announceDevice => (c.announceDevice).map (fun c1 => (true, c1))
  | .onConnect handler => .ok (true, c.onConnect handler)
  | .onDisconnect handler => .ok (true, c.onDisconnect handler)
  | .setClientID clientId => .ok (true, c.setClientID clientId)
  | .setReconnect enable => .ok (true, c.setReconnect enable)
  | .setPingInterval interval => .ok (true, c.setPingInterval interval)
  | .setVerbose verbose => .ok (true, c.setVerbose verbose)
  | .receive data => .ok (true, c.receive data)
  | .elapse ms => .ok (true, c.elapse ms)
  | .linkDown => .ok (true, c.linkDown)
  | .reachable up => .ok (true, { c with _client := { c._client with reachable := up } })
  | .reseed values => .ok (true, { c with randomSource := values })

/-- Whether a step that returned `result` stored a new subscription: a `subscribe`
or a `request` that returned true. -/
def storesSubscription : Op → Bool → Bool
  | .subscribe _ _, result => result
  | .request _ _ _ _, result => result
  | _, _ => false

/-- Runs a sequence of steps from state `c`.  The number `n` of successful
subscriptions so far is counted along. -/
def run (c : NATSClient) (n : Nat) : List Op → Except Fault (NATSClient × Nat)
  | [] => .ok (c, n)
  | op :: ops =>
    match step c op with
    | .error f => .error f
    | .ok (result, c1) => run c1 (if storesSubscription op result then n + 1 else n) ops

/-- Any two distinct active slots of the subscription table hold different `sid`
values. -/
def SidsDistinct (subs : List Subscription) : Prop :=
  ∀ (i j : Nat) (s t : Subscription), subs[i]? = some s → subs[j]? = some t → i ≠ j →
    s.active = true → t.active = true → s.sid ≠ t.sid

/-- Number of active slots that store `subject`. -/
def activeCount (subs : List Subscription) (subject : List Nat) : Nat :=
  (subs.filter (fun s => s.active && decide (s.subject = subject))).length

/-! ## Scenarios -/

/-- A server that accepts the connection and has sent `INFO {}` and `+OK`. -/
def greeting : Transport :=
  { reachable := true, isOpen := false, rx := bytes "INFO \x7b\x7d\r\n+OK\r\n", tx := [] }

/-- A client right after a successful handshake with `greeting`. -/
def handshaken : Except Fault NATSClient :=
  ((NATSClient.new greeting 0 []).connect (bytes "test.server") 4222 [] []).map Prod.snd

/-- A server that accepts the connection and answers with an authorization error
only, as in `test_connection_error`. -/
def rejecting : Transport :=
  { reachable := true, isOpen := false,
    rx := bytes "-ERR \x27Authorization Violation\x27\r\n", tx := [] }

/-- The call of `test_connection_error`: a new client connects with a user and a
password to the server `rejecting`. -/
def rejectedConnect : Except Fault (Bool × NATSClient) :=
  (NATSClient.new rejecting 0 []).connect (bytes "test.server") 4222 (bytes "baduser")
    (bytes "badpass")

/-- A connected client publishes on a subject of 512 bytes. -/
def publishLongSubject : Except Fault (Bool × NATSClient) :=
  handshaken >>= fun c => c.publish (List.replicate 512 97) []

/-- A connected client issues a request (its inbox gets the `sid` 1); the server
answers twice on the inbox and the client runs `loop` once. -/
def requestAnsweredTwice : Except Fault NATSClient :=
  handshaken >>= fun c =>
  c.request (bytes "time.service") [] (some 7) 1000 >>= fun r =>
  (r.2.receive (bytes "MSG _INBOX.000000000000 1 2\r\nhi\r\nMSG _INBOX.000000000000 1 2\r\nyo\r\n")).loop

/-- A connected client has read the first two bytes of a line when the connection
is lost; the server is reached again and greets with `INFO {}` and `+OK`; the
client connects. -/
def reconnectAfterPartialLine : Except Fault (Bool × NATSClient) :=
  handshaken >>= fun c =>
  (c.receive (bytes "PI")).loop >>= fun c1 =>
  ((c1.linkDown).receive (bytes "INFO \x7b\x7d\r\n+OK\r\n")).connect (bytes "test.server") 4222 [] []

/-- A new client connects to a server whose `INFO` line has 1607 bytes. -/
def connectLongInfo : Except Fault (Bool × NATSClient) :=
  (NATSClient.new
    { reachable := true, isOpen := false,
      rx := bytes "INFO " ++ List.replicate 1600 120 ++ bytes "\r\n+OK\r\n", tx := [] }
    0 []).connect (bytes "test.server") 4222 [] []

/-- A connected client with a subscription on `test.topic` (`sid` 1) has read the
first two bytes of a line; then `MSG test.topic 1 11` with the payload
`Hello World` arrives and `loop` runs. -/
def deliveryAfterPartialLine : Except Fault NATSClient :=
  handshaken >>= fun c =>
  c.subscribe (bytes "test.topic") (some 1) >>= fun r =>
  (r.2.receive (bytes "PI")).loop >>= fun c1 =>
  (c1.receive (bytes "MSG test.topic 1 11\r\nHello World\r\n")).loop

/-- A connected client with an active subscription (`sid` 1) receives a `MSG` line
whose subject is empty. -/
def deliveryEmptySubject : Except Fault NATSClient :=
  handshaken >>= fun c =>
  c.subscribe [] (some 1) >>= fun r =>
  (r.2.receive (bytes "MSG  1 11\r\nHello World\r\n")).loop

/-- A connected client subscribes twice to the subject `a` and then unsubscribes
from it twice; the result is the pair of the two return values. -/
def unsubscribeTwice : Except Fault (Bool × Bool) :=
  handshaken >>= fun c =>
  c.subscribe (bytes "a") (some 1) >>= fun r1 =>
  r1.2.subscribe (bytes "a") (some 2) >>= fun r2 =>
  pure ((r2.2.unsubscribe (bytes "a")).1,
        (((r2.2.unsubscribe (bytes "a")).2).unsubscribe (bytes "a")).1)

/-- The state of `test_message_parsing` before `loop`: connected, subscribed to
`test.topic` with `sid` 1, and the `MSG` line with its payload has arrived. -/
def messageParsing : Except Fault NATSClient :=
  handshaken >>= fun c =>
  c.subscribe (bytes "test.topic") (some 1) >>= fun r =>
  pure (r.2.receive (bytes "MSG test.topic 1 11\r\nHello World\r\n"))

/-- The final state of a run that returns (and the new client for a run that does
not). -/
def finalState (r : Except Fault NATSClient) : NATSClient :=
  match r with
  | .ok c => c
  | .error _ => NATSClient.new greeting 0 []

/-- The client right after the handshake with `greeting`. -/
def online : NATSClient := finalState handshaken

/-- The client `online` after `subscribe("a", handler 1)`. -/
def subscribedOnce : NATSClient :=
  finalState ((online.subscribe (bytes "a") (some 1)).map Prod.snd)

/-- The client `online` after `subscribe("test.topic", handler 1)`, as in
`test_message_parsing`. -/
def subscribedTopic : NATSClient :=
  finalState ((online.subscribe (bytes "test.topic") (some 1)).map Prod.snd)

/-! ## Notions used in the statements about `_cleanupPendingRequests` -/

/-- The table `subs2` arises from `subs1` by marking slots inactive, and for every
slot that was marked the bytes `w` contain its `UNSUB` command. -/
def Retired (subs1 subs2 : List Subscription) (w : List Nat) : Prop :=
  subs2.length = subs1.length ∧
  ∀ (k : Nat) (s : Subscription), subs1[k]? = some s →
    subs2[k]? = some s ∨
    (s.active = true ∧ subs2[k]? = some { s with active := false } ∧
      NATSClient.unsubCommand s.sid <:+: w)

/-- The pending request `r` after `_cleanupPendingRequests` examined it at the clock
value `now`: it is marked inactive when it was active and its timeout is over. -/
def evict (now : Nat) (r : PendingRequest) : PendingRequest :=
  if r.active && decide (usub now r.timestamp > r.timeout) then { r with active := false }
  else r

/-- The state `c` after the bytes `w` were written and the two tables and the two
time stamps of the periodic work were replaced; nothing else differs. -/
def NATSClient.upkeep (c : NATSClient) (w : List Nat) (subs : List Subscription)
    (reqs : List PendingRequest) (lastPing lastAnnounce : Nat) : NATSClient :=
  { c with _client := { c._client with tx := c._client.tx ++ w }, _subscriptions := subs,
           _pendingRequests := reqs, _lastPing := lastPing, _lastAnnounce := lastAnnounce }

/-- The client `online` when the server has sent `PING`, as in `test_ping_handling`. -/
def pinged : NATSClient := online.receive (bytes "PING\r\n")

/-- The client `online` whose line buffer holds the complete line `PONG`. -/
def lineIsPong : NATSClient :=
  { online with _inBuffer := bytes "PONG" ++ List.replicate (IN_BUFFER_SIZE - 4) 0 }

/-- The client `subscribedTopic` when the `MSG` line of `test_message_parsing` and its
payload have arrived. -/
def messageArrived : NATSClient :=
  subscribedTopic.receive (bytes "MSG test.topic 1 11\r\nHello World\r\n")

/-- The state `c` after incoming data were processed: the transport holds the unread
bytes `rx` and the written bytes `tx`, the handlers invoked so far are `ev`, and the
line buffer, its cursor and the last error were replaced; nothing else differs. -/
def NATSClient.intake (c : NATSClient) (rx tx buf : List Nat) (pos : Nat) (err : List Nat)
    (ev : List Event) : NATSClient :=
  { c with _client := { c._client with rx := rx, tx := tx }, _inBuffer := buf,
           _inBufferPos := pos, _lastError := err, events := ev }

/-- The client `online` after `request("time.service", "", handler 7, 1000)` at the
clock value 0. -/
def requestPending : NATSClient :=
  finalState ((online.request (bytes "time.service") [] (some 7) 1000).map Prod.snd)

/-- The subscription table together with the identifier counter. -/
def NATSClient.registry (c : NATSClient) : List Subscription × Int :=
  (c._subscriptions, c._nextSid)

/-- A run in which a session is set up, two subjects are subscribed, one of them is
unsubscribed again, a request is issued and time passes until it is evicted. -/
def sampleRun : List Op :=
  [.connect (bytes "test.server") 4222 [] [], .subscribe (bytes "a") (some 1),
   .subscribe (bytes "b") (some 2), .unsubscribe (bytes "a"),
   .request (bytes "time.service") [] (some 7) 1000, .subscribe (bytes "c") none,
   .elapse 2000, .loop, .publish (bytes "b") (bytes "x")]

/-- The state `c2` arises from `c` by a step that stores no subscription: the
identifier counter is the same and slots were at most marked inactive. -/
def Kept (c c2 : NATSClient) : Prop :=
  c2._nextSid = c._nextSid ∧ ∃ w, Retired c._subscriptions c2._subscriptions w

/-- The state `c2` arises from `c` by storing one subscription: a slot that was not
active holds an active entry with the old value of the identifier counter, and the
counter was incremented. -/
def Stored (c c2 : NATSClient) : Prop :=
  ∃ (slot : Nat) (entry : Subscription),
    NATSClient.freeSubscription c._subscriptions = some slot ∧ entry.active = true ∧
    entry.sid = c._nextSid ∧ c2._subscriptions = c._subscriptions.set slot entry ∧
    c2._nextSid = wrapInt (c._nextSid + 1)

/-- The invariant behind identifier uniqueness, for a state reached with `n`
successful subscriptions: as long as `n < 2^31`, the counter holds `n + 1`, the
active slots hold identifiers between 1 and `n`, and these are pairwise different. -/
def SidInvariant (c : NATSClient) (n : Nat) : Prop :=
  n < 2 ^ 31 →
    c._nextSid = wrapInt ((n : Int) + 1) ∧
    (∀ s ∈ c._subscriptions, s.active = true → 1 ≤ s.sid ∧ s.sid ≤ (n : Int)) ∧
    SidsDistinct c._subscriptions

/-! ## Scenarios for subscriptions, requests and the handshake body -/

/-- The client `subscribedTopic` publishes the three bytes 01 00 02 on `test.topic`;
the server echoes them as `MSG test.topic 1 3`; `loop` runs. -/
def roundTripZeroByte : Except Fault NATSClient :=
  subscribedTopic.publish (bytes "test.topic") [1, 0, 2] >>= fun r =>
  (r.2.receive (bytes "MSG test.topic 1 3\r\n" ++ [1, 0, 2] ++ NATS_CR_LF)).loop

/-- The client `subscribedTopic` publishes 1024 bytes `x` on `test.topic`; the server
echoes them as `MSG test.topic 1 1024`; `loop` runs. -/
def roundTripLarge : Except Fault NATSClient :=
  subscribedTopic.publish (bytes "test.topic") (List.replicate 1024 120) >>= fun r =>
  (r.2.receive
    (bytes "MSG test.topic 1 1024\r\n" ++ List.replicate 1024 120 ++ NATS_CR_LF)).loop

/-- The client `online` whose identifier counter has reached `INT_MAX`. -/
def counterAtMax : NATSClient := { online with _nextSid := 2147483647 }

/-- The client `online` after ten calls `subscribe("s", empty handler)`: every slot
of the subscription table is active. -/
def tableFull : NATSClient :=
  finalState ((run online 0 (List.replicate 10 (.subscribe (bytes "s") none))).map Prod.fst)

/-- The client `online` after five calls `request("q", "", empty handler, 1000)`:
every slot of the pending-request table is active. -/
def pendingFull : NATSClient :=
  finalState
    ((run online 0 (List.replicate 5 (.request (bytes "q") [] none 1000))).map Prod.fst)

/-- A new client connects with the token `test-token-123`, as in
`test_connect_with_token`; the server greets again and the client connects with the
user `testuser` and the password `testpass`. -/
def userAfterToken : Except Fault (Bool × NATSClient) :=
  (NATSClient.new greeting 0 []).connectToken (bytes "test.server") 4222
      (bytes "test-token-123") >>= fun r =>
  (r.2.receive (bytes "INFO \x7b\x7d\r\n+OK\r\n")).connect (bytes "test.server") 4222
    (bytes "testuser") (bytes "testpass")

/-- The `CONNECT` line that carries the client name `arduino_0` and the token
`test-token-123`. -/
def connectLineToken : List Nat :=
  bytes "CONNECT \x7b\"verbose\":false,\"pedantic\":false,\"tls_required\":false,\"name\":\"arduino_0\",\"auth_token\":\"test-token-123\",\"proto\":1,\"echo\":true\x7d\r\n"

/-- The `CONNECT` line that carries the client name `arduino_0` and no credentials. -/
def connectLinePlain : List Nat :=
  bytes "CONNECT \x7b\"verbose\":false,\"pedantic\":false,\"tls_required\":false,\"name\":\"arduino_0\",\"proto\":1,\"echo\":true\x7d\r\n"

/-- The calls of `test_device_info`: device information is set on a new client,
which then connects to the server `greeting`. -/
def deviceInfoConnect : Except Fault (Bool × NATSClient) :=
  ((NATSClient.new greeting 0 []).setDeviceInfo (bytes "test-device-01") (bytes "sensor")
    (bytes "Test Sensor")).connect (bytes "test.server") 4222 [] []

/-- A connected client issues a request on a subject of 512 bytes. -/
def requestLongSubject : Except Fault (Bool × NATSClient) :=
  online.request (List.replicate 512 97) [] (some 7) 1000

/-- The active entry with the given subject, handler and identifier. -/
def Subscription.fresh (subject : List Nat) (handler : MessageHandler) (sid : Int) :
    Subscription :=
  { subject := subject, handler := handler, sid := sid, active := true }

/-- The client `online` in which the token `test-token-123` is stored. -/
def withToken : NATSClient := { online with _token := bytes "test-token-123" }

/-! ## The fields of the `CONNECT` body -/

/-- The pieces of a text between its double quotes. -/
def quoteSegments : List Nat → List (List Nat)
  | [] => [[]]
  | b :: rest =>
    if b = 34 then [] :: quoteSegments rest
    else
      match quoteSegments rest with
      | [] => [[b]]
      | s :: ss => (b :: s) :: ss

/-- The pieces of a concatenated text, from the pieces of its two parts: the last
piece of the first part and the first piece of the second part become one piece. -/
def glue : List (List Nat) → List (List Nat) → List (List Nat)
  | [], ys => ys
  | [x], [] => [x]
  | [x], y :: ys => (x ++ y) :: ys
  | x :: x2 :: xs, ys => x :: glue (x2 :: xs) ys

/-- The client id of the scenario `connectInjected`: it contains double quotes. -/
def injectedId : List Nat := bytes "x\",\"auth_token\":\""

/-- A new client calls `setClientID` with `injectedId` and then
`connect("test.server", 4222, "u", "p")` against the server `greeting`.  The result
is the stored token and the bytes written. -/
def connectInjected : Except Fault (List Nat × List Nat) :=
  (((NATSClient.new greeting 0 []).setClientID injectedId).connect (bytes "test.server") 4222
    (bytes "u") (bytes "p")).map (fun r => (r.2._token, r.2._client.tx))

/-- The client `online` in which the user `u` and the password `p` are stored. -/
def withUser : NATSClient := { online with _user := bytes "u", _pass := bytes "p" }

/-! ## Scenarios for reconnection, the line buffer and payload framing -/

/-- The calls of `test_auto_reconnect` after the handshake: the transport is stopped
and `loop` runs once, at once (`wait` = 0) or `wait` milliseconds later.  The result
is the pair of `connected()` and `isReconnecting()` after `loop`. -/
def autoReconnect (wait : Nat) : Except Fault (Bool × Bool) :=
  ((online.linkDown.elapse wait).loop).map (fun c => (c.connected, c.isReconnecting))

/-- As `autoReconnect 6000`, when the server is reached again and greets with
`INFO {}` and `+OK`. -/
def autoReconnectGreeted : Except Fault (Bool × Bool) :=
  (((online.linkDown.elapse 6000).receive (bytes "INFO \x7b\x7d\r\n+OK\r\n")).loop).map
    (fun c => (c.connected, c.isReconnecting))

/-- A new client connects to a server that sends `INFO {}` and then, instead of
`+OK`, 1600 bytes `x` without a line end. -/
def connectLongAck : Except Fault (Bool × NATSClient) :=
  (NATSClient.new
    { reachable := true, isOpen := false,
      rx := bytes "INFO \x7b\x7d\r\n" ++ List.replicate 1600 120, tx := [] }
    0 []).connect (bytes "test.server") 4222 [] []

/-- The client `subscribedTopic` receives the line `MSG test.topic 1 11` and only
the five payload bytes `Hello`, and runs `loop`. -/
def shortPayload : Except Fault NATSClient :=
  (subscribedTopic.receive (bytes "MSG test.topic 1 11\r\nHello")).loop

/-- The client `subscribedTopic` when `n` payload bytes `x`, a CR-LF pair and the
bytes `next` are available: `_processMsg` runs on the arguments of the line
`MSG test.topic 1 n`.  The result is the bytes that are left unread. -/
def framing (n : Nat) (next : List Nat) : Except Fault (List Nat) :=
  ((subscribedTopic.setRx (List.replicate n 120 ++ NATS_CR_LF ++ next))._processMsg
      (bytes "test.topic 1 " ++ decimal n)).map (fun r => r.2._client.rx)

/-- The client `online` receives the line `-ERR 'Authorization Violation'` and runs
`loop`; then it publishes `b` on the subject `a`.  The result is the last error and
`connected()` after `loop`, and the return value of `publish`. -/
def errorAfterHandshake : Except Fault (List Nat × Bool × Bool) :=
  (online.receive (bytes "-ERR \x27Authorization Violation\x27\r\n")).loop >>= fun c =>
  (c.publish (bytes "a") (bytes "b")).map (fun r => (c._lastError, c.connected, r.1))

/-! ## Notions used in the statements about connecting and reconnecting -/

/-- The state `c` after a handshake was attempted: the transport, the line buffer
with its cursor, the last error, the clock, the two time stamps, the connected flag,
the reconnect-attempt counter and the event log were replaced; nothing else differs. -/
def NATSClient.handshake (c : NATSClient) (client : Transport) (buf : List Nat) (pos : Nat)
    (err : List Nat) (now lastPing lastAnnounce : Nat) (connected : Bool) (attempts : Int)
    (ev : List Event) : NATSClient :=
  { c with
    _client := client, _inBuffer := buf, _inBufferPos := pos, _lastError := err, millis := now,
    _lastPing := lastPing, _lastAnnounce := lastAnnounce, _connected := connected,
    _reconnectAttempts := attempts, events := ev }

/-- The event is a call of the connect handler: `handler(true)`. -/
def Event.isConnect : Event → Bool
  | .connection _ true => true
  | _ => false

/-- The event is a call of the disconnect handler: `handler(false)`. -/
def Event.isDisconnect : Event → Bool
  | .connection _ false => true
  | _ => false

/-- Number of calls of the disconnect handler so far. -/
def NATSClient.disconnectCalls (c : NATSClient) : Nat :=
  (c.events.filter Event.isDisconnect).length

/-- The client `online` after the server became unreachable, the connection was
closed, and `loop` ran five times at intervals of six seconds: five automatic
reconnection attempts have failed. -/
def retriesExhausted : NATSClient :=
  finalState
    ((run online 0
        (.reachable false :: .linkDown ::
          (List.replicate 5 [Op.elapse 6000, Op.loop]).flatten)).map Prod.fst)

/-- On `retriesExhausted` an explicit `connect` is called while the server is still
unreachable.  The result is the return value and the reconnect-attempt counter
afterwards. -/
def connectWhenExhausted : Except Fault (Bool × Int) :=
  (retriesExhausted.connect (bytes "test.server") 4222 [] []).map
    (fun r => (r.1, r.2._reconnectAttempts))

/-- The client `retriesExhausted` when the server is reachable again and greets with
`INFO {}` and `+OK`. -/
def greetedAgain : NATSClient := { retriesExhausted with _client := greeting }

/-- The state `c` after a call that only sends commands and updates the tables: the
written bytes, the two tables, the identifier counter, the random source and the
last error were replaced; nothing else differs. -/
def NATSClient.traffic (c : NATSClient) (tx : List Nat) (subs : List Subscription) (sid : Int)
    (reqs : List PendingRequest) (rnd : List Nat) (err : List Nat) : NATSClient :=
  { c with
    _client := { c._client with tx := tx }, _subscriptions := subs, _nextSid := sid,
    _pendingRequests := reqs, randomSource := rnd, _lastError := err }

/-- A run in which a session is set up, the server becomes unreachable, the
connection is closed, and `loop` runs six times at intervals of six seconds. -/
def failingRetries : List Op :=
  .connect (bytes "test.server") 4222 [] [] :: .reachable false :: .linkDown ::
    (List.replicate 6 [Op.elapse 6000, Op.loop]).flatten

/-- The event is a call of a message handler. -/
def Event.isMessage : Event → Bool
  | .message _ _ _ _ => true
  | _ => false

/-- Whether a handshake was completed during the step from `c` to `c2` that returned
`r`: an explicit `connect` that returned true, or a `loop` on a closed transport
after which the connected flag is set (`loop` clears the flag before it tries to
reconnect). -/
def succeeded (c : NATSClient) (op : Op) (r : Bool) (c2 : NATSClient) : Bool :=
  match op with
  | .connect _ _ _ _ => r
  | .connectAnonymous _ _ => r
  | .connectToken _ _ _ => r
  | .loop => !c._client.isOpen && c2._connected
  | _ => false

/-- Number of handshakes that are completed in the run of `ops` from `c`. -/
def handshakes (c : NATSClient) : List Op → Nat
  | [] => 0
  | op :: ops =>
    match step c op with
    | .error _ => 0
    | .ok (r, c1) => (if succeeded c op r c1 then 1 else 0) + handshakes c1 ops

/-- The client `online` with the disconnect handler 9, after the connection was
closed by the peer. -/
def watched : NATSClient := (online.onDisconnect (some 9)).linkDown

/-- A run in which a session with the disconnect handler 9 is set up and lost, `loop`
runs twice, the session is set up again and `disconnect` is called twice. -/
def sessionsRun : List Op :=
  [.onDisconnect (some 9), .connect (bytes "test.server") 4222 [] [], .linkDown, .loop, .loop,
   .receive (bytes "INFO \x7b\x7d\r\n+OK\r\n"), .connect (bytes "test.server") 4222 [] [],
   .disconnect, .disconnect, .loop]

/-! ## Notions used in the statements about inboxes -/

/-- Value of one hexadecimal digit character. -/
def hexValue (d : Nat) : Nat := if d < 58 then d - 48 else d - 55

/-- Value of a run of hexadecimal digits. -/
def hexVal (ds : List Nat) : Nat := ds.foldl (fun a d => 16 * a + hexValue d) 0

/-- The inbox that `_generateInbox` formats at the clock value `now` from the value
`rnd` of the random source. -/
def inboxOf (now rnd : Nat) : List Nat :=
  NATS_INBOX_PREFIX ++ fmtHex 8 now ++ fmtHex 4 (rnd % 65535)

/-- On the client `requestPending` (one request is pending) a second request is
issued at the same clock value, and the random source yields the same value again.
The result is the return value and the inboxes of the active pending requests. -/
def secondRequest : Except Fault (Bool × List (List Nat)) :=
  (requestPending.request (bytes "time.service") [] (some 8) 1000).map
    (fun r => (r.1, (r.2._pendingRequests.filter (fun q => q.active)).map (fun q => q.inbox)))

/-! ## Notions used in the statements about pending requests and their subscriptions -/

/-- Number of active pending requests with the given inbox. -/
def inboxCount (reqs : List PendingRequest) (inbox : List Nat) : Nat :=
  (reqs.filter (fun q => q.active && decide (q.inbox = inbox))).length

/-- The step is not a call of `unsubscribe` on a subject that starts with `_INBOX.`. -/
def Op.sparesInboxes : Op → Bool
  | .unsubscribe subject => !decide (NATS_INBOX_PREFIX <+: subject)
  | _ => true

/-- The invariant behind the tie between pending requests and subscriptions: the
clock value is an `unsigned long`, the inbox of every active pending request starts
with `_INBOX.`, and for every inbox there are at least as many active subscriptions
on it as there are active pending requests with it. -/
def RequestsBacked (c : NATSClient) : Prop :=
  c.millis < WORD ∧
  (∀ q ∈ c._pendingRequests, q.active = true → NATS_INBOX_PREFIX <+: q.inbox) ∧
  ∀ inbox, inboxCount c._pendingRequests inbox ≤ activeCount c._subscriptions inbox

/-- A run in which a session is set up, a request is issued and the user
unsubscribes from the inbox of the request. -/
def orphanRun : List Op :=
  [.connect (bytes "test.server") 4222 [] [],
   .request (bytes "time.service") [] (some 7) 1000,
   .unsubscribe (bytes "_INBOX.000000000000")]

/-- The final state of `orphanRun` from a new client. -/
def orphaned : NATSClient :=
  finalState ((run (NATSClient.new greeting 0 []) 0 orphanRun).map Prod.fst)

/-- A run in which a session is set up and two requests are issued at the same clock
value while the random source yields the same value. -/
def twinRun : List Op :=
  [.connect (bytes "test.server") 4222 [] [],
   .request (bytes "time.service") [] (some 7) 1000,
   .request (bytes "time.service") [] (some 8) 1000]

/-- The inboxes of the active pending requests and the number of active
subscriptions on the inbox `_INBOX.000000000000` after a run from a new client. -/
def inboxesAfter (ops : List Op) : Except Fault (List (List Nat) × Nat) :=
  (run (NATSClient.new greeting 0 []) 0 ops).map
    (fun r => ((r.1._pendingRequests.filter (fun q => q.active)).map (fun q => q.inbox),
               activeCount r.1._subscriptions (bytes "_INBOX.000000000000")))

/-- A run in which a session is set up, a subject is subscribed, a request is
issued, the subject is unsubscribed again and `loop` runs while the request is
still pending. -/
def pendingRun : List Op :=
  [.connect (bytes "test.server") 4222 [] [], .subscribe (bytes "a") (some 1),
   .request (bytes "time.service") [] (some 7) 1000, .unsubscribe (bytes "a"), .elapse 500,
   .loop]

/-! ## Scenarios for undeliverable messages and failed handshakes -/

/-- The client `subscribedTopic` receives a `MSG` line with its payload `Hello`, then
the line `MSG` without any argument, then `PING`, and runs `loop`.  The result is the
handler invocations, the bytes written by `loop` and the bytes left unread. -/
def bareMsgLine : Except Fault (List Event × List Nat × List Nat) :=
  ((subscribedTopic.receive (bytes "MSG test.topic 1 5\r\nHello\r\nMSG\r\nPING\r\n")).loop).map
    (fun c => (c.events, c._client.tx.drop subscribedTopic._client.tx.length, c._client.rx))

/-- A server that accepts the connection and sends nothing. -/
def silent : Transport := { reachable := true, isOpen := false, rx := [], tx := [] }

/-- A new client connects to the server `silent`.  The result is the return value,
the bytes written, the last error and the clock value afterwards. -/
def connectSilent : Except Fault (Bool × List Nat × List Nat × Nat) :=
  ((NATSClient.new silent 0 []).connect (bytes "test.server") 4222 [] []).map
    (fun r => (r.1, r.2._client.tx, r.2._lastError, r.2.millis))

/-- The client `online` loses its connection and, before `loop` runs, calls `connect`
again; the server accepts the connection and sends nothing.  Then the client
publishes `b` on the subject `a`.  The result is the return value of `connect`, the
connected flag and the last error after it, and the return value of `publish`. -/
def connectFailsWhileFlagged : Except Fault (Bool × Bool × List Nat × Bool) :=
  (online.linkDown).connect (bytes "test.server") 4222 [] [] >>= fun r =>
  (r.2.publish (bytes "a") (bytes "b")).map (fun q => (r.1, r.2._connected, r.2._lastError, q.1))

/-- A line of 1600 letters `x`, longer than the line buffer. -/
def longLine : List Nat := List.replicate 1600 120

/-- The client `online`, whose line buffer cursor is 0, receives `longLine`, its line
end, and then the line `PING`, and runs `loop`.  The result is the buffer cursor, the
bytes written by `loop`, the handler invocations and the bytes left unread. -/
def overlongLine : Except Fault (Nat × List Nat × List Event × List Nat) :=
  ((online.receive (longLine ++ bytes "\r\nPING\r\n")).loop).map
    (fun c => (c._inBufferPos, c._client.tx.drop online._client.tx.length, c.events,
      c._client.rx))

/-- The client `online` after the "Process incoming data" part of `loop` has read
`longLine`, its line end and the line `PING`. -/
def overlongRead : NATSClient :=
  { online with _inBuffer := List.replicate 1535 120 ++ online._inBuffer.drop 1535,
                _inBufferPos := 1535 }

end Arduino

/-! # The ESPHome component `nats_client`

The class `esphome::nats::NATSClient` of
`esphome-components/components/nats_client/nats_client.cpp`.

* A `std::string` is the list of its bytes; it may contain NUL bytes.  A
  `const char *` obtained with `c_str()` ends at the first NUL byte.
* A `std::map` keyed by strings is an association list with at most one entry per
  key; the class never observes the order of the entries.
* A `std::function` callback is empty or a callable known by a number; every
  invocation is appended to the event log `events`.  A callback observes; it does not
  call back into the client.
* The functions of ArduinoJson and of the ESPHome network layer are not part of the
  repository; their results are the fields of `Library`, and every method that calls
  them takes a `Library` as argument.
* A C++ exception that leaves a method is an `Exception`; the method then has no
  final state.
* `uint32_t` values are natural numbers below `2 ^ 32`, `next_sid_` is a natural
  number below `2 ^ 64`, and the function-static counter of `generate_inbox_` is the
  field `counter`.
-/

namespace ESPHome

open Arduino (bytes cstr decimal isspace isdigit digitsVal usub WORD)

/-- The exceptions that the standard library raises in `handle_message_`. -/
inductive Exception where
  /-- `std::out_of_range`, from `std::string::substr` and `std::stoi`. -/
  | out_of_range
  /-- `std::invalid_argument`, from `std::stoi`. -/
  | invalid_argument
  /-- `std::bad_function_call`, from calling an empty `std::function`. -/
  | bad_function_call
  deriving DecidableEq, Repr

/-- The transport `client_`, a `WiFiClient`. -/
structure WiFiClient where
  /-- Whether `connect(ip, port)` succeeds. -/
  reachable : Bool
  /-- The value of `connected()`. -/
  isOpen : Bool
  /-- The bytes available for `read()`, next byte first. -/
  rx : List Nat
  /-- All bytes written so far, oldest first. -/
  tx : List Nat
  deriving DecidableEq, Repr

namespace WiFiClient

/-- The method `connect(ip, port)`. -/
def connect (t : WiFiClient) : Bool × WiFiClient :=
  if t.reachable then (true, { t with isOpen := true }) else (false, t)

/-- The method `available()`, as a truth value. -/
def available (t : WiFiClient) : Bool := !t.rx.isEmpty

/-- The method `read()`, converted to `char`: the next byte, or `(char) -1` when no
byte is available. -/
def read (t : WiFiClient) : Nat × WiFiClient :=
  match t.rx with
  | [] => (255, t)
  | b :: rest => (b, { t with rx := rest })

/-- The method `print(const char *)`: writes the bytes before the first NUL. -/
def print (t : WiFiClient) (s : List Nat) : WiFiClient := { t with tx := t.tx ++ cstr s }

/-- The method `stop()`: closes the connection and drops the bytes not yet read. -/
def stop (t : WiFiClient) : WiFiClient := { t with isOpen := false, rx := [] }

end WiFiClient

/-- A `std::function<void(const std::string &)>`: empty, or a callable known by a
number.  The number 0 is the lambda that `send_connect_` registers, which only
logs. -/
abbrev Callback := Option Nat

/-- An invocation `callback(payload)`. -/
inductive Event where
  | call (callback : Nat) (payload : List Nat)
  deriving DecidableEq, Repr

/-- The library functions that the class calls. -/
structure Library where
  /-- Whether `network::resolve_ip_address(host)` finds an address. -/
  resolves : List Nat → Bool
  /-- The text that `serializeJson` produces for the document of `send_connect_`,
  from `device_id_`, `username_` and `password_`. -/
  connectJson : List Nat → List Nat → List Nat → List Nat
  /-- The text that `serializeJson` produces for the document of `announce_device_`,
  from `device_id_`, `device_type_`, `device_name_`, `manufacturer_`, `model_` and the
  subjects for `state`, `status` and `command`. -/
  announceJson : List Nat → List Nat → List Nat → List Nat → List Nat → List Nat → List Nat
    → List Nat → List Nat
  /-- The text that `serializeJson` produces for the document of `publish_status_` at
  a clock value, with the heap and signal readings of that moment. -/
  statusJson : Nat → List Nat
  /-- The fields `server_id` and `auth_required` that `deserializeJson` finds in an
  `INFO` document, or `none` when it reports an error. -/
  parseInfo : List Nat → Option (List Nat × Bool)

/-- The object state of `NATSClient`, with the clock, the static inbox counter and
the event log. -/
structure NATSClient where
  client_ : WiFiClient
  connected_ : Bool
  connecting_ : Bool
  last_connect_attempt_ : Nat
  last_ping_ : Nat
  last_status_ : Nat
  server_ : List Nat
  port_ : Nat
  username_ : List Nat
  password_ : List Nat
  device_id_ : List Nat
  device_name_ : List Nat
  device_type_ : List Nat
  manufacturer_ : List Nat
  model_ : List Nat
  reconnect_interval_ : Nat
  status_interval_ : Nat
  discovery_prefix_ : List Nat
  use_ssl_ : Bool
  server_id_ : List Nat
  auth_required_ : Bool
  subscriptions_ : List (List Nat × Nat)
  callbacks_ : List (List Nat × Callback)
  pending_requests_ : List (List Nat × (Callback × Nat))
  next_sid_ : Nat
  read_buffer_ : List Nat
  publish_queue_ : List (List Nat × List Nat)
  /-- The current value of `millis()`, a `uint32_t`. -/
  millis : Nat
  /-- The `static uint32_t counter` of `generate_inbox_`. -/
  counter : Nat
  /-- The callback invocations so far, oldest first. -/
  events : List Event
  deriving DecidableEq, Repr

/-! ## The standard library -/

/-- The lookup `m.find(key)` of a `std::map`: the value stored for the key. -/
def mapFind {α : Type} (m : List (List Nat × α)) (key : List Nat) : Option α :=
  (m.find? (fun e => decide (e.1 = key))).map Prod.snd

/-- The assignment `m[key] = value` of a `std::map`. -/
def mapAssign {α : Type} (m : List (List Nat × α)) (key : List Nat) (value : α) :
    List (List Nat × α) :=
  if m.any (fun e => decide (e.1 = key)) then
    m.map (fun e => if e.1 = key then (key, value) else e)
  else m ++ [(key, value)]

/-- The removal `m.erase(it)` of the entry of a key. -/
def mapErase {α : Type} (m : List (List Nat × α)) (key : List Nat) : List (List Nat × α) :=
  m.filter (fun e => !decide (e.1 = key))

/-- The position that `s.find("\r\n")` returns, `none` for `npos`. -/
def findCRLF : List Nat → Option Nat
  | [] => none
  | b :: rest =>
    if b = 13 ∧ rest.head? = some 10 then some 0
    else (findCRLF rest).map (fun i => i + 1)

/-- The position that `s.find(ch, start)` returns, `none` for `npos`. -/
def findChar (s : List Nat) (ch start : Nat) : Option Nat :=
  let skipped := ((s.drop start).takeWhile (fun b => b ≠ ch)).length
  if start + skipped < s.length then some (start + skipped) else none

/-- Whether `s.find(pattern) != npos`. -/
def containsText (s pattern : List Nat) : Bool :=
  s.tails.any (fun t => pattern.isPrefixOf t)

/-- The function `std::stoi` on a target with 32-bit `int` and `long`: leading white
space is skipped, a sign is accepted, the digits that follow are converted and the
rest of the text is ignored; no digit raises `std::invalid_argument` and a value
outside `int` raises `std::out_of_range`. -/
def stoi (s : List Nat) : Except Exception Int :=
  let t := s.dropWhile isspace
  let negative := decide (t.head? = some 45)
  let u := if t.head? = some 45 ∨ t.head? = some 43 then t.drop 1 else t
  let digits := u.takeWhile isdigit
  if digits = [] then .error .invalid_argument
  else
    let value : Int := if negative then - (digitsVal digits : Int) else (digitsVal digits : Int)
    if value < - 2 ^ 31 ∨ value > 2 ^ 31 - 1 then .error .out_of_range else .ok value

/-- The loop of `handle_message_` that splits the arguments of a `MSG` line at the
spaces, from the position `start` on.  The position grows in every round, so
`line.length + 1` rounds suffice. -/
def splitLoop : Nat → List Nat → Nat → List (List Nat) → List (List Nat)
  | 0, _, _, parts => parts
  | fuel + 1, line, start, parts =>
    if start < line.length then
      match findChar line 32 start with
      | none => parts ++ [line.drop start]
      | some space => splitLoop fuel line (space + 1) (parts ++ [(line.drop start).take (space - start)])
    else parts

namespace NATSClient

/-- The object after construction, with the transport, the clock value and the value
of the static inbox counter. -/
def new (net : WiFiClient) (now counter : Nat) : NATSClient :=
  { client_ := net, connected_ := false, connecting_ := false, last_connect_attempt_ := 0,
    last_ping_ := 0, last_status_ := 0, server_ := [], port_ := 4222, username_ := [],
    password_ := [], device_id_ := [], device_name_ := [], device_type_ := [],
    manufacturer_ := bytes "ESPHome", model_ := bytes "ESP32", reconnect_interval_ := 30000,
    status_interval_ := 60000, discovery_prefix_ := bytes "home", use_ssl_ := false,
    server_id_ := [], auth_required_ := false, subscriptions_ := [], callbacks_ := [],
    pending_requests_ := [], next_sid_ := 1, read_buffer_ := [], publish_queue_ := [],
    millis := now, counter := counter, events := [] }

/-- The method `get_subject`. -/
def get_subject (c : NATSClient) (suffix : List Nat) : List Nat :=
  c.discovery_prefix_ ++ bytes ".devices." ++ c.device_type_ ++ bytes "." ++ c.device_id_
    ++ bytes "." ++ suffix

/-- The method `send_command_`: `client_.print(command.c_str())` when the transport
is connected. -/
def send_command_ (c : NATSClient) (command : List Nat) : NATSClient :=
  if c.client_.isOpen then { c with client_ := c.client_.print command } else c

/-- The method `send_ping_`. -/
def send_ping_ (c : NATSClient) : NATSClient := c.send_command_ (bytes "PING\r\n")

/-- The method `send_pong_`. -/
def send_pong_ (c : NATSClient) : NATSClient := c.send_command_ (bytes "PONG\r\n")

/-- The command that `publish` and the queue loop of `loop` build. -/
def pubCommand (subject payload : List Nat) : List Nat :=
  bytes "PUB " ++ subject ++ bytes " " ++ decimal payload.length ++ bytes "\r\n" ++ payload
    ++ bytes "\r\n"

/-- The method `publish`. -/
def publish (c : NATSClient) (subject payload : List Nat) : NATSClient :=
  if !c.connected_ then { c with publish_queue_ := c.publish_queue_ ++ [(subject, payload)] }
  else c.send_command_ (pubCommand subject payload)

/-- The method `publish_json`, with the text that `serializeJson` produces for the
document. -/
def publish_json (c : NATSClient) (subject json : List Nat) : NATSClient :=
  c.publish subject json

/-- The method `subscribe`. -/
def subscribe (c : NATSClient) (subject : List Nat) (callback : Callback) : NATSClient :=
  if !c.connected_ then c
  else
    let sid := c.next_sid_
    ({ c with next_sid_ := (c.next_sid_ + 1) % 2 ^ 64,
              subscriptions_ := mapAssign c.subscriptions_ subject sid,
              callbacks_ := mapAssign c.callbacks_ subject callback }).send_command_
      (bytes "SUB " ++ subject ++ bytes " " ++ decimal sid ++ bytes "\r\n")

/-- The method `generate_inbox_`. -/
def generate_inbox_ (c : NATSClient) : List Nat × NATSClient :=
  (bytes "_INBOX." ++ c.device_id_ ++ bytes "." ++ decimal c.millis ++ bytes "."
      ++ decimal c.counter,
   { c with counter := (c.counter + 1) % WORD })

/-- The method `request`. -/
def request (c : NATSClient) (subject payload : List Nat) (callback : Callback)
    (timeout_ms : Nat) : NATSClient :=
  if !c.connected_ then c
  else
    let inbox := c.generate_inbox_.1
    let c1 := c.generate_inbox_.2
    let sid := c1.next_sid_
    let c2 : NATSClient :=
      { c1 with next_sid_ := (c1.next_sid_ + 1) % 2 ^ 64,
                subscriptions_ := mapAssign c1.subscriptions_ inbox sid,
                callbacks_ := mapAssign c1.callbacks_ inbox callback,
                pending_requests_ :=
                  mapAssign c1.pending_requests_ inbox (callback, (c1.millis + timeout_ms) % WORD) }
    (c2.send_command_ (bytes "SUB " ++ inbox ++ bytes " " ++ decimal sid ++ bytes "\r\n")).send_command_
      (bytes "PUB " ++ subject ++ bytes " " ++ inbox ++ bytes " " ++ decimal payload.length
        ++ bytes "\r\n" ++ payload ++ bytes "\r\n")

/-- The method `process_info_`. -/
def process_info_ (lib : Library) (c : NATSClient) (info : List Nat) : NATSClient :=
  match lib.parseInfo info with
  | none => c
  | some (id, auth) => { c with server_id_ := id, auth_required_ := auth }

/-- The method `announce_device_`. -/
def announce_device_ (lib : Library) (c : NATSClient) : NATSClient :=
  c.publish_json (c.discovery_prefix_ ++ bytes ".discovery.announce")
    (lib.announceJson c.device_id_ c.device_type_ c.device_name_ c.manufacturer_ c.model_
      (c.get_subject (bytes "state")) (c.get_subject (bytes "status"))
      (c.get_subject (bytes "command")))

/-- The method `publish_status_`. -/
def publish_status_ (lib : Library) (c : NATSClient) : NATSClient :=
  c.publish_json (c.get_subject (bytes "status")) (lib.statusJson c.millis)

/-- The method `send_connect_`. -/
def send_connect_ (lib : Library) (c : NATSClient) : NATSClient :=
  let c1 := c.send_command_
    (bytes "CONNECT " ++ lib.connectJson c.device_id_ c.username_ c.password_ ++ bytes "\r\n")
  let c2 := c1.subscribe (c1.get_subject (bytes "command")) (some 0)
  c2.announce_device_ lib

/-- The method `connect_`. -/
def connect_ (lib : Library) (c : NATSClient) : NATSClient :=
  if c.connecting_ then c
  else
    let c1 : NATSClient := { c with connecting_ := true, last_connect_attempt_ := c.millis }
    if !lib.resolves c1.server_ then { c1 with connecting_ := false }
    else if c1.client_.connect.1 then
      { c1 with client_ := c1.client_.connect.2, connected_ := true, connecting_ := false,
                read_buffer_ := [] }
    else { c1 with client_ := c1.client_.connect.2, connecting_ := false }

/-- The method `disconnect_`. -/
def disconnect_ (c : NATSClient) : NATSClient :=
  if c.connected_ then
    { c with client_ := c.client_.stop, connected_ := false, subscriptions_ := [],
             pending_requests_ := [] }
  else c

/-- A call `callback(payload)` of a `std::function`. -/
def invoke (c : NATSClient) (callback : Callback) (payload : List Nat) :
    Except Exception NATSClient :=
  match callback with
  | none => .error .bad_function_call
  | some h => .ok { c with events := c.events ++ [.call h payload] }

/-- The part of `handle_message_` for a `MSG` line with at least three arguments,
after `std::stoi` has returned `payload_size`.  The loop "Read payload" takes one
byte per round while bytes are available, so it takes the first `payload_size`
available bytes. -/
def deliver (c : NATSClient) (parts : List (List Nat)) (payload_size : Int) :
    Except Exception NATSClient :=
  let subject := parts.headD []
  let payload := c.client_.rx.take payload_size.toNat
  let c1 : NATSClient :=
    { c with client_ := { c.client_ with rx := (c.client_.rx.drop payload_size.toNat).drop 2 } }
  (match mapFind c1.callbacks_ subject with
   | some callback => c1.invoke callback payload
   | none => .ok c1) >>= fun c2 =>
  if parts.length ≥ 4 then
    match mapFind c2.pending_requests_ (parts.getD 2 []) with
    | some entry =>
      (c2.invoke entry.1 payload).map
        (fun c3 => { c3 with pending_requests_ := mapErase c3.pending_requests_ (parts.getD 2 []) })
    | none => .ok c2
  else .ok c2

/-- The method `handle_message_`. -/
def handle_message_ (lib : Library) (c : NATSClient) : Except Exception NATSClient :=
  let c1 : NATSClient :=
    { c with client_ := c.client_.read.2, read_buffer_ := c.read_buffer_ ++ [c.client_.read.1] }
  match findCRLF c1.read_buffer_ with
  | none => .ok c1
  | some pos =>
    let line := c1.read_buffer_.take pos
    let c2 : NATSClient := { c1 with read_buffer_ := c1.read_buffer_.drop (pos + 2) }
    if line.take 4 = bytes "INFO" then
      if line.length < 5 then .error .out_of_range
      else .ok ((c2.process_info_ lib (line.drop 5)).send_connect_ lib)
    else if line.take 4 = bytes "PING" then .ok c2.send_pong_
    else if line.take 3 = bytes "MSG" then
      let parts := splitLoop (line.length + 1) line 4 []
      if parts.length ≥ 3 then
        match stoi (parts.getLastD []) with
        | .error e => .error e
        | .ok payload_size => c2.deliver parts payload_size
      else .ok c2
    else if line.take 4 = bytes "+OK" then .ok c2
    else if line.take 4 = bytes "-ERR" then
      if containsText line (bytes "Authorization") then .ok c2.disconnect_ else .ok c2
    else .ok c2

/-- The loop "Handle incoming messages" of `loop`.  Every call of `handle_message_`
reads at least one byte, so as many rounds as there are available bytes suffice. -/
def receive : Nat → Library → NATSClient → Except Exception NATSClient
  | 0, _, c => .ok c
  | fuel + 1, lib, c =>
    if c.client_.available then
      match c.handle_message_ lib with
      | .error e => .error e
      | .ok c1 => receive fuel lib c1
    else .ok c

/-- The part "Send ping if needed" of `loop`. -/
def keepAlive (c : NATSClient) : NATSClient :=
  if usub c.millis c.last_ping_ > 30000 then { c.send_ping_ with last_ping_ := c.millis } else c

/-- The part "Publish status periodically" of `loop`. -/
def reportStatus (lib : Library) (c : NATSClient) : NATSClient :=
  if usub c.millis c.last_status_ > c.status_interval_ then
    { c.publish_status_ lib with last_status_ := c.millis }
  else c

/-- The loop "Process publish queue" of `loop`, on the entries that remain. -/
def flushFrom : List (List Nat × List Nat) → NATSClient → NATSClient
  | [], c => c
  | item :: rest, c =>
    if c.connected_ then
      flushFrom rest { c.send_command_ (pubCommand item.1 item.2) with publish_queue_ := rest }
    else c

/-- The loop "Process publish queue" of `loop`. -/
def flushQueue (c : NATSClient) : NATSClient := flushFrom c.publish_queue_ c

/-- The part "Check for request timeouts" of `loop`. -/
def expire (c : NATSClient) : NATSClient :=
  { c with pending_requests_ :=
      c.pending_requests_.filter (fun e => !decide (c.millis > e.2.2)) }

/-- The method `loop`. -/
def loop (lib : Library) (c : NATSClient) : Except Exception NATSClient :=
  if !c.connected_ then
    if !c.connecting_ && decide (usub c.millis c.last_connect_attempt_ > c.reconnect_interval_) then
      .ok (c.connect_ lib)
    else .ok c
  else
    match receive c.client_.rx.length lib c with
    | .error e => .error e
    | .ok c1 => .ok ((c1.keepAlive.reportStatus lib).flushQueue).expire

/-- The clock advances by `ms` milliseconds. -/
def elapse (c : NATSClient) (ms : Nat) : NATSClient :=
  { c with millis := (c.millis + ms) % WORD }

/-- The server sends bytes: they become available for reading. -/
def arrive (c : NATSClient) (data : List Nat) : NATSClient :=
  { c with client_ := { c.client_ with rx := c.client_.rx ++ data } }

end NATSClient

/-- Successive calls of `generate_inbox_`; the device id and the clock value of each
call are given, and no other code changes the static counter. -/
def inboxes : List (List Nat × Nat) → NATSClient → List (List Nat)
  | [], _ => []
  | call :: rest, c =>
    let r := ({ c with device_id_ := call.1, millis := call.2 } : NATSClient).generate_inbox_
    r.1 :: inboxes rest r.2

/-- The counter value that an inbox ends with: the value of its last run of digits. -/
def inboxCounter (inbox : List Nat) : Nat :=
  digitsVal (inbox.reverse.takeWhile isdigit).reverse

/-! ## Runs of the component -/

/-- The calls of the public methods, and the events of the environment. -/
inductive Op where
  /-- The call `set_device_id(device_id)`. -/
  | set_device_id (device_id : List Nat)
  /-- The call `publish(subject, payload)`. -/
  | publish (subject payload : List Nat)
  /-- The call `subscribe(subject, callback)`. -/
  | subscribe (subject : List Nat) (callback : Callback)
  /-- The call `request(subject, payload, callback, timeout_ms)`. -/
  | request (subject payload : List Nat) (callback : Callback) (timeout_ms : Nat)
  /-- The call `loop()`. -/
  | loop
  /-- The server sends bytes. -/
  | arrive (data : List Nat)
  /-- The server closes the connection. -/
  | hangUp
  /-- The clock advances. -/
  | elapse (ms : Nat)
  deriving DecidableEq, Repr

/-- Whether the operation is a call of `request`. -/
def Op.isRequest : Op → Bool
  | .request _ _ _ _ => true
  | _ => false

/-- One operation. -/
def step (lib : Library) (c : NATSClient) : Op → Except Exception NATSClient
  | .set_device_id device_id => .ok { c with device_id_ := device_id }
  | .publish subject payload => .ok (c.publish subject payload)
  | .subscribe subject callback => .ok (c.subscribe subject callback)
  | .request subject payload callback timeout_ms =>
    .ok (c.request subject payload callback timeout_ms)
  | .loop => c.loop lib
  | .arrive data => .ok (c.arrive data)
  | .hangUp => .ok { c with client_ := { c.client_ with isOpen := false } }
  | .elapse ms => .ok (c.elapse ms)

/-- A sequence of operations; it ends at the first exception. -/
def run (lib : Library) : List Op → NATSClient → Except Exception NATSClient
  | [], c => .ok c
  | op :: rest, c =>
    match step lib c op with
    | .error e => .error e
    | .ok c1 => run lib rest c1

/-- The state `c2` has the inbox counter of `c`, and every pending request of `c2` is
a pending request of `c`. -/
def Retains (c c2 : NATSClient) : Prop :=
  c2.counter = c.counter ∧ ∀ e ∈ c2.pending_requests_, e ∈ c.pending_requests_

/-- The inbox counter started at `k0` and `generate_inbox_` was called `n` times, and
every pending request is registered under an inbox that ends in the counter value of
one of these calls. -/
def Tracked (k0 n : Nat) (c : NATSClient) : Prop :=
  c.counter = (k0 + n) % WORD ∧
  ∀ e ∈ c.pending_requests_, ∃ p m, m < n ∧ e.1 = p ++ bytes "." ++ decimal ((k0 + m) % WORD)

/-! ## Scenarios -/

/-- A server that accepts connections; the connection is not yet open. -/
def server : WiFiClient := { reachable := true, isOpen := false, rx := [], tx := [] }

/-- A configured client at the clock value 1000, before `connect_`. -/
def idle : NATSClient :=
  { NATSClient.new server 1000 0 with
    server_ := bytes "nats.local", device_id_ := bytes "dev1", device_type_ := bytes "sensor",
    device_name_ := bytes "Device" }

/-- The state that `connect_` leaves when the host name resolves and the server
accepts the connection. -/
def NATSClient.connected (c : NATSClient) : NATSClient :=
  { c with client_ := { c.client_ with isOpen := true }, connected_ := true,
           connecting_ := false, last_connect_attempt_ := c.millis, read_buffer_ := [] }

/-- The client `idle` after `connect_`. -/
def session : NATSClient := idle.connected

/-- The client `idle` after `publish("a", "x\0y")` and `publish("b", "hello")`. -/
def queued : NATSClient :=
  (idle.publish (bytes "a") [120, 0, 121]).publish (bytes "b") (bytes "hello")

/-- A connected client shortly before the clock wraps around: the clock value is
`2 ^ 32 - 1000`, and the last ping and the last status report were sent at that
time. -/
def aged : NATSClient :=
  { session with millis := 4294966296, last_ping_ := 4294966296, last_status_ := 4294966296 }

/-- The client `aged` after `request("time.now", "", callback 7, 5000)`. -/
def requested : NATSClient := aged.request (bytes "time.now") [] (some 7) 5000

end ESPHome

namespace Arduino

/-! # Theorems -/

/-! ## Facts about the C library functions -/

theorem decimalCore_acc (fuel : Nat) : ∀ n acc, n < fuel →
    decimalCore fuel n acc = decimalCore (n + 1) n [] ++ acc := by
  induction fuel using Nat.strong_induction_on with
  | _ fuel ih =>
    intro n acc hn
    cases fuel with
    | zero => omega
    | succ f =>
      simp only [decimalCore]
      by_cases h : n / 10 = 0
      · simp [h]
      · simp only [h, if_false]
        have h1 : n / 10 < f := by omega
        rw [ih f (by omega) (n / 10) _ h1]
        cases n with
        | zero => simp at h
        | succ m =>
          rw [ih (m + 1) (by omega) ((m + 1) / 10) _ (by omega)]
          simp

theorem decimal_small (n : Nat) (h : n < 10) : decimal n = [48 + n] := by
  have h0 : n / 10 = 0 := by omega
  have h1 : n % 10 = n := by omega
  simp [decimal, decimalCore, h0, h1]

theorem decimal_step (n : Nat) (h : 10 ≤ n) :
    decimal n = decimal (n / 10) ++ [48 + n % 10] := by
  have h0 : ¬ n / 10 = 0 := by omega
  unfold decimal
  simp only [decimalCore, h0, if_false]
  exact decimalCore_acc n (n / 10) _ (by omega)

theorem decimal_ne_nil (n : Nat) : decimal n ≠ [] := by
  by_cases h : n < 10
  · simp [decimal_small n h]
  · rw [decimal_step n (by omega)]; simp

theorem decimal_digits (n : Nat) : ∀ b ∈ decimal n, 48 ≤ b ∧ b ≤ 57 := by
  induction n using Nat.strong_induction_on with
  | _ n ih =>
    intro b hb
    by_cases h : n < 10
    · rw [decimal_small n h] at hb
      simp at hb; omega
    · rw [decimal_step n (by omega)] at hb
      simp only [List.mem_append, List.mem_singleton] at hb
      rcases hb with hb | hb
      · exact ih (n / 10) (by omega) b hb
      · omega

theorem digitsVal_append (xs : List Nat) (d : Nat) :
    digitsVal (xs ++ [d]) = 10 * digitsVal xs + (d - 48) := by
  simp [digitsVal, List.foldl_append]

theorem digitsVal_decimal (n : Nat) : digitsVal (decimal n) = n := by
  induction n using Nat.strong_induction_on with
  | _ n ih =>
    by_cases h : n < 10
    · rw [decimal_small n h]; simp [digitsVal]
    · rw [decimal_step n (by omega), digitsVal_append, ih (n / 10) (by omega)]
      omega

theorem decimal_length (k : Nat) : ∀ n, n < 10 ^ (k + 1) → (decimal n).length ≤ k + 1 := by
  induction k with
  | zero =>
    intro n hn
    rw [decimal_small n (by simpa using hn)]; simp
  | succ k ih =>
    intro n hn
    by_cases h : n < 10
    · rw [decimal_small n h]; simp
    · rw [decimal_step n (by omega)]
      have : n / 10 < 10 ^ (k + 1) := by
        rw [Nat.div_lt_iff_lt_mul (by norm_num)]
        calc n < 10 ^ (k + 1 + 1) := hn
          _ = 10 ^ (k + 1) * 10 := by ring
      have := ih (n / 10) this
      simp; omega

theorem takeWhile_append_stop (p : Nat → Bool) (xs rest : List Nat)
    (hx : ∀ b ∈ xs, p b = true) (hr : ∀ b, rest.head? = some b → p b = false) :
    (xs ++ rest).takeWhile p = xs := by
  induction xs with
  | nil =>
    cases rest with
    | nil => rfl
    | cons r rs => simp [List.takeWhile, hr r rfl]
  | cons x xs ih =>
    have hxp : p x = true := hx x (List.mem_cons_self _ _)
    have := ih (fun b hb => hx b (List.mem_cons_of_mem _ hb))
    simp [List.takeWhile, hxp, this]

theorem dropWhile_append_stop (p : Nat → Bool) (xs rest : List Nat)
    (hx : ∀ b ∈ xs, p b = true) (hr : ∀ b, rest.head? = some b → p b = false) :
    (xs ++ rest).dropWhile p = rest := by
  induction xs with
  | nil =>
    cases rest with
    | nil => rfl
    | cons r rs => simp [List.dropWhile, hr r rfl]
  | cons x xs ih =>
    have hxp : p x = true := hx x (List.mem_cons_self _ _)
    have := ih (fun b hb => hx b (List.mem_cons_of_mem _ hb))
    simp [List.dropWhile, hxp, this]

theorem wrapInt_id (i : Int) (h1 : -2 ^ 31 ≤ i) (h2 : i < 2 ^ 31) : wrapInt i = i := by
  unfold wrapInt
  omega

theorem fmtInt_length (i : Int) (h1 : -2 ^ 31 ≤ i) (h2 : i < 2 ^ 31) :
    (fmtInt i).length ≤ 11 := by
  unfold fmtInt
  split
  · have : (decimal (-i).toNat).length ≤ 9 + 1 := decimal_length 9 _ (by omega)
    simp; omega
  · have : (decimal i.toNat).length ≤ 9 + 1 := decimal_length 9 _ (by omega)
    omega

theorem wrapInt_range (i : Int) : -2 ^ 31 ≤ wrapInt i ∧ wrapInt i < 2 ^ 31 := by
  unfold wrapInt
  omega

/-- A token that `%s` reads back: it is not empty, holds no white space, and is
followed by white space or by the end of the input. -/
theorem scanStr_token (tok rest : List Nat) (hne : tok ≠ [])
    (htok : ∀ b ∈ tok, isspace b = false)
    (hrest : ∀ b, rest.head? = some b → isspace b = true) :
    scanStr (tok ++ rest) = some (tok, rest) := by
  obtain ⟨x, xs, rfl⟩ := List.exists_cons_of_ne_nil hne
  have hx : isspace x = false := htok x (List.mem_cons_self _ _)
  have h1 : ((x :: xs) ++ rest).dropWhile isspace = (x :: xs) ++ rest := by
    simp [List.dropWhile, hx]
  unfold scanStr
  simp only [h1]
  rw [takeWhile_append_stop (fun c => !isspace c) (x :: xs) rest
        (fun b hb => by simp [htok b hb]) (fun b hb => by simp [hrest b hb]),
      dropWhile_append_stop (fun c => !isspace c) (x :: xs) rest
        (fun b hb => by simp [htok b hb]) (fun b hb => by simp [hrest b hb])]
  simp

theorem scanStr_space (s : List Nat) : scanStr (32 :: s) = scanStr s := by
  simp [scanStr, List.dropWhile, isspace]

theorem scanInt_space (s : List Nat) : scanInt (32 :: s) = scanInt s := by
  simp [scanInt, List.dropWhile, isspace]

theorem scanInt_decimal (n : Nat) (rest : List Nat)
    (hrest : ∀ b, rest.head? = some b → isdigit b = false) :
    scanInt (decimal n ++ rest) = some (wrapInt n, rest) := by
  obtain ⟨x, xs, hx⟩ := List.exists_cons_of_ne_nil (decimal_ne_nil n)
  have hd := decimal_digits n
  have hdig : ∀ b ∈ decimal n, isdigit b = true := fun b hb => by
    have := hd b hb; simp [isdigit]; omega
  have hx1 : 48 ≤ x ∧ x ≤ 57 := hd x (by rw [hx]; exact List.mem_cons_self _ _)
  have hsp : isspace x = false := by simp [isspace]; omega
  have h1 : (decimal n ++ rest).dropWhile isspace = decimal n ++ rest := by
    rw [hx]; simp [List.dropWhile, hsp]
  have h2 : (decimal n ++ rest).head? = some x := by rw [hx]; rfl
  have h45 : x ≠ 45 := by omega
  have h43 : x ≠ 43 := by omega
  unfold scanInt
  simp only [h1, h2, Option.some.injEq, h45, h43, or_self, if_false, decide_False]
  rw [takeWhile_append_stop isdigit _ rest hdig hrest,
      dropWhile_append_stop isdigit _ rest hdig hrest]
  simp [decimal_ne_nil, digitsVal_decimal]

theorem scanInt_fmtInt (i : Int) (rest : List Nat) (h1 : -2 ^ 31 ≤ i) (h2 : i < 2 ^ 31)
    (hrest : ∀ b, rest.head? = some b → isdigit b = false) :
    scanInt (fmtInt i ++ rest) = some (i, rest) := by
  unfold fmtInt
  split
  · rename_i hneg
    have hd := decimal_digits (-i).toNat
    have hdig : ∀ b ∈ decimal (-i).toNat, isdigit b = true := fun b hb => by
      have := hd b hb; simp [isdigit]; omega
    unfold scanInt
    have h3 : (45 :: decimal (-i).toNat ++ rest).dropWhile isspace
        = 45 :: (decimal (-i).toNat ++ rest) := by
      simp [List.dropWhile, isspace]
    simp only [h3, List.head?_cons, List.tail_cons, true_or, if_true, decide_True]
    rw [takeWhile_append_stop isdigit _ rest hdig hrest,
        dropWhile_append_stop isdigit _ rest hdig hrest]
    simp only [decimal_ne_nil, if_false, digitsVal_decimal]
    have : wrapInt (-((-i).toNat : Int)) = i := by
      rw [wrapInt_id] <;> omega
    rw [this]
  · rw [scanInt_decimal _ rest hrest]
    have : wrapInt (i.toNat : Int) = i := by
      rw [wrapInt_id] <;> omega
    rw [this]

theorem atoi_decimal (n : Nat) (h : n < 2 ^ 31) : atoi (decimal n) = n := by
  have := scanInt_decimal n [] (by simp)
  simp only [List.append_nil] at this
  unfold atoi
  rw [this]
  simp only
  exact wrapInt_id _ (by omega) (by omega)

theorem cstr_append_nul (L X : List Nat) (h : ∀ b ∈ L, b ≠ 0) : cstr (L ++ 0 :: X) = L := by
  unfold cstr
  exact takeWhile_append_stop (fun b => decide (b ≠ 0)) L (0 :: X)
    (fun b hb => by simp [h b hb]) (fun b hb => by simp at hb; simp [← hb])

theorem cstrAt_append_nul (L X : List Nat) (k : Nat) (h : ∀ b ∈ L, b ≠ 0)
    (hk : k ≤ L.length) : cstrAt (L ++ 0 :: X) k = L.drop k := by
  unfold cstrAt
  rw [List.drop_append_of_le_length hk]
  exact cstr_append_nul _ _ (fun b hb => h b (List.mem_of_mem_drop hb))

theorem sscanfMsg_three (S : List Nat) (sid : Int) (n : Nat) (hne : S ≠ [])
    (hS : ∀ b ∈ S, isspace b = false) (hlen : S.length < NATS_MAX_SUBJECT_LENGTH)
    (h1 : -2 ^ 31 ≤ sid) (h2 : sid < 2 ^ 31) (hn : n < 2 ^ 31) :
    sscanfMsg NATS_MAX_SUBJECT_LENGTH (S ++ 32 :: (fmtInt sid ++ 32 :: decimal n))
      = .ok (.three S sid (decimal n)) := by
  have hdlen : (decimal n).length ≤ 9 + 1 := decimal_length 9 n (by omega)
  have hdsp : ∀ b ∈ decimal n, isspace b = false := fun b hb => by
    have := decimal_digits n b hb; simp [isspace]; omega
  unfold sscanfMsg
  rw [scanStr_token S _ hne hS (by simp [isspace])]
  simp only [Nat.not_le.mpr hlen, if_false, scanInt_space]
  rw [scanInt_fmtInt sid _ h1 h2 (by simp [isdigit])]
  simp only [scanStr_space]
  have h3 := scanStr_token (decimal n) [] (decimal_ne_nil n) hdsp (by simp)
  simp only [List.append_nil] at h3
  rw [h3]
  have : ¬ NATS_MAX_SUBJECT_LENGTH ≤ (decimal n).length := by
    unfold NATS_MAX_SUBJECT_LENGTH; omega
  simp [this, scanInt]

namespace NATSClient

theorem drain_store (L : List Nat) : ∀ (k : Nat) (c : NATSClient) (pre post rest : List Nat),
    c._inBuffer = pre ++ post → c._inBufferPos = pre.length → c._client.rx = L ++ rest →
    (∀ b ∈ L, b ≠ 10) → pre.length + L.length ≤ IN_BUFFER_SIZE - 1 →
    L.length ≤ post.length →
    drain (L.length + k) c
      = drain k { c with _client := { c._client with rx := rest },
                         _inBuffer := pre ++ L ++ post.drop L.length,
                         _inBufferPos := pre.length + L.length } := by
  induction L with
  | nil =>
    intro k c pre post rest hbuf hpos hrx _ _ _
    simp only [List.nil_append] at hrx
    simp only [List.length_nil, Nat.zero_add, List.append_nil, List.drop_zero, Nat.add_zero]
    rw [← hbuf, ← hpos, ← hrx]
  | cons b L ih =>
    intro k c pre post rest hbuf hpos hrx hL hroom hpost
    have hb : b ≠ 10 := hL b (List.mem_cons_self _ _)
    obtain ⟨p, ps, rfl⟩ : ∃ p ps, post = p :: ps := by
      cases post with
      | nil => simp at hpost
      | cons p ps => exact ⟨p, ps, rfl⟩
    have hfuel : (b :: L).length + k = (L.length + k) + 1 := by simp; omega
    rw [hfuel, drain]
    simp only [hrx, List.cons_append, setRx, hpos]
    have hlt : pre.length < IN_BUFFER_SIZE - 1 := by simp at hroom; omega
    simp only [hlt, if_true, hb, false_and, if_false]
    rw [ih k _ (pre ++ [b]) ps rest (by simp [hbuf]) (by simp) rfl
          (fun x hx => hL x (List.mem_cons_of_mem _ hx)) (by simp at hroom ⊢; omega)
          (by simp at hpost; omega)]
    simp [Nat.add_assoc, Nat.add_comm 1 L.length]

end NATSClient

theorem set_at_length (pre post : List Nat) (x y : Nat) :
    (pre ++ x :: post).set pre.length y = pre ++ y :: post := by
  induction pre with
  | nil => rfl
  | cons p ps ih => simp [List.set, ih]

theorem getD_at_length (pre post : List Nat) (x d : Nat) :
    (pre ++ x :: post).getD pre.length d = x := by
  induction pre with
  | nil => rfl
  | cons p ps ih => simpa [List.getD] using ih

namespace NATSClient

theorem drain_line (L rest : List Nat) (k : Nat) (c : NATSClient)
    (hbuf : c._inBuffer.length = IN_BUFFER_SIZE) (hpos : c._inBufferPos = 0)
    (hrx : c._client.rx = L ++ 13 :: 10 :: rest) (hL : ∀ b ∈ L, b ≠ 10)
    (hlen : L.length + 2 ≤ IN_BUFFER_SIZE - 1) :
    drain (L.length + 2 + k) c =
      match ({ c with _client := { c._client with rx := rest },
                      _inBuffer := L ++ 0 :: 10 :: c._inBuffer.drop (L.length + 2),
                      _inBufferPos := L.length + 2 })._processLine with
      | .error f => .error f
      | .ok (_, c3) => drain k { c3 with _inBufferPos := 0 } := by
  have hlt : L.length + 1 < c._inBuffer.length := by
    rw [hbuf]; unfold IN_BUFFER_SIZE NATS_MAX_PAYLOAD_SIZE at *; omega
  have hx : c._inBuffer.drop (L.length + 1)
      = c._inBuffer[L.length + 1] :: c._inBuffer.drop (L.length + 2) :=
    List.drop_eq_getElem_cons hlt
  have hfuel : L.length + 2 + k = (L ++ [13]).length + (k + 1) := by simp; omega
  have hrx2 : c._client.rx = (L ++ [13]) ++ 10 :: rest := by simp [hrx]
  rw [hfuel, drain_store (L ++ [13]) (k + 1) c [] c._inBuffer (10 :: rest) rfl hpos hrx2
        (fun b hb => by
          simp only [List.mem_append, List.mem_singleton] at hb
          rcases hb with hb | hb
          · exact hL b hb
          · omega)
        (by simp; omega) (by simp; omega)]
  rw [drain]
  simp only [setRx, List.nil_append, List.length_nil, Nat.zero_add, List.length_append,
    List.length_singleton, hx]
  have hlt2 : L.length + 1 < IN_BUFFER_SIZE - 1 := by omega
  have e1 : (L ++ [13] ++ c._inBuffer[L.length + 1] :: c._inBuffer.drop (L.length + 2)).set
      (L.length + 1) 10 = L ++ 13 :: 10 :: c._inBuffer.drop (L.length + 2) := by
    have := set_at_length (L ++ [13]) (c._inBuffer.drop (L.length + 2))
      c._inBuffer[L.length + 1] 10
    simpa using this
  have e2 : (L ++ 13 :: 10 :: c._inBuffer.drop (L.length + 2)).getD L.length 0 = 13 :=
    getD_at_length L _ 13 0
  have e3 : (L ++ 13 :: 10 :: c._inBuffer.drop (L.length + 2)).set L.length 0
      = L ++ 0 :: 10 :: c._inBuffer.drop (L.length + 2) := set_at_length L _ 13 0
  simp only [hlt2, if_true, e1, Nat.add_sub_cancel, e2, true_and, e3,
    show L.length + 1 + 1 - 2 = L.length from by omega,
    show L.length + 1 + 1 > 1 from by omega, and_self]

end NATSClient

/-! ## Claims about single calls -/

/-- C10: on a client whose connected flag is false, `publish` returns false and the
state after the call is the state before it with the last error set to
"Not connected": no byte is written to the transport and no other field changes. -/
theorem publish_while_disconnected (c : NATSClient) (subject data : List Nat)
    (h : c._connected = false) :
    c.publish subject data = .ok (false, { c with _lastError := bytes "Not connected" }) := by
  simp [NATSClient.publish, h]

theorem publish_while_disconnected_witness :
    (NATSClient.new greeting 0 [])._connected = false ∧
    (NATSClient.new greeting 0 []).publish (bytes "test.subject") (bytes "Hello NATS!")
      = .ok (false, { NATSClient.new greeting 0 [] with _lastError := bytes "Not connected" }) :=
  ⟨rfl, publish_while_disconnected _ _ _ rfl⟩

/-- C4 (failing input): after a successful handshake the client is connected, and
`publish` with a subject of 512 bytes formats a command line that does not fit
into `char cmd[512]`: the call writes past the end of the buffer instead of
returning true with the `PUB` bytes written. -/
theorem publish_long_subject_overflows :
    handshaken.map (fun c => c.connected) = .ok true ∧
    publishLongSubject = .error .overflow := by
  decide!

/-- C8 (failing input): in the scenario of `test_connection_error` the "Wait for INFO"
loop reads and drops the `-ERR` line, so `connect` returns false with the last
error "Connection timeout"; the text "Authorization" is not in it. -/
theorem rejected_handshake_reports_timeout :
    rejectedConnect.map (fun r => (r.1, r.2.connected, r.2.getLastError))
      = .ok (false, false, bytes "Connection timeout") := by
  decide!

/-- C5 (failing input): after a request whose inbox has the `sid` 1, two `MSG` lines
for that `sid` invoke the request handler twice, and afterwards the inbox
subscription and the pending entry are both still active. -/
theorem request_answered_twice :
    requestAnsweredTwice.map (fun c =>
        (c.events, activeCount c._subscriptions (bytes "_INBOX.000000000000"),
         (c._pendingRequests.filter (fun r => r.active)).map (fun r => r.inbox)))
      = .ok ([.message 7 (bytes "_INBOX.000000000000") (bytes "hi") [],
              .message 7 (bytes "_INBOX.000000000000") (bytes "yo") []],
             1, [bytes "_INBOX.000000000000"]) := by
  decide!

/-- C2 (failing inputs): `connect` does not reset the cursor of the line buffer, so
after a connection that was lost in the middle of a line the greeting
`INFO {}` `+OK` is not recognised and `connect` returns false with
"Connection timeout"; and an `INFO` line of 1607 bytes is stored past the end of
the line buffer. -/
theorem handshake_fails_on_greeting :
    reconnectAfterPartialLine.map (fun r => (r.1, r.2.getLastError))
      = .ok (false, bytes "Connection timeout") ∧
    connectLongInfo = .error .overflow := by
  decide!

/-- C7 (counterexample): with two active subscriptions on the subject `a`, both
calls of `unsubscribe` return true. -/
theorem unsubscribe_twice_both_succeed : unsubscribeTwice = .ok (true, true) := by
  decide!

/-- C1 (counterexample): the `MSG` line of `test_message_parsing` is not delivered
when the line buffer holds the start of another line, and a `MSG` line with an
empty subject is not delivered either: in both runs no handler is invoked. -/
theorem message_not_delivered :
    deliveryAfterPartialLine.map (fun c => c.events) = .ok [] ∧
    deliveryEmptySubject.map (fun c => c.events) = .ok [] := by
  decide!

/-! ## Unsubscribing -/

theorem findIdx?_none_iff_filter (p : Subscription → Bool) (subs : List Subscription) :
    subs.findIdx? p = none ↔ (subs.filter p).length = 0 := by
  rw [List.findIdx?_eq_none_iff, List.length_eq_zero, List.filter_eq_nil_iff]
  constructor
  · intro h x hx; simp [h x hx]
  · intro h x hx; simpa using h x hx

theorem filter_modify_first (p : Subscription → Bool) (f : Subscription → Subscription)
    (hf : ∀ s, p (f s) = false) :
    ∀ (subs : List Subscription) (i : Nat), subs.findIdx? p = some i →
      ((subs.modify f i).filter p).length + 1 = (subs.filter p).length := by
  intro subs
  induction subs with
  | nil => intro i h; simp at h
  | cons x xs ih =>
    intro i h
    rw [List.findIdx?_cons] at h
    by_cases hx : p x = true
    · simp only [hx, if_true, Option.some.injEq] at h
      subst h
      simp [List.filter, hx, hf]
    · simp only [hx, if_false, Bool.false_eq_true] at h
      rw [List.findIdx?_succ] at h
      cases hi : xs.findIdx? p with
      | none => simp [hi] at h
      | some i' =>
        simp only [hi, Option.map_some', Option.some.injEq] at h
        subst h
        have := ih i' hi
        simp only [Bool.not_eq_true] at hx
        simpa [List.filter, hx] using this

/-- C7 (amended): on a connected client with `n + 1` active slots that store the
subject, the first `unsubscribe` returns true, and the second returns false
exactly when `n = 0`, that is when only one active slot stored the subject. -/
theorem unsubscribe_twice (c : NATSClient) (subject : List Nat) (n : Nat)
    (hc : c._connected = true) (h : activeCount c._subscriptions subject = n + 1) :
    (c.unsubscribe subject).1 = true ∧
    ((c.unsubscribe subject).2.unsubscribe subject).1 = decide (0 < n) := by
  have hfind : c._findSubscription subject ≠ none := by
    intro hnone
    have := (findIdx?_none_iff_filter _ _).mp hnone
    unfold activeCount at h
    omega
  obtain ⟨i, hi⟩ := Option.ne_none_iff_exists'.mp hfind
  have hcount := filter_modify_first
    (fun s => s.active && decide (s.subject = subject))
    (fun s => { s with active := false }) (fun s => by simp) c._subscriptions i hi
  have hrest : activeCount (NATSClient.deactivate c._subscriptions i) subject = n := by
    unfold activeCount NATSClient.deactivate at *
    omega
  have h1 : c.unsubscribe subject
      = (true, { c.send (NATSClient.unsubCommand ((c._subscriptions[i]?).elim 0 (fun s => s.sid)))
                 with _subscriptions := NATSClient.deactivate c._subscriptions i }) := by
    simp [NATSClient.unsubscribe, hc, hi]
  rw [h1]
  refine ⟨rfl, ?_⟩
  simp only [NATSClient.unsubscribe, NATSClient.send, hc, Bool.not_true, Bool.false_eq_true,
    if_false, NATSClient._findSubscription]
  cases hj : (NATSClient.deactivate c._subscriptions i).findIdx?
      (fun s => s.active && decide (s.subject = subject)) with
  | none =>
    have := (findIdx?_none_iff_filter _ _).mp hj
    unfold activeCount at hrest
    simp; omega
  | some j =>
    have : n ≠ 0 := by
      intro h0
      have := (findIdx?_none_iff_filter
        (fun s => s.active && decide (s.subject = subject))
        (NATSClient.deactivate c._subscriptions i)).mpr (by unfold activeCount at hrest; omega)
      rw [this] at hj
      cases hj
    simp; omega

theorem unsubscribe_twice_witness :
    subscribedOnce._connected = true ∧
    activeCount subscribedOnce._subscriptions (bytes "a") = 0 + 1 ∧
    (subscribedOnce.unsubscribe (bytes "a")).1 = true ∧
    ((subscribedOnce.unsubscribe (bytes "a")).2.unsubscribe (bytes "a")).1 = decide (0 < 0) :=
  ⟨by decide!, by decide!,
   unsubscribe_twice subscribedOnce (bytes "a") 0 (by decide!) (by decide!)⟩

/-! ## The periodic work of `loop` -/

theorem infix_append_after {cmd w2 : List Nat} (w1 : List Nat) (h : cmd <:+: w2) :
    cmd <:+: w1 ++ w2 := by
  obtain ⟨s, t, rfl⟩ := h
  exact ⟨w1 ++ s, t, by simp⟩

theorem infix_append_before {cmd w1 : List Nat} (w2 : List Nat) (h : cmd <:+: w1) :
    cmd <:+: w1 ++ w2 := by
  obtain ⟨s, t, rfl⟩ := h
  exact ⟨s, t ++ w2, by simp⟩

theorem retired_refl (subs : List Subscription) (w : List Nat) : Retired subs subs w :=
  ⟨rfl, fun _ _ h => Or.inl h⟩

theorem retired_trans {a b d : List Subscription} {w1 w2 : List Nat}
    (h1 : Retired a b w1) (h2 : Retired b d w2) : Retired a d (w1 ++ w2) := by
  refine ⟨h2.1.trans h1.1, fun k s hs => ?_⟩
  rcases h1.2 k s hs with hb | ⟨hact, hb, hw⟩
  · rcases h2.2 k s hb with hd | ⟨hact, hd, hw⟩
    · exact Or.inl hd
    · exact Or.inr ⟨hact, hd, infix_append_after w1 hw⟩
  · refine Or.inr ⟨hact, ?_, infix_append_before w2 hw⟩
    rcases h2.2 k _ hb with hd | ⟨hact2, _, _⟩
    · exact hd
    · simp at hact2

theorem retired_inactive {a b : List Subscription} {w : List Nat} (h : Retired a b w) (k : Nat)
    (hk : (a[k]?).map (fun s => s.active) = some false) :
    (b[k]?).map (fun s => s.active) = some false := by
  cases hs : a[k]? with
  | none => simp [hs] at hk
  | some s =>
    simp only [hs, Option.map_some', Option.some.injEq] at hk
    rcases h.2 k s hs with hb | ⟨_, hb, _⟩
    · simp [hb, hk]
    · simp [hb]

namespace NATSClient

theorem upkeep_upkeep (c : NATSClient) (w1 w2 : List Nat) (s1 s2 : List Subscription)
    (r1 r2 : List PendingRequest) (p1 p2 a1 a2 : Nat) :
    (c.upkeep w1 s1 r1 p1 a1).upkeep w2 s2 r2 p2 a2 = c.upkeep (w1 ++ w2) s2 r2 p2 a2 := by
  simp [upkeep, List.append_assoc]

theorem upkeep_self (c : NATSClient) :
    c.upkeep [] c._subscriptions c._pendingRequests c._lastPing c._lastAnnounce = c := by
  simp [upkeep]

theorem findSubscription_active (c : NATSClient) (subject : List Nat) (k : Nat)
    (h : c._findSubscription subject = some k) :
    ∃ s, c._subscriptions[k]? = some s ∧ s.active = true ∧ s.subject = subject := by
  unfold _findSubscription at h
  obtain ⟨hk, hp, _⟩ := List.findIdx?_eq_some_iff_getElem.mp h
  refine ⟨c._subscriptions[k], List.getElem?_eq_getElem hk, ?_⟩
  simpa using hp

theorem unsubscribe_frame (c : NATSClient) (subject : List Nat) :
    ∃ w, (c.unsubscribe subject).2
        = c.upkeep w (c.unsubscribe subject).2._subscriptions c._pendingRequests c._lastPing
            c._lastAnnounce ∧
      Retired c._subscriptions (c.unsubscribe subject).2._subscriptions w := by
  unfold unsubscribe
  by_cases hc : c._connected = true
  · simp only [hc, Bool.not_true, Bool.false_eq_true, if_false]
    cases hk : c._findSubscription subject with
    | none => exact ⟨[], by simp [upkeep], retired_refl _ _⟩
    | some k =>
      obtain ⟨s, hs, hact, _⟩ := findSubscription_active c subject k hk
      refine ⟨unsubCommand s.sid, by simp [upkeep, send, Transport.write, hs], ?_⟩
      refine ⟨by simp [deactivate], fun j t ht => ?_⟩
      simp only [deactivate, List.getElem?_modify, ht, Option.map_eq_map, Option.map_some']
      by_cases hj : k = j
      · subst hj
        rw [hs] at ht
        cases ht
        exact Or.inr ⟨hact, by simp, List.infix_refl _⟩
      · exact Or.inl (by simp [hj])
  · simp only [Bool.not_eq_true] at hc
    simp only [hc, Bool.not_false, if_true]
    exact ⟨[], by simp [upkeep], retired_refl _ _⟩

theorem unsubscribe_deactivates (c : NATSClient) (subject : List Nat) (k : Nat)
    (hc : c._connected = true) (hk : c._findSubscription subject = some k) :
    ((c.unsubscribe subject).2._subscriptions[k]?).map (fun s => s.active) = some false := by
  obtain ⟨s, hs, _, _⟩ := findSubscription_active c subject k hk
  simp [unsubscribe, hc, hk, deactivate, List.getElem?_modify, hs]

theorem findIdx?_modify_other (p : Subscription → Bool) (f : Subscription → Subscription)
    (hf : ∀ s, p (f s) = false) (subs : List Subscription) (k m : Nat) (hne : m ≠ k)
    (h : subs.findIdx? p = some k) : (subs.modify f m).findIdx? p = some k := by
  obtain ⟨hk, hp, hlt⟩ := List.findIdx?_eq_some_iff_getElem.mp h
  refine List.findIdx?_eq_some_iff_getElem.mpr ⟨by simpa using hk, ?_, ?_⟩
  · simp [List.getElem_modify, hne, hp]
  · intro j hj
    simp only [List.getElem_modify]
    split
    · simp [hf]
    · exact hlt j hj

theorem find_after_unsubscribe (c : NATSClient) (subject other : List Nat) (k : Nat)
    (hc : c._connected = true) (hk : c._findSubscription other = some k) :
    (c.unsubscribe subject).2._findSubscription other = some k ∨
    ((c.unsubscribe subject).2._subscriptions[k]?).map (fun s => s.active) = some false := by
  cases hm : c._findSubscription subject with
  | none => left; simpa [unsubscribe, hc, hm] using hk
  | some m =>
    by_cases hmk : m = k
    · right; subst hmk; exact unsubscribe_deactivates c subject m hc hm
    · left
      have h1 : (c.unsubscribe subject).2._subscriptions = deactivate c._subscriptions m := by
        simp [unsubscribe, hc, hm]
      unfold _findSubscription at hk ⊢
      rw [h1]
      exact findIdx?_modify_other _ (fun s => { s with active := false }) (fun s => by simp)
        _ k m hmk hk

end NATSClient

namespace NATSClient

theorem cleanupFrom_frame (reqs : List PendingRequest) : ∀ (i : Nat) (c : NATSClient),
    ∃ w subs2 reqs2, c.cleanupFrom i reqs = c.upkeep w subs2 reqs2 c._lastPing c._lastAnnounce ∧
      Retired c._subscriptions subs2 w := by
  induction reqs with
  | nil => intro i c; exact ⟨[], _, _, (upkeep_self c).symm, retired_refl _ _⟩
  | cons r rest ih =>
    intro i c
    unfold cleanupFrom
    split
    · obtain ⟨w1, h1, hr1⟩ := unsubscribe_frame c r.inbox
      rw [h1]
      obtain ⟨w2, subs2, reqs2, h2, hr2⟩ := ih (i + 1)
        { c.upkeep w1 (c.unsubscribe r.inbox).2._subscriptions c._pendingRequests c._lastPing
            c._lastAnnounce with
          _pendingRequests := List.modify (fun q => { q with active := false }) i
            c._pendingRequests }
      refine ⟨w1 ++ w2, subs2, reqs2, ?_, retired_trans hr1 hr2⟩
      simp only [upkeep] at h2 ⊢
      rw [h2]
      simp [List.append_assoc]
    · exact ih (i + 1) c

theorem modify_at_length (f : PendingRequest → PendingRequest) (pre rest : List PendingRequest)
    (r : PendingRequest) : List.modify f pre.length (pre ++ r :: rest) = pre ++ f r :: rest := by
  induction pre with
  | nil => simp
  | cons p ps ih => simp [ih]

theorem cleanupFrom_pending (reqs : List PendingRequest) :
    ∀ (pre : List PendingRequest) (c : NATSClient), c._pendingRequests = pre ++ reqs →
      (c.cleanupFrom pre.length reqs)._pendingRequests = pre ++ reqs.map (evict c.millis) := by
  induction reqs with
  | nil => intro pre c h; simpa [cleanupFrom] using h
  | cons r rest ih =>
    intro pre c h
    unfold cleanupFrom
    split
    · rename_i hcond
      obtain ⟨w1, h1, _⟩ := unsubscribe_frame c r.inbox
      rw [h1]
      have := ih (pre ++ [evict c.millis r])
        { c.upkeep w1 (c.unsubscribe r.inbox).2._subscriptions c._pendingRequests c._lastPing
            c._lastAnnounce with
          _pendingRequests := List.modify (fun q => { q with active := false }) pre.length
            c._pendingRequests }
        (by simp [h, modify_at_length, evict, hcond])
      simp only [List.length_append, List.length_singleton] at this
      simp only [upkeep] at this ⊢
      rw [this]
      simp
    · rename_i hcond
      have := ih (pre ++ [r]) c (by simp [h])
      simp only [List.length_append, List.length_singleton] at this
      rw [this]
      simp [evict, hcond]

theorem cleanup_pending (c : NATSClient) :
    c._cleanupPendingRequests._pendingRequests = c._pendingRequests.map (evict c.millis) := by
  have := cleanupFrom_pending c._pendingRequests [] c rfl
  simpa [_cleanupPendingRequests] using this

theorem cleanupFrom_evicts (reqs : List PendingRequest) : ∀ (i : Nat) (c : NATSClient),
    c._connected = true → ∀ r ∈ reqs, r.active = true → usub c.millis r.timestamp > r.timeout →
    ∀ k, c._findSubscription r.inbox = some k →
      ((c.cleanupFrom i reqs)._subscriptions[k]?).map (fun s => s.active) = some false := by
  induction reqs with
  | nil => intro i c _ r hr; simp at hr
  | cons r0 rest ih =>
    intro i c hc r hr hact hexp k hk
    unfold cleanupFrom
    split
    · obtain ⟨w1, h1, _⟩ := unsubscribe_frame c r0.inbox
      obtain ⟨w2, subs2, reqs2, h2, hr2⟩ := cleanupFrom_frame rest (i + 1)
        { (c.unsubscribe r0.inbox).2 with
          _pendingRequests := List.modify (fun q => { q with active := false }) i
            (c.unsubscribe r0.inbox).2._pendingRequests }
      have hconn : (c.unsubscribe r0.inbox).2._connected = true := by rw [h1]; exact hc
      have hmil : (c.unsubscribe r0.inbox).2.millis = c.millis := by rw [h1]; rfl
      have hdone : ((c.unsubscribe r0.inbox).2._subscriptions[k]?).map (fun s => s.active)
          = some false →
          (((cleanupFrom
            { (c.unsubscribe r0.inbox).2 with
              _pendingRequests := List.modify (fun q => { q with active := false }) i
                (c.unsubscribe r0.inbox).2._pendingRequests } (i + 1) rest))._subscriptions[k]?).map
            (fun s => s.active) = some false := by
        intro hin
        rw [h2]
        exact retired_inactive hr2 k hin
      rcases List.mem_cons.mp hr with rfl | hrest
      · exact hdone (unsubscribe_deactivates c r.inbox k hc hk)
      · rcases find_after_unsubscribe c r0.inbox r.inbox k hc hk with hstill | hin
        · exact ih (i + 1)
            { (c.unsubscribe r0.inbox).2 with
              _pendingRequests := List.modify (fun q => { q with active := false }) i
                (c.unsubscribe r0.inbox).2._pendingRequests }
            hconn r hrest hact (by simpa [hmil] using hexp) k hstill
        · exact hdone hin
    · rename_i hcond
      rcases List.mem_cons.mp hr with rfl | hrest
      · exfalso; apply hcond; simp [hact, hexp]
      · exact ih (i + 1) c hc r hrest hact hexp k hk

theorem sendPing_frame (c : NATSClient) :
    ∃ w lp, c._sendPing.2 = c.upkeep w c._subscriptions c._pendingRequests lp c._lastAnnounce := by
  unfold _sendPing
  split
  · exact ⟨[], _, (upkeep_self c).symm⟩
  · exact ⟨bytes "PING" ++ NATS_CR_LF, c.millis, by simp [upkeep, send, Transport.write]⟩

theorem announceDevice_frame (c : NATSClient) :
    ∃ w la, c.announceDevice
      = .ok (c.upkeep w c._subscriptions c._pendingRequests c._lastPing la) := by
  unfold announceDevice
  split
  · exact ⟨[], _, by rw [upkeep_self]⟩
  · rename_i h
    have hc : c._connected = true := by
      simp only [Bool.or_eq_true, Bool.not_eq_true', decide_eq_true_eq, not_or] at h
      simpa using h.1
    have hfit : ¬ 512 ≤ (pubHeader (bytes "home.discovery.announce") c.announceJson.length).length := by
      have h1 := wrapInt_range (↑(c.announceJson.length % WORD))
      have := fmtInt_length (sizeAsInt c.announceJson.length) h1.1 h1.2
      simp only [pubHeader, List.length_append, NATS_CR_LF, List.length_cons, List.length_nil]
      have e1 : (bytes "PUB ").length = 4 := by decide
      have e2 : (bytes "home.discovery.announce").length = 23 := by decide
      have e3 : (bytes " ").length = 1 := by decide
      omega
    simp only [publishStr, publish, hc, Bool.not_true, Bool.false_eq_true, if_false, hfit]
    exact ⟨pubHeader (bytes "home.discovery.announce") c.announceJson.length
        ++ (c.announceJson ++ NATS_CR_LF), c.millis,
      by simp [upkeep, send, Transport.write, List.append_assoc]⟩

end NATSClient

namespace NATSClient

/-- What the part of `loop` after the "Process incoming data" loop does: it returns,
it writes bytes `w`, it changes no field other than the two tables and the two time
stamps, it examines every pending request, and on a connected client the inbox
subscription of every evicted request ends inactive. -/
theorem housekeeping_spec (c : NATSClient) :
    ∃ w subs2 lp la,
      c.housekeeping
        = .ok (c.upkeep w subs2 (c._pendingRequests.map (evict c.millis)) lp la) ∧
      Retired c._subscriptions subs2 w ∧
      (c._connected = true → ∀ r ∈ c._pendingRequests, r.active = true →
        usub c.millis r.timestamp > r.timeout →
        ∀ k, c._findSubscription r.inbox = some k →
          (subs2[k]?).map (fun s => s.active) = some false) := by
  obtain ⟨w0, lp0, h0⟩ : ∃ w lp,
      (if c._connected && decide (usub c.millis c._lastPing > c._pingInterval) then c._sendPing.2
        else c) = c.upkeep w c._subscriptions c._pendingRequests lp c._lastAnnounce := by
    split
    · exact sendPing_frame c
    · exact ⟨[], _, (upkeep_self c).symm⟩
  obtain ⟨w1, subs2, reqs2, h1, hr1⟩ := cleanupFrom_frame
    (c.upkeep w0 c._subscriptions c._pendingRequests lp0 c._lastAnnounce)._pendingRequests 0
    (c.upkeep w0 c._subscriptions c._pendingRequests lp0 c._lastAnnounce)
  have hp := cleanup_pending (c.upkeep w0 c._subscriptions c._pendingRequests lp0 c._lastAnnounce)
  have hreq : reqs2 = c._pendingRequests.map (evict c.millis) := by
    unfold _cleanupPendingRequests at hp
    rw [h1] at hp
    exact hp
  have hev : c._connected = true → ∀ r ∈ c._pendingRequests, r.active = true →
      usub c.millis r.timestamp > r.timeout →
      ∀ k, c._findSubscription r.inbox = some k →
        (subs2[k]?).map (fun s => s.active) = some false := by
    intro hc r hr hact hexp k hk
    have := cleanupFrom_evicts
      (c.upkeep w0 c._subscriptions c._pendingRequests lp0 c._lastAnnounce)._pendingRequests 0
      (c.upkeep w0 c._subscriptions c._pendingRequests lp0 c._lastAnnounce) hc r hr hact hexp k hk
    rw [h1] at this
    exact this
  subst hreq
  have hr01 : Retired c._subscriptions subs2 (w0 ++ w1) :=
    retired_trans (retired_refl c._subscriptions w0) (show Retired c._subscriptions subs2 w1 from hr1)
  have hc2 : (c.housekeeping) =
      (let c2 := (c.upkeep w0 c._subscriptions c._pendingRequests lp0 c._lastAnnounce).upkeep w1
          subs2 (c._pendingRequests.map (evict c.millis)) lp0 c._lastAnnounce
       if c2._connected && c2._autoDiscovery && decide (c2._deviceId.length > 0) then
         if usub c2.millis c2._lastAnnounce > 300000 then c2.announceDevice else .ok c2
       else .ok c2) := by
    unfold housekeeping
    simp only [h0]
    unfold _cleanupPendingRequests
    rw [h1]
    rfl
  rw [hc2, upkeep_upkeep]
  simp only
  split
  · split
    · obtain ⟨w2, la, h2⟩ := announceDevice_frame
        (c.upkeep (w0 ++ w1) subs2 (c._pendingRequests.map (evict c.millis)) lp0
          c._lastAnnounce)
      rw [h2, upkeep_upkeep]
      exact ⟨_, _, _, _, rfl, retired_trans hr01 (retired_refl subs2 w2), hev⟩
    · exact ⟨_, _, _, _, rfl, hr01, hev⟩
  · exact ⟨_, _, _, _, rfl, hr01, hev⟩

end NATSClient

/-! ## Incoming lines -/

/-- C9: on a connected client with an empty line buffer, when the transport holds
`PING\r\n`, `loop` returns and the bytes it writes start with `PONG\r\n`; and
processing a line that does not start with `PING` writes nothing at all, so no
`PONG` is written for it. -/
theorem ping_reply :
    (∀ c : NATSClient, c._connected = true → c._client.isOpen = true → c._inBufferPos = 0 →
      c._inBuffer.length = IN_BUFFER_SIZE → c._client.rx = bytes "PING\r\n" →
      ∃ c2 more, c.loop = .ok c2 ∧
        c2._client.tx = c._client.tx ++ bytes "PONG\r\n" ++ more) ∧
    (∀ c : NATSClient, ¬ bytes "PING" <+: cstr c._inBuffer →
      ∀ r c2, c._processLine = .ok (r, c2) → c2._client.tx = c._client.tx) := by
  constructor
  · intro c hc ho hpos hbuf hrx
    have hrx2 : c._client.rx = bytes "PING" ++ 13 :: 10 :: [] := by rw [hrx]; decide
    have hline := NATSClient.drain_line (bytes "PING") [] 0 c hbuf hpos hrx2 (by decide)
      (by decide)
    have hlen : c._client.rx.length = (bytes "PING").length + 2 + 0 := by rw [hrx]; decide
    have hcs : cstr (bytes "PING" ++ 0 :: 10 :: c._inBuffer.drop ((bytes "PING").length + 2))
        = bytes "PING" := cstr_append_nul _ _ (by decide)
    have hdrain : NATSClient.drain c._client.rx.length c
        = .ok { (c.setRx []).send (bytes "PONG\r\n") with
                _inBuffer := bytes "PING" ++ 0 :: 10 :: c._inBuffer.drop ((bytes "PING").length + 2)
                _inBufferPos := 0 } := by
      rw [hlen, hline]
      simp only [NATSClient._processLine, hcs]
      have e1 : strncmpEq (bytes "PING") (bytes "MSG") 3 = false := by decide
      have e2 : strncmpEq (bytes "PING") (bytes "PING") 4 = true := by decide
      simp only [e1, e2, Bool.false_eq_true, if_false, if_true, NATSClient._processPing,
        NATSClient._sendPong, hc, Bool.not_true, NATSClient.send, Transport.write,
        NATSClient.drain, NATSClient.setRx]
      have e3 : bytes "PONG" ++ NATS_CR_LF = bytes "PONG\r\n" := by decide
      rw [e3]
    obtain ⟨w, subs2, lp, la, hk, _, _⟩ := NATSClient.housekeeping_spec
      { (c.setRx []).send (bytes "PONG\r\n") with
        _inBuffer := bytes "PING" ++ 0 :: 10 :: c._inBuffer.drop ((bytes "PING").length + 2)
        _inBufferPos := 0 }
    have hloop : c.loop = NATSClient.housekeeping
        { (c.setRx []).send (bytes "PONG\r\n") with
          _inBuffer := bytes "PING" ++ 0 :: 10 :: c._inBuffer.drop ((bytes "PING").length + 2)
          _inBufferPos := 0 } := by
      simp only [NATSClient.loop, ho, Bool.not_true, Bool.false_eq_true, if_false, hdrain]
    rw [hk] at hloop
    exact ⟨_, w, hloop,
      by simp [NATSClient.upkeep, NATSClient.send, NATSClient.setRx, Transport.write]⟩
  · intro c hpre r c2 h
    have hping : strncmpEq (cstr c._inBuffer) (bytes "PING") 4 = false := by
      simp only [strncmpEq, decide_eq_false_iff_not]
      intro heq
      apply hpre
      rw [List.prefix_iff_eq_take]
      have : (bytes "PING").length = 4 := by decide
      rw [this, heq]
      decide
    unfold NATSClient._processLine at h
    simp only [hping, Bool.false_eq_true, if_false] at h
    split at h
    · unfold NATSClient._processMsg at h
      split at h
      · cases h
      · cases h; rfl
      all_goals
        unfold NATSClient.deliver at h
        simp only at h
        split at h
        · cases h
        · split at h
          · cases h; rfl
          · split at h <;> (cases h; rfl)
    · split at h
      · cases h; rfl
      · split at h
        · cases h; rfl
        · split at h
          · cases h; rfl
          · split at h <;> (cases h; rfl)

theorem ping_reply_witness :
    (pinged._connected = true ∧ pinged._client.isOpen = true ∧ pinged._inBufferPos = 0 ∧
      pinged._inBuffer.length = IN_BUFFER_SIZE ∧ pinged._client.rx = bytes "PING\r\n" ∧
      ∃ c2 more, pinged.loop = .ok c2 ∧
        c2._client.tx = pinged._client.tx ++ bytes "PONG\r\n" ++ more) ∧
    (¬ bytes "PING" <+: cstr lineIsPong._inBuffer ∧
      ∀ r c2, lineIsPong._processLine = .ok (r, c2) → c2._client.tx = lineIsPong._client.tx) :=
  ⟨⟨by decide!, by decide!, by decide!, by decide!, by decide!,
    ping_reply.1 pinged (by decide!) (by decide!) (by decide!) (by decide!) (by decide!)⟩,
   ⟨by decide!, ping_reply.2 lineIsPong (by decide!)⟩⟩

theorem cstr_of_no_nul (P : List Nat) (h : ∀ b ∈ P, b ≠ 0) : cstr P = P := by
  have := takeWhile_append_stop (fun b => decide (b ≠ 0)) P [] (fun b hb => by simp [h b hb])
    (by simp)
  simpa [cstr] using this

theorem drain_idle (k : Nat) (c : NATSClient) (h : c._client.rx = []) :
    NATSClient.drain k c = .ok c := by
  cases k with
  | zero => rfl
  | succ k => simp [NATSClient.drain, h]

theorem find?_of_distinct (subs : List Subscription) (sub : Subscription) (sid : Int)
    (hmem : sub ∈ subs) (hact : sub.active = true) (hsid : sub.sid = sid)
    (hd : SidsDistinct subs) :
    subs.find? (fun s => s.active && decide (s.sid = sid)) = some sub := by
  cases hf : subs.find? (fun s => s.active && decide (s.sid = sid)) with
  | none =>
    have := List.find?_eq_none.mp hf sub hmem
    simp [hact, hsid] at this
  | some x =>
    have hx := List.find?_some hf
    have hxm := List.mem_of_find?_eq_some hf
    simp only [Bool.and_eq_true, decide_eq_true_eq] at hx
    obtain ⟨i, hi⟩ := List.getElem?_of_mem hxm
    obtain ⟨j, hj⟩ := List.getElem?_of_mem hmem
    by_cases hij : i = j
    · subst hij
      rw [hi] at hj
      exact hj
    · exact absurd (hx.2.trans hsid.symm) (hd i j x sub hi hj hij hx.1 hact)

theorem sidsDistinct_of_pairwise (subs : List Subscription)
    (h : subs.Pairwise (fun a b => ¬ (a.active = true ∧ b.active = true ∧ a.sid = b.sid))) :
    SidsDistinct subs := by
  intro i j s t hi hj hij hs ht heq
  rw [List.pairwise_iff_getElem] at h
  obtain ⟨hi1, hi2⟩ := List.getElem?_eq_some_iff.mp hi
  obtain ⟨hj1, hj2⟩ := List.getElem?_eq_some_iff.mp hj
  rcases Nat.lt_or_gt_of_ne hij with hlt | hgt
  · exact h i j hi1 hj1 hlt ⟨hi2 ▸ hs, hj2 ▸ ht, by rw [hi2, hj2]; exact heq⟩
  · exact h j i hj1 hi1 hgt ⟨hj2 ▸ ht, hi2 ▸ hs, by rw [hi2, hj2]; exact heq.symm⟩

/-- Delivery of one `MSG` line: as the next theorem, for a payload `P` of at most 1023
bytes that may hold zero bytes; the data that the handler gets are the bytes of `P`
before its first zero byte. -/
theorem msg_line_delivery (c : NATSClient) (sub : Subscription) (h : Nat) (sid : Int)
    (S P : List Nat)
    (ho : c._client.isOpen = true)
    (hpos : c._inBufferPos = 0) (hbuf : c._inBuffer.length = IN_BUFFER_SIZE)
    (hmem : sub ∈ c._subscriptions) (hact : sub.active = true) (hsub : sub.sid = sid)
    (hh : sub.handler = some h) (hd : SidsDistinct c._subscriptions)
    (hsid : -2 ^ 31 ≤ sid ∧ sid < 2 ^ 31)
    (hS : S ≠ [] ∧ S.length < 256 ∧ ∀ b ∈ S, isspace b = false ∧ b ≠ 0)
    (hP : P.length ≤ 1023)
    (hrx : c._client.rx = bytes "MSG " ++ S ++ bytes " " ++ fmtInt sid ++ bytes " "
      ++ decimal P.length ++ NATS_CR_LF ++ P ++ NATS_CR_LF) :
    ∃ c2, c.loop = .ok c2 ∧ c2.events = c.events ++ [.message h S (cstr P) []] := by
  obtain ⟨hne, hlen, hchars⟩ := hS
  have hPlen := hP
  have eMSG : bytes "MSG " = [77, 83, 71, 32] := by decide
  have eSP : bytes " " = [32] := by decide
  have hfd : ∀ b ∈ fmtInt sid, b = 45 ∨ (48 ≤ b ∧ b ≤ 57) := by
    intro b hb
    unfold fmtInt at hb
    split at hb
    · rcases List.mem_cons.mp hb with rfl | hb
      · exact Or.inl rfl
      · exact Or.inr (decimal_digits _ b hb)
    · exact Or.inr (decimal_digits _ b hb)
  have hfl := fmtInt_length sid hsid.1 hsid.2
  have hdl : (decimal P.length).length ≤ 9 + 1 := decimal_length 9 _ (by omega)
  -- the line
  let L := 77 :: 83 :: 71 :: 32 :: (S ++ 32 :: (fmtInt sid ++ 32 :: decimal P.length))
  have hrx2 : c._client.rx = L ++ 13 :: 10 :: (P ++ [13, 10]) := by
    rw [hrx, eMSG, eSP]; simp [L, NATS_CR_LF]
  have hLmem : ∀ b ∈ L, b ≠ 10 ∧ b ≠ 0 := by
    intro b hb
    simp only [L, List.mem_cons, List.mem_append] at hb
    rcases hb with rfl | rfl | rfl | rfl | hb | rfl | hb | rfl | hb
    · omega
    · omega
    · omega
    · omega
    · have := hchars b hb
      simp only [isspace, decide_eq_false_iff_not, not_or, not_and] at this
      omega
    · omega
    · rcases hfd b hb with rfl | hb <;> omega
    · omega
    · have := decimal_digits _ b hb; omega
  have hLlen : L.length + 2 ≤ IN_BUFFER_SIZE - 1 := by
    simp only [L, List.length_cons, List.length_append, IN_BUFFER_SIZE, NATS_MAX_PAYLOAD_SIZE]
    omega
  have hline := NATSClient.drain_line L (P ++ [13, 10]) (P.length + 2) c hbuf hpos hrx2
    (fun b hb => (hLmem b hb).1) hLlen
  have hfuel : c._client.rx.length = L.length + 2 + (P.length + 2) := by
    rw [hrx2]; simp; omega
  have hcs : cstr (L ++ 0 :: 10 :: c._inBuffer.drop (L.length + 2)) = L :=
    cstr_append_nul _ _ (fun b hb => (hLmem b hb).2)
  have hargs : cstrAt (L ++ 0 :: 10 :: c._inBuffer.drop (L.length + 2)) 4
      = S ++ 32 :: (fmtInt sid ++ 32 :: decimal P.length) := by
    rw [cstrAt_append_nul _ _ 4 (fun b hb => (hLmem b hb).2) (by simp [L])]
    rfl
  have hscan := sscanfMsg_three S sid P.length hne (fun b hb => (hchars b hb).1)
    (by unfold NATS_MAX_SUBJECT_LENGTH; exact hlen) hsid.1 hsid.2 (by omega)
  have hatoi : atoi (decimal P.length) = (P.length : Int) := atoi_decimal _ (by omega)
  have hfind := find?_of_distinct c._subscriptions sub sid hmem hact hsub hd
  have hneed : min (toSize (P.length : Int)) (NATS_MAX_PAYLOAD_SIZE - 1) = P.length := by
    unfold toSize NATS_MAX_PAYLOAD_SIZE
    omega
  have hdrain : NATSClient.drain c._client.rx.length c
      = .ok { (c.setRx []).emit (.message h S (cstr P) []) with
              _inBuffer := L ++ 0 :: 10 :: c._inBuffer.drop (L.length + 2)
              _inBufferPos := 0 } := by
    rw [hfuel, hline]
    have hmsg : strncmpEq L (bytes "MSG") 3 = true := by
      simp [strncmpEq, L]; decide
    simp only [NATSClient._processLine, hcs, hmsg, if_true, hargs, NATSClient._processMsg, hscan,
      hatoi, NATSClient.deliver, hneed, NATSClient.setRx]
    have h1 : ¬ (P ++ [13, 10]).length < P.length := by simp
    have h2 : (P ++ [13, 10]).take P.length = P := by simp
    have h3 : ((P ++ [13, 10]).drop P.length).dropWhile (fun b => decide (b = 13 ∨ b = 10))
        = [] := by simp [List.dropWhile]
    simp only [h1, if_false, h2, h3, hfind, hh]
    exact drain_idle _ _ rfl
  obtain ⟨w, subs2, lp, la, hk, _, _⟩ := NATSClient.housekeeping_spec
    { (c.setRx []).emit (.message h S (cstr P) []) with
      _inBuffer := L ++ 0 :: 10 :: c._inBuffer.drop (L.length + 2)
      _inBufferPos := 0 }
  have hloop : c.loop = NATSClient.housekeeping
      { (c.setRx []).emit (.message h S (cstr P) []) with
        _inBuffer := L ++ 0 :: 10 :: c._inBuffer.drop (L.length + 2)
        _inBufferPos := 0 } := by
    simp only [NATSClient.loop, ho, Bool.not_true, Bool.false_eq_true, if_false, hdrain]
  rw [hk] at hloop
  exact ⟨_, hloop, by simp [NATSClient.upkeep, NATSClient.emit, NATSClient.setRx]⟩

/-- C1 (amended): on a client whose transport is open (so on every connected client)
and whose line buffer is empty, with an active subscription `sub` with the
identifier `sid` and the handler `h`, a subject `S` that is not empty, has no white
space and is shorter than 256 bytes, and a payload `P` without NUL of at most 1023
bytes: when the transport holds `MSG S sid |P|\r\n` ++ `P` ++ `\r\n`, one call of
`loop` returns and invokes exactly one handler, `h`, with the subject `S`, the data
`P` and an empty reply. -/
theorem message_delivery (c : NATSClient) (sub : Subscription) (h : Nat) (sid : Int)
    (S P : List Nat)
    (ho : c._client.isOpen = true)
    (hpos : c._inBufferPos = 0) (hbuf : c._inBuffer.length = IN_BUFFER_SIZE)
    (hmem : sub ∈ c._subscriptions) (hact : sub.active = true) (hsub : sub.sid = sid)
    (hh : sub.handler = some h) (hd : SidsDistinct c._subscriptions)
    (hsid : -2 ^ 31 ≤ sid ∧ sid < 2 ^ 31)
    (hS : S ≠ [] ∧ S.length < 256 ∧ ∀ b ∈ S, isspace b = false ∧ b ≠ 0)
    (hP : P.length ≤ 1023 ∧ ∀ b ∈ P, b ≠ 0)
    (hrx : c._client.rx = bytes "MSG " ++ S ++ bytes " " ++ fmtInt sid ++ bytes " "
      ++ decimal P.length ++ NATS_CR_LF ++ P ++ NATS_CR_LF) :
    ∃ c2, c.loop = .ok c2 ∧ c2.events = c.events ++ [.message h S P []] := by
  obtain ⟨c2, h1, h2⟩ := msg_line_delivery c sub h sid S P ho hpos hbuf hmem hact hsub hh hd
    hsid hS hP.1 hrx
  exact ⟨c2, h1, by rw [h2, cstr_of_no_nul P hP.2]⟩

theorem message_delivery_witness :
    messageArrived.connected = true ∧
    ∃ c2, messageArrived.loop = .ok c2 ∧
      c2.events = messageArrived.events
        ++ [.message 1 (bytes "test.topic") (bytes "Hello World") []] :=
  ⟨by decide!,
   message_delivery messageArrived
    { subject := bytes "test.topic", handler := some 1, sid := 1, active := true } 1 1
    (bytes "test.topic") (bytes "Hello World") (by decide!) (by decide!) (by decide!)
    (by decide!) (by decide!) rfl rfl (sidsDistinct_of_pairwise _ (by decide!)) (by decide)
    (by decide!) (by decide!) (by decide!)⟩

/-! ## Processing of incoming data leaves the tables alone -/

namespace NATSClient

theorem deliver_frame (c : NATSClient) (subject : List Nat) (sid : Int) (reply : List Nat)
    (size : Int) (r : Bool) (c2 : NATSClient) (h : c.deliver subject sid reply size = .ok (r, c2)) :
    ∃ rx ev, c2 = c.intake rx c._client.tx c._inBuffer c._inBufferPos c._lastError ev := by
  unfold deliver at h
  simp only at h
  split at h
  · cases h
  · split at h
    · cases h; exact ⟨_, _, rfl⟩
    · split at h
      · cases h; exact ⟨_, _, rfl⟩
      · cases h; exact ⟨_, _, rfl⟩

theorem processLine_frame (c : NATSClient) (r : Bool) (c2 : NATSClient)
    (h : c._processLine = .ok (r, c2)) :
    ∃ rx tx err ev, c2 = c.intake rx tx c._inBuffer c._inBufferPos err ev := by
  unfold _processLine at h
  split at h
  · unfold _processMsg at h
    split at h
    · cases h
    · cases h; exact ⟨_, _, _, _, rfl⟩
    · obtain ⟨rx, ev, rfl⟩ := deliver_frame _ _ _ _ _ _ _ h
      exact ⟨_, _, _, _, rfl⟩
    · obtain ⟨rx, ev, rfl⟩ := deliver_frame _ _ _ _ _ _ _ h
      exact ⟨_, _, _, _, rfl⟩
  · split at h
    · unfold _processPing _sendPong at h
      split at h
      · cases h; exact ⟨_, _, _, _, rfl⟩
      · cases h; exact ⟨_, _, _, _, rfl⟩
    · split at h
      · cases h; exact ⟨_, _, _, _, rfl⟩
      · split at h
        · cases h; exact ⟨_, _, _, _, rfl⟩
        · split at h
          · cases h; exact ⟨_, _, _, _, rfl⟩
          · split at h <;> (cases h; exact ⟨_, _, _, _, rfl⟩)

theorem drain_frame (fuel : Nat) : ∀ (c c2 : NATSClient), drain fuel c = .ok c2 →
    ∃ rx tx buf pos err ev, c2 = c.intake rx tx buf pos err ev := by
  induction fuel with
  | zero => intro c c2 h; cases h; exact ⟨_, _, _, _, _, _, rfl⟩
  | succ fuel ih =>
    intro c c2 h
    unfold drain at h
    split at h
    · cases h; exact ⟨_, _, _, _, _, _, rfl⟩
    · rename_i b rest hrx
      simp only at h
      have hstore : ∃ buf pos,
          (if (c.setRx rest)._inBufferPos < IN_BUFFER_SIZE - 1 then
            { c.setRx rest with
              _inBuffer := (c.setRx rest)._inBuffer.set (c.setRx rest)._inBufferPos b
              _inBufferPos := (c.setRx rest)._inBufferPos + 1 }
           else c.setRx rest) = c.intake rest c._client.tx buf pos c._lastError c.events := by
        split
        · exact ⟨_, _, rfl⟩
        · exact ⟨_, _, rfl⟩
      obtain ⟨buf, pos, hst⟩ := hstore
      rw [hst] at h
      split at h
      · split at h
        · cases h
        · rename_i r c3 hpl
          obtain ⟨rx3, tx3, err3, ev3, h3⟩ := processLine_frame _ _ _ hpl
          obtain ⟨rx4, tx4, buf4, pos4, err4, ev4, h4⟩ := ih _ _ h
          exact ⟨rx4, tx4, buf4, pos4, err4, ev4, by rw [h4, h3]; rfl⟩
      · obtain ⟨rx4, tx4, buf4, pos4, err4, ev4, h4⟩ := ih _ _ h
        exact ⟨rx4, tx4, buf4, pos4, err4, ev4, by rw [h4]; rfl⟩

end NATSClient

/-! ## Request timeout -/

namespace NATSClient

theorem awaitInfo_registry (rx : List Nat) : ∀ (c c2 : NATSClient),
    c.awaitInfo rx = .ok c2 → c2.registry = c.registry := by
  induction rx with
  | nil => intro c c2 h; cases h; rfl
  | cons b rest ih =>
    intro c c2 h
    unfold awaitInfo at h
    split at h
    · cases h
    · simp only at h
      split at h
      · split at h
        · cases h; rfl
        · have := ih _ _ h; exact this
      · have := ih _ _ h; exact this

theorem announceDevice_registry (c c2 : NATSClient) (h : c.announceDevice = .ok c2) :
    c2.registry = c.registry := by
  obtain ⟨w, la, ha⟩ := announceDevice_frame c
  rw [ha] at h
  cases h
  rfl

theorem acknowledged_registry (c : NATSClient) (r : Bool) (c2 : NATSClient)
    (h : c.acknowledged = .ok (r, c2)) : c2.registry = c.registry := by
  unfold acknowledged at h
  simp only at h
  split at h
  · split at h
    · cases h
    · rename_i c4 hann
      cases h
      have := announceDevice_registry _ _ hann
      rw [this]
      cases hh : c._connectHandler <;> rfl
  · cases h
    cases hh : c._connectHandler <;> rfl

theorem awaitOk_registry (rx : List Nat) : ∀ (c : NATSClient) (r : Bool) (c2 : NATSClient),
    c.awaitOk rx = .ok (r, c2) → c2.registry = c.registry := by
  induction rx with
  | nil => intro c r c2 h; cases h; rfl
  | cons b rest ih =>
    intro c r c2 h
    unfold awaitOk at h
    split at h
    · cases h
    · simp only at h
      split at h
      · split at h
        · have := acknowledged_registry _ _ _ h; exact this
        · split at h
          · cases h; rfl
          · have := ih _ _ _ h; exact this
      · have := ih _ _ _ h; exact this

theorem connect_registry (c : NATSClient) (server : List Nat) (port : Nat) (user pass : List Nat)
    (r : Bool) (c2 : NATSClient) (h : c.connect server port user pass = .ok (r, c2)) :
    c2.registry = c.registry := by
  unfold connect at h
  simp only at h
  split at h
  · cases h; rfl
  · split at h
    · cases h
    · rename_i c3 h3
      have e3 := awaitInfo_registry _ _ _ h3
      have e4 := awaitOk_registry _ _ _ _ h
      exact e4.trans e3

theorem reconnect_registry (c : NATSClient) (r : Bool) (c2 : NATSClient)
    (h : c._reconnect = .ok (r, c2)) : c2.registry = c.registry := by
  unfold _reconnect at h
  split at h
  · cases h; rfl
  · simp only at h
    split at h
    · cases h
    · rename_i r3 c3 h3
      cases h
      have := connect_registry _ _ _ _ _ _ _ h3
      exact this

theorem publish_registry (c : NATSClient) (subject data : List Nat) (r : Bool)
    (c2 : NATSClient) (h : c.publish subject data = .ok (r, c2)) :
    c2.registry = c.registry := by
  unfold publish at h
  split at h
  · cases h; rfl
  · split at h
    · cases h
    · cases h; rfl

/-- The relation between the states before and after a step that stores no new
subscription: the identifier counter is the same and slots were at most marked
inactive. -/
theorem loop_keeps (c c2 : NATSClient) (h : c.loop = .ok c2) :
    c2._nextSid = c._nextSid ∧ ∃ w, Retired c._subscriptions c2._subscriptions w := by
  unfold loop at h
  split at h
  · simp only at h
    have hdisc : c.noticeDisconnect.registry = c.registry := by
      unfold noticeDisconnect
      split
      · split <;> rfl
      · rfl
    have hreg : c2.registry = c.registry := by
      split at h
      · split at h
        · split at h
          · cases h
          · rename_i r3 c3 h3
            cases h
            have := reconnect_registry _ _ _ h3
            exact this.trans hdisc
        · cases h; exact hdisc
      · cases h; exact hdisc
    have h1 : c2._subscriptions = c._subscriptions := congrArg Prod.fst hreg
    have h2 : c2._nextSid = c._nextSid := congrArg Prod.snd hreg
    exact ⟨h2, [], by rw [h1]; exact retired_refl _ _⟩
  · split at h
    · cases h
    · rename_i c1 h1
      obtain ⟨rx, tx, buf, pos, err, ev, e1⟩ := drain_frame _ _ _ h1
      obtain ⟨w, subs2, lp, la, hk, hret, _⟩ := housekeeping_spec c1
      rw [hk] at h
      cases h
      subst e1
      exact ⟨rfl, w, hret⟩

end NATSClient

theorem retired_active_origin {a b : List Subscription} {w : List Nat} (h : Retired a b w)
    (k : Nat) (s : Subscription) (hs : b[k]? = some s) (hact : s.active = true) :
    a[k]? = some s := by
  have hk : k < a.length := by
    rw [← h.1]; exact (List.getElem?_eq_some_iff.mp hs).1
  rcases h.2 k a[k] (List.getElem?_eq_getElem hk) with hb | ⟨_, hb, _⟩
  · rw [hs] at hb
    rw [List.getElem?_eq_getElem hk, hb]
  · rw [hs] at hb
    cases hb
    simp at hact

theorem kept_refl (c : NATSClient) : Kept c c := ⟨rfl, [], retired_refl _ _⟩

theorem kept_of_registry {c c2 : NATSClient} (h : c2.registry = c.registry) : Kept c c2 := by
  have h1 : c2._subscriptions = c._subscriptions := congrArg Prod.fst h
  have h2 : c2._nextSid = c._nextSid := congrArg Prod.snd h
  exact ⟨h2, [], by rw [h1]; exact retired_refl _ _⟩

theorem sidInvariant_kept {c c2 : NATSClient} {n : Nat} (hinv : SidInvariant c n)
    (hk : Kept c c2) : SidInvariant c2 n := by
  intro hn
  obtain ⟨h1, h2, h3⟩ := hinv hn
  obtain ⟨hsid, w, hret⟩ := hk
  refine ⟨hsid.trans h1, ?_, ?_⟩
  · intro s hs hact
    obtain ⟨k, hk⟩ := List.getElem?_of_mem hs
    exact h2 s (List.getElem?_mem (retired_active_origin hret k s hk hact)) hact
  · intro i j s t hi hj hij hs ht
    exact h3 i j s t (retired_active_origin hret i s hi hs) (retired_active_origin hret j t hj ht) hij hs ht

theorem sidInvariant_stored {c c2 : NATSClient} {n : Nat} (hinv : SidInvariant c n)
    (hst : Stored c c2) : SidInvariant c2 (n + 1) := by
  intro hn
  obtain ⟨h1, h2, h3⟩ := hinv (by omega)
  obtain ⟨slot, entry, hfree, hact, hsid, hsubs, hnext⟩ := hst
  have hnew : entry.sid = (n : Int) + 1 := by
    rw [hsid, h1]; exact wrapInt_id ((n : Int) + 1) (by omega) (by omega)
  have hget : ∀ k s, c2._subscriptions[k]? = some s → s.active = true →
      (k = slot ∧ s = entry) ∨ (k ≠ slot ∧ c._subscriptions[k]? = some s) := by
    intro k s hk _
    rw [hsubs, List.getElem?_set] at hk
    split at hk
    · rename_i heq
      split at hk
      · left; exact ⟨heq.symm, by cases hk; rfl⟩
      · cases hk
    · rename_i hne
      right; exact ⟨fun h => hne h.symm, hk⟩
  refine ⟨?_, ?_, ?_⟩
  · have e1 : wrapInt ((n : Int) + 1) = (n : Int) + 1 :=
      wrapInt_id ((n : Int) + 1) (by omega) (by omega)
    rw [hnext, h1, e1]
    congr 1
  · intro s hs hact2
    obtain ⟨k, hk⟩ := List.getElem?_of_mem hs
    rcases hget k s hk hact2 with ⟨_, rfl⟩ | ⟨_, hold⟩
    · rw [hnew]; push_cast; omega
    · have := h2 s (List.getElem?_mem hold) hact2
      push_cast; omega
  · intro i j s t hi hj hij hs ht
    rcases hget i s hi hs with ⟨hi1, rfl⟩ | ⟨hi1, hiold⟩
    · rcases hget j t hj ht with ⟨hj1, rfl⟩ | ⟨_, hjold⟩
      · exact absurd (hi1.trans hj1.symm) hij
      · have := h2 t (List.getElem?_mem hjold) ht
        rw [hnew]; omega
    · rcases hget j t hj ht with ⟨hj1, rfl⟩ | ⟨_, hjold⟩
      · have := h2 s (List.getElem?_mem hiold) hs
        rw [hnew]; omega
      · exact h3 i j s t hiold hjold hij hs ht

namespace NATSClient

theorem subscribe_effect (c : NATSClient) (subject : List Nat) (handler : MessageHandler)
    (r : Bool) (c2 : NATSClient) (h : c.subscribe subject handler = .ok (r, c2)) :
    (r = false ∧ c2.registry = c.registry ∧ c2._pendingRequests = c._pendingRequests) ∨
    (r = true ∧ Stored c c2) := by
  unfold subscribe at h
  split at h
  · cases h; exact Or.inl ⟨rfl, rfl, rfl⟩
  · split at h
    · cases h; exact Or.inl ⟨rfl, rfl, rfl⟩
    · rename_i slot hslot
      split at h
      · cases h
      · cases h
        exact Or.inr ⟨rfl, slot, _, hslot, rfl, rfl, rfl, rfl⟩

theorem request_effect (c : NATSClient) (subject data : List Nat) (handler : MessageHandler)
    (timeout : Nat) (r : Bool) (c2 : NATSClient)
    (h : c.request subject data handler timeout = .ok (r, c2)) :
    (r = false ∧ c2.registry = c.registry) ∨ (r = true ∧ Stored c c2) := by
  unfold request at h
  split at h
  · cases h; exact Or.inl ⟨rfl, rfl⟩
  · split at h
    · cases h; exact Or.inl ⟨rfl, rfl⟩
    · rename_i slot hslot
      simp only [_generateInbox] at h
      split at h
      · cases h
      · rename_i c3 h3
        cases h
        rcases subscribe_effect _ _ _ _ _ h3 with ⟨_, hreg, _⟩ | ⟨hcontra, _⟩
        · exact Or.inl ⟨rfl, hreg⟩
        · cases hcontra
      · rename_i c3 h3
        split at h
        · cases h
        · cases h
          rcases subscribe_effect _ _ _ _ _ h3 with ⟨hcontra, _⟩ | ⟨_, hst⟩
          · cases hcontra
          · exact Or.inr ⟨rfl, hst⟩

end NATSClient

theorem step_effect (c : NATSClient) (op : Op) (r : Bool) (c2 : NATSClient)
    (h : step c op = .ok (r, c2)) :
    (storesSubscription op r = false ∧ Kept c c2) ∨
    (storesSubscription op r = true ∧ Stored c c2) := by
  cases op with
  | connect server port user pass =>
    exact Or.inl ⟨rfl, kept_of_registry (NATSClient.connect_registry _ _ _ _ _ _ _ h)⟩
  | connectAnonymous server port =>
    exact Or.inl ⟨rfl, kept_of_registry (NATSClient.connect_registry _ _ _ _ _ _ _ h)⟩
  | connectToken server port token =>
    have := NATSClient.connect_registry _ _ _ _ _ _ _ h
    exact Or.inl ⟨rfl, kept_of_registry this⟩
  | disconnect =>
    cases h
    refine Or.inl ⟨rfl, kept_of_registry ?_⟩
    unfold NATSClient.disconnect
    split
    · simp only; split <;> rfl
    · rfl
  | loop =>
    simp only [step, Except.map] at h
    split at h
    · cases h
    · rename_i c1 h1
      cases h
      exact Or.inl ⟨rfl, NATSClient.loop_keeps _ _ h1⟩
  | publish subject data =>
    exact Or.inl ⟨rfl, kept_of_registry (NATSClient.publish_registry _ _ _ _ _ h)⟩
  | subscribe subject handler =>
    rcases NATSClient.subscribe_effect _ _ _ _ _ h with ⟨rfl, hreg, _⟩ | ⟨rfl, hst⟩
    · exact Or.inl ⟨rfl, kept_of_registry hreg⟩
    · exact Or.inr ⟨rfl, hst⟩
  | unsubscribe subject =>
    have h2 : c2 = (c.unsubscribe subject).2 := by
      simp only [step, Except.ok.injEq] at h
      rw [h]
    obtain ⟨w, h1, hret⟩ := NATSClient.unsubscribe_frame c subject
    subst h2
    exact Or.inl ⟨rfl, by rw [h1]; rfl, w, hret⟩
  | request subject data handler timeout =>
    rcases NATSClient.request_effect _ _ _ _ _ _ _ h with ⟨rfl, hreg⟩ | ⟨rfl, hst⟩
    · exact Or.inl ⟨rfl, kept_of_registry hreg⟩
    · exact Or.inr ⟨rfl, hst⟩
  | announceDevice =>
    simp only [step, Except.map] at h
    obtain ⟨w, la, ha⟩ := NATSClient.announceDevice_frame c
    rw [ha] at h
    cases h
    exact Or.inl ⟨rfl, kept_of_registry rfl⟩
  | setDeviceInfo _ _ _ => cases h; exact Or.inl ⟨rfl, kept_refl _⟩
  | enableAutoDiscovery _ => cases h; exact Or.inl ⟨rfl, kept_refl _⟩
  | onConnect _ => cases h; exact Or.inl ⟨rfl, kept_refl _⟩
  | onDisconnect _ => cases h; exact Or.inl ⟨rfl, kept_refl _⟩
  | setClientID _ => cases h; exact Or.inl ⟨rfl, kept_refl _⟩
  | setReconnect _ => cases h; exact Or.inl ⟨rfl, kept_refl _⟩
  | setPingInterval _ => cases h; exact Or.inl ⟨rfl, kept_refl _⟩
  | setVerbose _ => cases h; exact Or.inl ⟨rfl, kept_refl _⟩
  | receive _ => cases h; exact Or.inl ⟨rfl, kept_refl _⟩
  | elapse _ => cases h; exact Or.inl ⟨rfl, kept_refl _⟩
  | linkDown => cases h; exact Or.inl ⟨rfl, kept_refl _⟩
  | reachable _ => cases h; exact Or.inl ⟨rfl, kept_refl _⟩
  | reseed _ => cases h; exact Or.inl ⟨rfl, kept_refl _⟩

theorem run_invariant (ops : List Op) : ∀ (c : NATSClient) (n : Nat) (c2 : NATSClient)
    (n2 : Nat), SidInvariant c n → run c n ops = .ok (c2, n2) → SidInvariant c2 n2 := by
  induction ops with
  | nil => intro c n c2 n2 hinv h; cases h; exact hinv
  | cons op ops ih =>
    intro c n c2 n2 hinv h
    unfold run at h
    split at h
    · cases h
    · rename_i r c1 h1
      rcases step_effect c op r c1 h1 with ⟨hs, hk⟩ | ⟨hs, hst⟩
      · simp only [hs, Bool.false_eq_true, if_false] at h
        exact ih c1 n c2 n2 (sidInvariant_kept hinv hk) h
      · simp only [hs, if_true] at h
        exact ih c1 (n + 1) c2 n2 (sidInvariant_stored hinv hst) h

theorem new_invariant (net : Transport) (now : Nat) (rnd : List Nat) :
    SidInvariant (NATSClient.new net now rnd) 0 := by
  intro _
  refine ⟨show (1 : Int) = wrapInt (((0 : Nat) : Int) + 1) by decide, ?_, ?_⟩
  · intro s hs hact
    simp only [NATSClient.new, List.mem_replicate] at hs
    rw [hs.2] at hact
    cases hact
  · intro i j s t hi _ _ hs _
    have hmem := List.getElem?_mem hi
    simp only [NATSClient.new, List.mem_replicate] at hmem
    rw [hmem.2] at hs
    cases hs

/-- C3: starting from a newly constructed client, after every finite sequence of
calls of public methods and of events of the environment during which fewer than
`2^31` subscriptions were stored, any two distinct active slots of the subscription
table hold different `sid` values. -/
theorem sid_uniqueness (net : Transport) (now : Nat) (rnd : List Nat) (ops : List Op)
    (c : NATSClient) (n : Nat) (hrun : run (NATSClient.new net now rnd) 0 ops = .ok (c, n))
    (hn : n < 2 ^ 31) : SidsDistinct c._subscriptions :=
  (run_invariant ops _ 0 c n (new_invariant net now rnd) hrun hn).2.2

theorem sid_uniqueness_witness :
    ∃ c n, run (NATSClient.new greeting 0 []) 0 sampleRun = .ok (c, n) ∧ n < 2 ^ 31 ∧
      (c._subscriptions.filter (fun s => s.active)).length = 2 ∧
      SidsDistinct c._subscriptions :=
  ⟨(finalState ((run (NATSClient.new greeting 0 []) 0 sampleRun).map Prod.fst)), 4,
    by decide!, by decide, by decide!,
    sid_uniqueness greeting 0 [] sampleRun _ 4 (by decide!) (by decide)⟩

/-! ## The `PUB` command of a call that fits into the command buffer -/

theorem fmtInt_size (n : Nat) (h : n < 2 ^ 31) : fmtInt (sizeAsInt n) = decimal n := by
  have h1 : (n : Int) % (WORD : Int) = n := by unfold WORD; push_cast; omega
  have h2 : wrapInt (n : Int) = n := wrapInt_id _ (by omega) (by omega)
  unfold sizeAsInt
  rw [h1, h2]
  unfold fmtInt
  simp

/-- On a connected client, when the command line fits into `char cmd[512]` (as it
does for every subject shorter than 256 bytes) and the payload has fewer than `2^31`
bytes, `publish` returns true and appends exactly the bytes
`PUB subject |data|\r\n` ++ `data` ++ `\r\n` to the transport. -/
theorem publish_fits (c : NATSClient) (subject data : List Nat) (hc : c._connected = true)
    (hfit : (NATSClient.pubHeader subject data.length).length < 512)
    (hn : data.length < 2 ^ 31) :
    c.publish subject data
      = .ok (true, c.send (bytes "PUB " ++ subject ++ bytes " " ++ decimal data.length
          ++ NATS_CR_LF ++ data ++ NATS_CR_LF)) := by
  have : ¬ 512 ≤ (NATSClient.pubHeader subject data.length).length := by omega
  simp only [NATSClient.publish, hc, Bool.not_true, Bool.false_eq_true, if_false, this]
  simp [NATSClient.pubHeader, NATSClient.send, Transport.write, fmtInt_size _ hn,
    List.append_assoc]

theorem pubHeader_short (subject : List Nat) (n : Nat) (h : subject.length < 256) :
    (NATSClient.pubHeader subject n).length < 512 := by
  have h1 := wrapInt_range (↑(n % WORD))
  have := fmtInt_length (sizeAsInt n) h1.1 h1.2
  have e1 : (bytes "PUB ").length = 4 := by decide
  have e3 : (bytes " ").length = 1 := by decide
  simp only [NATSClient.pubHeader, List.length_append, NATS_CR_LF, List.length_cons,
    List.length_nil]
  omega

/-! ## Subscribing -/

theorem freeSubscription_none (subs : List Subscription)
    (h : ∀ s ∈ subs, s.active = true) : NATSClient.freeSubscription subs = none := by
  unfold NATSClient.freeSubscription
  rw [List.findIdx?_eq_none_iff]
  intro s hs
  simp [h s hs]

/-- C12: on a connected client in which every slot of the subscription table is
active, `subscribe` returns false and the state after the call is the state before
it with the last error set to "Max subscriptions reached": nothing is written, and
no slot and not the identifier counter changes. -/
theorem subscribe_table_full (c : NATSClient) (subject : List Nat) (handler : MessageHandler)
    (hc : c._connected = true) (hall : ∀ s ∈ c._subscriptions, s.active = true) :
    c.subscribe subject handler
      = .ok (false, { c with _lastError := bytes "Max subscriptions reached" }) := by
  simp [NATSClient.subscribe, hc, freeSubscription_none _ hall]

theorem subscribe_table_full_witness :
    tableFull._connected = true ∧ tableFull._subscriptions.length = 10 ∧
    (∀ s ∈ tableFull._subscriptions, s.active = true) ∧
    tableFull.subscribe (bytes "test.topic") (some 1)
      = .ok (false, { tableFull with _lastError := bytes "Max subscriptions reached" }) :=
  ⟨by decide!, by decide!, by decide!,
   subscribe_table_full tableFull (bytes "test.topic") (some 1) (by decide!) (by decide!)⟩

/-- C14 (counterexample): a newly constructed client is not connected and all its
slots are inactive, yet `subscribe` returns false with the last error
"Not connected"; no slot becomes active and the identifier counter stays 1. -/
theorem subscribe_offline_fails :
    (NATSClient.new greeting 0 [])._connected = false ∧
    ((NATSClient.new greeting 0 []).subscribe (bytes "test.topic") (some 1)).map
        (fun r => (r.1, r.2._lastError, r.2._subscriptions.any (fun s => s.active),
                   r.2._nextSid, r.2._client.tx))
      = .ok (false, bytes "Not connected", false, 1, []) := by
  decide!

/-- C14 (amended): on a client whose connected flag is false, `subscribe` returns
false and the state after the call is the state before it with the last error set to
"Not connected": no identifier is allocated, no entry is stored and nothing is
written. -/
theorem subscribe_while_disconnected (c : NATSClient) (subject : List Nat)
    (handler : MessageHandler) (hc : c._connected = false) :
    c.subscribe subject handler = .ok (false, { c with _lastError := bytes "Not connected" }) := by
  simp [NATSClient.subscribe, hc]

theorem subscribe_while_disconnected_witness :
    (NATSClient.new greeting 0 [])._connected = false ∧
    (NATSClient.new greeting 0 []).subscribe (bytes "test.topic") (some 1)
      = .ok (false, { NATSClient.new greeting 0 [] with _lastError := bytes "Not connected" }) :=
  ⟨rfl, subscribe_while_disconnected _ _ _ rfl⟩

/-- C13 (counterexample): on a connected client with free slots whose identifier
counter is `INT_MAX`, `subscribe` succeeds and the counter is `INT_MIN` afterwards,
not one more than before. -/
theorem subscribe_counter_wraps :
    counterAtMax._connected = true ∧
    (counterAtMax.subscribe (bytes "a") none).map (fun r => (r.1, r.2._nextSid))
      = .ok (true, -2147483648) := by
  decide!

/-- C17 (failing input): after a connect with the token `test-token-123`, a connect
with the user `testuser` and the password `testpass` returns true having written a
second `CONNECT` line that carries the token again and neither user nor password. -/
theorem user_connect_sends_stale_token :
    userAfterToken.map (fun r => (r.1, r.2._client.tx))
      = .ok (true, connectLineToken ++ connectLineToken) ∧
    ¬ (bytes "\"user\":\"testuser\"" <:+: connectLineToken) := by
  decide!

/-- C20 (failing input): in the scenario of `test_device_info` the successful
`connect` writes the plain `CONNECT` line and nothing else; none of `device_id`,
`device_type` and `device_name` occurs in it. -/
theorem device_info_not_in_handshake :
    deviceInfoConnect.map (fun r => (r.1, r.2._client.tx)) = .ok (true, connectLinePlain) ∧
    ¬ (bytes "device_id" <:+: connectLinePlain) ∧
    ¬ (bytes "device_type" <:+: connectLinePlain) ∧
    ¬ (bytes "device_name" <:+: connectLinePlain) := by
  decide!

/-- C19 (failing input): on a connected client with free slots, `request` on a
subject of 512 bytes formats a `PUB` line that does not fit into `char cmd[512]`:
the call writes past the end of the buffer instead of returning true. -/
theorem request_long_subject_overflows :
    online.connected = true ∧ requestLongSubject = .error .overflow := by
  decide!

/-- C11 (counterexample): a payload with a zero byte is delivered only up to that
byte (01 instead of 01 00 02), and of a payload of 1024 bytes only the first 1023
are delivered. -/
theorem roundtrip_loses_bytes :
    roundTripZeroByte.map (fun c => c.events)
      = .ok [.message 1 (bytes "test.topic") [1] []] ∧
    roundTripLarge.map (fun c => c.events)
      = .ok [.message 1 (bytes "test.topic") (List.replicate 1023 120) []] := by
  decide!

theorem freeSubscription_lowest (subs : List Subscription) (k : Nat) (s0 : Subscription)
    (hk : subs[k]? = some s0) (hs0 : s0.active = false)
    (hlow : ∀ j t, j < k → subs[j]? = some t → t.active = true) :
    NATSClient.freeSubscription subs = some k := by
  unfold NATSClient.freeSubscription
  obtain ⟨hk1, hk2⟩ := List.getElem?_eq_some_iff.mp hk
  refine List.findIdx?_eq_some_iff_getElem.mpr ⟨hk1, by simp [hk2, hs0], ?_⟩
  intro j hj
  have := hlow j subs[j] hj (List.getElem?_eq_getElem (Nat.lt_trans hj hk1))
  simp [this]

theorem subCommand_short (subject : List Nat) (sid : Int) (h : subject.length < 256)
    (h1 : -2 ^ 31 ≤ sid) (h2 : sid < 2 ^ 31) :
    (NATSClient.subCommand subject sid).length < NATS_MAX_SUBJECT_LENGTH + 20 := by
  have := fmtInt_length sid h1 h2
  have e1 : (bytes "SUB ").length = 4 := by decide
  have e3 : (bytes " ").length = 1 := by decide
  simp only [NATSClient.subCommand, List.length_append, NATS_CR_LF, List.length_cons,
    List.length_nil, NATS_MAX_SUBJECT_LENGTH]
  omega

/-- C13 (amended): on a connected client whose lowest-indexed inactive slot is `k`,
whose identifier counter is below `INT_MAX`, for a subject shorter than 256 bytes:
`subscribe` returns true, stores (subject, handler, old counter, active) in slot `k`,
leaves every other slot unchanged, increments the counter by exactly one and writes
exactly `SUB subject sid\r\n` with the old counter as `sid`; nothing else changes.
The counter of a newly constructed client is 1. -/
theorem subscribe_stores (c : NATSClient) (subject : List Nat) (handler : MessageHandler)
    (k : Nat) (s0 : Subscription)
    (hc : c._connected = true) (hk : c._subscriptions[k]? = some s0)
    (hs0 : s0.active = false)
    (hlow : ∀ j t, j < k → c._subscriptions[j]? = some t → t.active = true)
    (hlen : subject.length < 256)
    (hsid : -2 ^ 31 ≤ c._nextSid ∧ c._nextSid < 2 ^ 31 - 1) :
    c.subscribe subject handler
      = .ok (true,
          ({ c with _subscriptions :=
                      c._subscriptions.set k (Subscription.fresh subject handler c._nextSid),
                    _nextSid := c._nextSid + 1 }).send
            (bytes "SUB " ++ subject ++ bytes " " ++ fmtInt c._nextSid ++ NATS_CR_LF)) ∧
    ∀ net now rnd, (NATSClient.new net now rnd)._nextSid = 1 := by
  refine ⟨?_, fun _ _ _ => rfl⟩
  have hfree := freeSubscription_lowest c._subscriptions k s0 hk hs0 hlow
  have hfit := subCommand_short subject c._nextSid hlen hsid.1 (by omega)
  have hfit2 : ¬ NATS_MAX_SUBJECT_LENGTH + 20 ≤ (NATSClient.subCommand subject c._nextSid).length := by
    omega
  have hcopy : strncpy subject (NATS_MAX_SUBJECT_LENGTH - 1) = subject := by
    unfold strncpy NATS_MAX_SUBJECT_LENGTH
    exact List.take_of_length_le (by omega)
  have hwrap : wrapInt (c._nextSid + 1) = c._nextSid + 1 :=
    wrapInt_id _ (by omega) (by omega)
  simp only [NATSClient.subscribe, hc, Bool.not_true, Bool.false_eq_true, if_false, hfree,
    hfit2, hcopy, hwrap]
  rfl

theorem subscribe_stores_witness :
    online._connected = true ∧
    online.subscribe (bytes "test.topic") (some 1)
      = .ok (true,
          ({ online with
              _subscriptions :=
                online._subscriptions.set 0 (Subscription.fresh (bytes "test.topic") (some 1) 1)
              _nextSid := online._nextSid + 1 }).send
            (bytes "SUB " ++ bytes "test.topic" ++ bytes " " ++ fmtInt online._nextSid
              ++ NATS_CR_LF)) ∧
    bytes "SUB " ++ bytes "test.topic" ++ bytes " " ++ fmtInt online._nextSid ++ NATS_CR_LF
      = bytes "SUB test.topic 1\r\n" :=
  ⟨by decide!,
   (subscribe_stores online (bytes "test.topic") (some 1) 0
      { subject := [], handler := none, sid := 0, active := false }
      (by decide!) (by decide!) rfl (fun j t hj => absurd hj (Nat.not_lt_zero j)) (by decide)
      (by decide!)).1,
   by decide!⟩

/-! ## Unsubscribing, the `CONNECT` body, and requests that fail -/

theorem modify_eq_set_of_getElem? (f : Subscription → Subscription)
    (subs : List Subscription) (k : Nat) (s : Subscription) (h : subs[k]? = some s) :
    subs.modify f k = subs.set k (f s) := by
  apply List.ext_getElem?
  intro i
  rw [List.getElem?_modify, List.getElem?_set]
  by_cases hki : k = i
  · subst hki
    have hlt := (List.getElem?_eq_some_iff.mp h).1
    simp [h, hlt]
  · simp [hki]

/-- C15: on a connected client, when no active slot stores the subject,
`unsubscribe` returns false and changes nothing; and when `k` is the lowest index of
an active slot that stores the subject, it returns true, writes exactly
`UNSUB sid\r\n` with the `sid` of slot `k`, marks slot `k` inactive and changes
nothing else (no other slot, not the identifier counter). -/
theorem unsubscribe_spec :
    (∀ (c : NATSClient) (subject : List Nat), c._connected = true →
      (∀ s ∈ c._subscriptions, ¬ (s.active = true ∧ s.subject = subject)) →
      c.unsubscribe subject = (false, c)) ∧
    (∀ (c : NATSClient) (subject : List Nat) (k : Nat) (s : Subscription),
      c._connected = true → c._subscriptions[k]? = some s → s.active = true →
      s.subject = subject →
      (∀ j t, j < k → c._subscriptions[j]? = some t →
        ¬ (t.active = true ∧ t.subject = subject)) →
      c.unsubscribe subject
        = (true, { c.send (bytes "UNSUB " ++ fmtInt s.sid ++ NATS_CR_LF) with
                   _subscriptions := c._subscriptions.set k { s with active := false } })) := by
  constructor
  · intro c subject hc hnone
    have : c._findSubscription subject = none := by
      unfold NATSClient._findSubscription
      rw [List.findIdx?_eq_none_iff]
      intro s hs
      have := hnone s hs
      simp only [not_and] at this
      cases ha : s.active
      · simp
      · simp [this ha]
    simp [NATSClient.unsubscribe, hc, this]
  · intro c subject k s hc hk hact hsubj hlow
    obtain ⟨hk1, hk2⟩ := List.getElem?_eq_some_iff.mp hk
    have hfind : c._findSubscription subject = some k := by
      unfold NATSClient._findSubscription
      refine List.findIdx?_eq_some_iff_getElem.mpr ⟨hk1, by simp [hk2, hact, hsubj], ?_⟩
      intro j hj
      have := hlow j c._subscriptions[j] hj (List.getElem?_eq_getElem (Nat.lt_trans hj hk1))
      simp only [not_and] at this
      cases ha : (c._subscriptions[j]).active
      · simp
      · simp [this ha]
    simp only [NATSClient.unsubscribe, hc, Bool.not_true, Bool.false_eq_true, if_false, hfind,
      NATSClient.deactivate, modify_eq_set_of_getElem? _ _ k s hk, hk, Option.elim,
      NATSClient.unsubCommand]

theorem unsubscribe_spec_witness :
    (online._connected = true ∧
      (∀ s ∈ online._subscriptions, ¬ (s.active = true ∧ s.subject = bytes "a")) ∧
      online.unsubscribe (bytes "a") = (false, online)) ∧
    (subscribedOnce._connected = true ∧
      subscribedOnce._subscriptions[0]? = some (Subscription.fresh (bytes "a") (some 1) 1) ∧
      subscribedOnce.unsubscribe (bytes "a")
        = (true, { subscribedOnce.send (bytes "UNSUB " ++ fmtInt 1 ++ NATS_CR_LF) with
                   _subscriptions := subscribedOnce._subscriptions.set 0
                     { Subscription.fresh (bytes "a") (some 1) 1 with active := false } })) :=
  ⟨⟨by decide!, by decide!, unsubscribe_spec.1 online (bytes "a") (by decide!) (by decide!)⟩,
   ⟨by decide!, by decide!,
    unsubscribe_spec.2 subscribedOnce (bytes "a") 0 (Subscription.fresh (bytes "a") (some 1) 1)
      (by decide!) (by decide!) rfl rfl (fun j t hj => absurd hj (Nat.not_lt_zero j))⟩⟩

theorem send_send (c : NATSClient) (a b : List Nat) : (c.send a).send b = c.send (a ++ b) := by
  simp [NATSClient.send, Transport.write, List.append_assoc]

/-! ## The fields of the `CONNECT` body -/

theorem quoteSegments_ne_nil (s : List Nat) : quoteSegments s ≠ [] := by
  cases s with
  | nil => simp [quoteSegments]
  | cons b rest =>
    unfold quoteSegments
    split
    · simp
    · split <;> simp

theorem quoteSegments_free (s : List Nat) (h : 34 ∉ s) : quoteSegments s = [s] := by
  induction s with
  | nil => rfl
  | cons b rest ih =>
    have hb : b ≠ 34 := fun e => h (by simp [e])
    have hr : 34 ∉ rest := fun e => h (List.mem_cons_of_mem _ e)
    simp [quoteSegments, hb, ih hr]

theorem quoteSegments_append_quote (a b : List Nat) :
    quoteSegments (a ++ 34 :: b) = quoteSegments a ++ quoteSegments b := by
  induction a with
  | nil => simp [quoteSegments]
  | cons x a ih =>
    by_cases hx : x = 34
    · simp [quoteSegments, hx, ih]
    · cases hs : quoteSegments a with
      | nil => exact absurd hs (quoteSegments_ne_nil a)
      | cons s ss => simp [quoteSegments, hx, ih, hs]

theorem quoteSegments_append (a b : List Nat) :
    quoteSegments (a ++ b) = glue (quoteSegments a) (quoteSegments b) := by
  induction a with
  | nil =>
    cases hs : quoteSegments b with
    | nil => exact absurd hs (quoteSegments_ne_nil b)
    | cons y ys => simp [quoteSegments, glue, hs]
  | cons x a ih =>
    cases hs : quoteSegments a with
    | nil => exact absurd hs (quoteSegments_ne_nil a)
    | cons s ss =>
      cases ht : quoteSegments b with
      | nil => exact absurd ht (quoteSegments_ne_nil b)
      | cons y ys =>
        rw [hs, ht] at ih
        by_cases hx : x = 34
        · simp [quoteSegments, hx, ih, hs, glue]
        · cases ss with
          | nil => simp [quoteSegments, hx, ih, hs, glue]
          | cons s2 ss2 => simp [quoteSegments, hx, ih, hs, glue]

theorem adjacent_mem (X Y : List (List Nat)) (k sep : List Nat) :
    (k, sep) ∈ (X ++ k :: sep :: Y).zip (X ++ k :: sep :: Y).tail := by
  induction X with
  | nil => simp
  | cons x X ih =>
    cases X with
    | nil => simp
    | cons x2 X2 =>
      simp only [List.cons_append, List.tail_cons, List.zip_cons_cons, List.mem_cons] at ih ⊢
      exact Or.inr ih

/-- A text whose pieces between double quotes never have the key `k` followed by a
colon does not contain the field start `"k":"`. -/
theorem field_absent (k : List Nat) (hk : 34 ∉ k) (S : List Nat)
    (h : (k, [58]) ∉ (quoteSegments S).zip (quoteSegments S).tail) (A R : List Nat) :
    A ++ 34 :: (k ++ 34 :: (58 :: 34 :: R)) ≠ S := by
  intro e
  apply h
  have e58 : (58 :: 34 :: R) = [58] ++ 34 :: R := rfl
  rw [← e, quoteSegments_append_quote, quoteSegments_append_quote, e58,
    quoteSegments_append_quote, quoteSegments_free k hk, quoteSegments_free [58] (by decide)]
  exact adjacent_mem _ _ _ _

theorem segments_token (id tok : List Nat) (hid : 34 ∉ id) (htok : 34 ∉ tok) :
    quoteSegments (bytes "\x7b\"verbose\":false,\"pedantic\":false,\"tls_required\":false,\"name\":\"" ++ id ++ bytes "\",\"auth_token\":\"" ++ tok
      ++ bytes "\",\"proto\":1,\"echo\":true\x7d")
      = [[123], [118, 101, 114, 98, 111, 115, 101], [58, 102, 97, 108, 115, 101, 44], [112, 101, 100, 97, 110, 116, 105, 99], [58, 102, 97, 108, 115, 101, 44], [116, 108, 115, 95, 114, 101, 113, 117, 105, 114, 101, 100], [58, 102, 97, 108, 115, 101, 44], [110, 97, 109, 101], [58], id, [44], [97, 117, 116, 104, 95, 116, 111, 107, 101, 110], [58], tok, [44], [112, 114, 111, 116, 111], [58, 49, 44], [101, 99, 104, 111], [58, 116, 114, 117, 101, 125]] := by
  have h1 : quoteSegments (bytes "\x7b\"verbose\":false,\"pedantic\":false,\"tls_required\":false,\"name\":\"") = [[123], [118, 101, 114, 98, 111, 115, 101], [58, 102, 97, 108, 115, 101, 44], [112, 101, 100, 97, 110, 116, 105, 99], [58, 102, 97, 108, 115, 101, 44], [116, 108, 115, 95, 114, 101, 113, 117, 105, 114, 101, 100], [58, 102, 97, 108, 115, 101, 44], [110, 97, 109, 101], [58], []] := by decide
  have h2 : quoteSegments (bytes "\",\"auth_token\":\"") = [[], [44], [97, 117, 116, 104, 95, 116, 111, 107, 101, 110], [58], []] := by decide
  have h3 : quoteSegments (bytes "\",\"proto\":1,\"echo\":true\x7d") = [[], [44], [112, 114, 111, 116, 111], [58, 49, 44], [101, 99, 104, 111], [58, 116, 114, 117, 101, 125]] := by decide
  simp only [quoteSegments_append, h1, h2, h3, quoteSegments_free id hid,
    quoteSegments_free tok htok]
  simp [glue]

theorem segments_user (id u p : List Nat) (hid : 34 ∉ id) (hu : 34 ∉ u) (hp : 34 ∉ p) :
    quoteSegments (bytes "\x7b\"verbose\":false,\"pedantic\":false,\"tls_required\":false,\"name\":\"" ++ id ++ bytes "\",\"user\":\"" ++ u
      ++ bytes "\",\"pass\":\"" ++ p ++ bytes "\",\"proto\":1,\"echo\":true\x7d")
      = [[123], [118, 101, 114, 98, 111, 115, 101], [58, 102, 97, 108, 115, 101, 44], [112, 101, 100, 97, 110, 116, 105, 99], [58, 102, 97, 108, 115, 101, 44], [116, 108, 115, 95, 114, 101, 113, 117, 105, 114, 101, 100], [58, 102, 97, 108, 115, 101, 44], [110, 97, 109, 101], [58], id, [44], [117, 115, 101, 114], [58], u, [44], [112, 97, 115, 115], [58], p, [44], [112, 114, 111, 116, 111], [58, 49, 44], [101, 99, 104, 111], [58, 116, 114, 117, 101, 125]] := by
  have h1 : quoteSegments (bytes "\x7b\"verbose\":false,\"pedantic\":false,\"tls_required\":false,\"name\":\"") = [[123], [118, 101, 114, 98, 111, 115, 101], [58, 102, 97, 108, 115, 101, 44], [112, 101, 100, 97, 110, 116, 105, 99], [58, 102, 97, 108, 115, 101, 44], [116, 108, 115, 95, 114, 101, 113, 117, 105, 114, 101, 100], [58, 102, 97, 108, 115, 101, 44], [110, 97, 109, 101], [58], []] := by decide
  have h2 : quoteSegments (bytes "\",\"user\":\"") = [[], [44], [117, 115, 101, 114], [58], []] := by decide
  have h3 : quoteSegments (bytes "\",\"pass\":\"") = [[], [44], [112, 97, 115, 115], [58], []] := by decide
  have h4 : quoteSegments (bytes "\",\"proto\":1,\"echo\":true\x7d") = [[], [44], [112, 114, 111, 116, 111], [58, 49, 44], [101, 99, 104, 111], [58, 116, 114, 117, 101, 125]] := by decide
  simp only [quoteSegments_append, h1, h2, h3, h4, quoteSegments_free id hid,
    quoteSegments_free u hu, quoteSegments_free p hp]
  simp [glue]

theorem segments_plain (id : List Nat) (hid : 34 ∉ id) :
    quoteSegments (bytes "\x7b\"verbose\":false,\"pedantic\":false,\"tls_required\":false,\"name\":\"" ++ id ++ bytes "\",\"proto\":1,\"echo\":true\x7d")
      = [[123], [118, 101, 114, 98, 111, 115, 101], [58, 102, 97, 108, 115, 101, 44], [112, 101, 100, 97, 110, 116, 105, 99], [58, 102, 97, 108, 115, 101, 44], [116, 108, 115, 95, 114, 101, 113, 117, 105, 114, 101, 100], [58, 102, 97, 108, 115, 101, 44], [110, 97, 109, 101], [58], id, [44], [112, 114, 111, 116, 111], [58, 49, 44], [101, 99, 104, 111], [58, 116, 114, 117, 101, 125]] := by
  have h1 : quoteSegments (bytes "\x7b\"verbose\":false,\"pedantic\":false,\"tls_required\":false,\"name\":\"") = [[123], [118, 101, 114, 98, 111, 115, 101], [58, 102, 97, 108, 115, 101, 44], [112, 101, 100, 97, 110, 116, 105, 99], [58, 102, 97, 108, 115, 101, 44], [116, 108, 115, 95, 114, 101, 113, 117, 105, 114, 101, 100], [58, 102, 97, 108, 115, 101, 44], [110, 97, 109, 101], [58], []] := by decide
  have h3 : quoteSegments (bytes "\",\"proto\":1,\"echo\":true\x7d") = [[], [44], [112, 114, 111, 116, 111], [58, 49, 44], [101, 99, 104, 111], [58, 116, 114, 117, 101, 125]] := by decide
  simp only [quoteSegments_append, h1, h3, quoteSegments_free id hid]
  simp [glue]

theorem auth_start (tok B : List Nat) (A : List Nat) :
    A ++ (bytes "\"auth_token\":\"" ++ tok ++ bytes "\"") ++ B
      = A ++ 34 :: (bytes "auth_token" ++ 34 :: (58 :: 34 :: (tok ++ (bytes "\"" ++ B)))) := by
  have hl : bytes "\"auth_token\":\"" = 34 :: (bytes "auth_token" ++ 34 :: [58, 34]) := by decide
  rw [hl]
  simp only [List.append_assoc, List.cons_append, List.nil_append]

theorem user_start (u p B : List Nat) (A : List Nat) :
    A ++ (bytes "\"user\":\"" ++ u ++ bytes "\",\"pass\":\"" ++ p ++ bytes "\"") ++ B
      = A ++ 34 :: (bytes "user" ++ 34 :: (58 :: 34 :: (u ++ (bytes "\",\"pass\":\"" ++ (p ++ (bytes "\"" ++ B)))))) := by
  have hl : bytes "\"user\":\"" = 34 :: (bytes "user" ++ 34 :: [58, 34]) := by decide
  rw [hl]
  simp only [List.append_assoc, List.cons_append, List.nil_append]

theorem no_auth_in_user (id u p : List Nat) (hid : 34 ∉ id) (hu : 34 ∉ u) (hp : 34 ∉ p)
    (A R : List Nat) :
    A ++ 34 :: (bytes "auth_token" ++ 34 :: (58 :: 34 :: R)) ≠ bytes "\x7b\"verbose\":false,\"pedantic\":false,\"tls_required\":false,\"name\":\"" ++ id ++ bytes "\",\"user\":\"" ++ u
      ++ bytes "\",\"pass\":\"" ++ p ++ bytes "\",\"proto\":1,\"echo\":true\x7d" := by
  refine field_absent _ (by decide) _ ?_ A R
  rw [segments_user id u p hid hu hp, show bytes "auth_token" = [97, 117, 116, 104, 95, 116, 111, 107, 101, 110] from by decide]
  simp

theorem no_auth_in_plain (id : List Nat) (hid : 34 ∉ id) (A R : List Nat) :
    A ++ 34 :: (bytes "auth_token" ++ 34 :: (58 :: 34 :: R)) ≠ bytes "\x7b\"verbose\":false,\"pedantic\":false,\"tls_required\":false,\"name\":\"" ++ id ++ bytes "\",\"proto\":1,\"echo\":true\x7d" := by
  refine field_absent _ (by decide) _ ?_ A R
  rw [segments_plain id hid, show bytes "auth_token" = [97, 117, 116, 104, 95, 116, 111, 107, 101, 110] from by decide]
  simp

theorem no_user_in_token (id tok : List Nat) (hid : 34 ∉ id) (htok : 34 ∉ tok)
    (A R : List Nat) :
    A ++ 34 :: (bytes "user" ++ 34 :: (58 :: 34 :: R)) ≠ bytes "\x7b\"verbose\":false,\"pedantic\":false,\"tls_required\":false,\"name\":\"" ++ id ++ bytes "\",\"auth_token\":\"" ++ tok
      ++ bytes "\",\"proto\":1,\"echo\":true\x7d" := by
  refine field_absent _ (by decide) _ ?_ A R
  rw [segments_token id tok hid htok, show bytes "user" = [117, 115, 101, 114] from by decide]
  simp

theorem no_user_in_plain (id : List Nat) (hid : 34 ∉ id) (A R : List Nat) :
    A ++ 34 :: (bytes "user" ++ 34 :: (58 :: 34 :: R)) ≠ bytes "\x7b\"verbose\":false,\"pedantic\":false,\"tls_required\":false,\"name\":\"" ++ id ++ bytes "\",\"proto\":1,\"echo\":true\x7d" := by
  refine field_absent _ (by decide) _ ?_ A R
  rw [segments_plain id hid, show bytes "user" = [117, 115, 101, 114] from by decide]
  simp

/-- C16 (counterexample): after `setClientID` with a client id that contains double
quotes and `connect` with the user `u` and the password `p`, no token is stored, and
the `CONNECT` line that is written carries `"auth_token":""` as well as
`"user":"u","pass":"p"`. -/
theorem connect_body_injected :
    connectInjected = .ok ([], bytes "CONNECT \x7b\"verbose\":false,\"pedantic\":false,\"tls_required\":false,\"name\":\"x\",\"auth_token\":\"\",\"user\":\"u\",\"pass\":\"p\",\"proto\":1,\"echo\":true\x7d\r\n") ∧
    bytes "\"auth_token\":\"\"" <:+: bytes "CONNECT \x7b\"verbose\":false,\"pedantic\":false,\"tls_required\":false,\"name\":\"x\",\"auth_token\":\"\",\"user\":\"u\",\"pass\":\"p\",\"proto\":1,\"echo\":true\x7d\r\n" ∧
    bytes "\"user\":\"u\",\"pass\":\"p\"" <:+: bytes "CONNECT \x7b\"verbose\":false,\"pedantic\":false,\"tls_required\":false,\"name\":\"x\",\"auth_token\":\"\",\"user\":\"u\",\"pass\":\"p\",\"proto\":1,\"echo\":true\x7d\r\n" := by
  decide!

/-- C16 (amended): when the stored client id, token, user and password contain no
double quote, `_sendConnect` returns true having written exactly `CONNECT ` ++ json ++
`\r\n`, where json contains `"verbose":false`, `"pedantic":false` and
`"name":"<client id>"`, contains `"auth_token":"<token>"` if and only if the token
is not empty, contains `"user":"<user>","pass":"<pass>"` if and only if the token is
empty and the user is not, and never contains both. -/
theorem connect_body (c : NATSClient) (hid : 34 ∉ c._clientId) (htok : 34 ∉ c._token)
    (hu : 34 ∉ c._user) (hp : 34 ∉ c._pass) :
    c._sendConnect = (true, c.send (bytes "CONNECT " ++ c.connectJson ++ NATS_CR_LF)) ∧
    bytes "\"verbose\":false" <:+: c.connectJson ∧
    bytes "\"pedantic\":false" <:+: c.connectJson ∧
    bytes "\"name\":\"" ++ c._clientId ++ bytes "\"" <:+: c.connectJson ∧
    (bytes "\"auth_token\":\"" ++ c._token ++ bytes "\"" <:+: c.connectJson ↔ c._token ≠ []) ∧
    (bytes "\"user\":\"" ++ c._user ++ bytes "\",\"pass\":\"" ++ c._pass ++ bytes "\"" <:+: c.connectJson
      ↔ c._token = [] ∧ c._user ≠ []) ∧
    ¬ (bytes "\"auth_token\":\"" ++ c._token ++ bytes "\"" <:+: c.connectJson ∧
       bytes "\"user\":\"" ++ c._user ++ bytes "\",\"pass\":\"" ++ c._pass ++ bytes "\"" <:+: c.connectJson) := by
  have e1 : bytes "\",\"user\":\"" = bytes "\"" ++ bytes ",\"user\":\"" := by decide
  have e2 : bytes "\",\"proto\":1,\"echo\":true\x7d" = bytes "\"" ++ bytes ",\"proto\":1,\"echo\":true\x7d" := by decide
  have e3 : bytes "\",\"auth_token\":\"" = bytes "\"" ++ bytes ",\"auth_token\":\"" := by decide
  have f1 : bytes "\x7b\"verbose\":false,\"pedantic\":false,\"tls_required\":false,\"name\":\""
      = bytes "\x7b" ++ (bytes "\"verbose\":false"
          ++ bytes ",\"pedantic\":false,\"tls_required\":false,\"name\":\"") := by decide
  have f2 : bytes "\x7b\"verbose\":false,\"pedantic\":false,\"tls_required\":false,\"name\":\""
      = bytes "\x7b\"verbose\":false," ++ (bytes "\"pedantic\":false"
          ++ bytes ",\"tls_required\":false,\"name\":\"") := by decide
  have f3 : bytes "\x7b\"verbose\":false,\"pedantic\":false,\"tls_required\":false,\"name\":\""
      = bytes "\x7b\"verbose\":false,\"pedantic\":false,\"tls_required\":false,"
          ++ bytes "\"name\":\"" := by decide
  have g1 : bytes "\",\"auth_token\":\"" = bytes "\"," ++ bytes "\"auth_token\":\"" := by decide
  have g2 : bytes "\",\"user\":\"" = bytes "\"," ++ bytes "\"user\":\"" := by decide
  have hshape : ∃ t, c.connectJson = bytes "\x7b\"verbose\":false,\"pedantic\":false,\"tls_required\":false,\"name\":\"" ++ c._clientId ++ (bytes "\"" ++ t) := by
    unfold NATSClient.connectJson
    split
    · exact ⟨_, by rw [e3]; simp only [List.append_assoc]; rfl⟩
    · split
      · exact ⟨_, by rw [e1]; simp only [List.append_assoc]; rfl⟩
      · exact ⟨_, by rw [e2]⟩
  obtain ⟨t, ht⟩ := hshape
  have hauth : bytes "\"auth_token\":\"" ++ c._token ++ bytes "\"" <:+: c.connectJson ↔ c._token ≠ [] := by
    constructor
    · intro h htk
      obtain ⟨A, B, e⟩ := h
      rw [auth_start] at e
      by_cases hu0 : c._user = []
      · have hj : c.connectJson = bytes "\x7b\"verbose\":false,\"pedantic\":false,\"tls_required\":false,\"name\":\"" ++ c._clientId ++ bytes "\",\"proto\":1,\"echo\":true\x7d" := by
          simp [NATSClient.connectJson, htk, hu0]
        rw [hj] at e
        exact no_auth_in_plain _ hid _ _ e
      · have hj : c.connectJson = bytes "\x7b\"verbose\":false,\"pedantic\":false,\"tls_required\":false,\"name\":\"" ++ c._clientId ++ bytes "\",\"user\":\"" ++ c._user
            ++ bytes "\",\"pass\":\"" ++ c._pass ++ bytes "\",\"proto\":1,\"echo\":true\x7d" := by
          have : c._user.length > 0 := List.length_pos.mpr hu0
          simp [NATSClient.connectJson, htk, this]
        rw [hj] at e
        exact no_auth_in_user _ _ _ hid hu hp _ _ e
    · intro htk
      have hj : c.connectJson = bytes "\x7b\"verbose\":false,\"pedantic\":false,\"tls_required\":false,\"name\":\"" ++ c._clientId ++ bytes "\",\"auth_token\":\"" ++ c._token
          ++ bytes "\",\"proto\":1,\"echo\":true\x7d" := by
        have : c._token.length > 0 := List.length_pos.mpr htk
        simp [NATSClient.connectJson, this]
      exact ⟨bytes "\x7b\"verbose\":false,\"pedantic\":false,\"tls_required\":false,\"name\":\"" ++ c._clientId ++ bytes "\",",
        bytes ",\"proto\":1,\"echo\":true\x7d",
        by rw [hj, g1, e2]; simp only [List.append_assoc]⟩
  have huser : bytes "\"user\":\"" ++ c._user ++ bytes "\",\"pass\":\"" ++ c._pass ++ bytes "\""
      <:+: c.connectJson ↔ c._token = [] ∧ c._user ≠ [] := by
    constructor
    · intro h
      obtain ⟨A, B, e⟩ := h
      rw [user_start] at e
      by_cases htk : c._token = []
      · refine ⟨htk, fun hu0 => ?_⟩
        have hj : c.connectJson = bytes "\x7b\"verbose\":false,\"pedantic\":false,\"tls_required\":false,\"name\":\"" ++ c._clientId ++ bytes "\",\"proto\":1,\"echo\":true\x7d" := by
          simp [NATSClient.connectJson, htk, hu0]
        rw [hj] at e
        exact no_user_in_plain _ hid _ _ e
      · exfalso
        have hj : c.connectJson = bytes "\x7b\"verbose\":false,\"pedantic\":false,\"tls_required\":false,\"name\":\"" ++ c._clientId ++ bytes "\",\"auth_token\":\"" ++ c._token
            ++ bytes "\",\"proto\":1,\"echo\":true\x7d" := by
          have : c._token.length > 0 := List.length_pos.mpr htk
          simp [NATSClient.connectJson, this]
        rw [hj] at e
        exact no_user_in_token _ _ hid htok _ _ e
    · intro ⟨htk, hu0⟩
      have hj : c.connectJson = bytes "\x7b\"verbose\":false,\"pedantic\":false,\"tls_required\":false,\"name\":\"" ++ c._clientId ++ bytes "\",\"user\":\"" ++ c._user
          ++ bytes "\",\"pass\":\"" ++ c._pass ++ bytes "\",\"proto\":1,\"echo\":true\x7d" := by
        have : c._user.length > 0 := List.length_pos.mpr hu0
        simp [NATSClient.connectJson, htk, this]
      exact ⟨bytes "\x7b\"verbose\":false,\"pedantic\":false,\"tls_required\":false,\"name\":\"" ++ c._clientId ++ bytes "\",",
        bytes ",\"proto\":1,\"echo\":true\x7d",
        by rw [hj, g2, e2]; simp only [List.append_assoc]⟩
  refine ⟨?_, ?_, ?_, ?_, hauth, huser, ?_⟩
  · simp only [NATSClient._sendConnect, send_send, List.append_assoc]
  · exact ⟨bytes "\x7b", bytes ",\"pedantic\":false,\"tls_required\":false,\"name\":\""
      ++ c._clientId ++ (bytes "\"" ++ t),
      by rw [ht, f1]; simp only [List.append_assoc]⟩
  · exact ⟨bytes "\x7b\"verbose\":false,", bytes ",\"tls_required\":false,\"name\":\""
      ++ c._clientId ++ (bytes "\"" ++ t),
      by rw [ht, f2]; simp only [List.append_assoc]⟩
  · exact ⟨bytes "\x7b\"verbose\":false,\"pedantic\":false,\"tls_required\":false,", t,
      by rw [ht, f3]; simp only [List.append_assoc]⟩
  · intro ⟨ha, hb⟩
    exact (hauth.mp ha) (huser.mp hb).1

theorem connect_body_witness :
    (34 ∉ withToken._clientId ∧ 34 ∉ withToken._token ∧ 34 ∉ withToken._user ∧
      34 ∉ withToken._pass ∧ withToken._token ≠ []) ∧
    (withToken._sendConnect).2._client.tx = withToken._client.tx ++ connectLineToken ∧
    bytes "\"auth_token\":\"" ++ withToken._token ++ bytes "\"" <:+: withToken.connectJson ∧
    ¬ (bytes "\"user\":\"" ++ withToken._user ++ bytes "\",\"pass\":\"" ++ withToken._pass ++ bytes "\""
        <:+: withToken.connectJson) ∧
    (34 ∉ withUser._clientId ∧ 34 ∉ withUser._token ∧ 34 ∉ withUser._user ∧
      34 ∉ withUser._pass ∧ withUser._token = [] ∧ withUser._user ≠ []) ∧
    bytes "\"user\":\"" ++ withUser._user ++ bytes "\",\"pass\":\"" ++ withUser._pass ++ bytes "\""
      <:+: withUser.connectJson ∧
    ¬ (bytes "\"auth_token\":\"" ++ withUser._token ++ bytes "\"" <:+: withUser.connectJson) :=
  ⟨by decide!,
   by rw [(connect_body withToken (by decide!) (by decide!) (by decide!) (by decide!)).1]; decide!,
   (connect_body withToken (by decide!) (by decide!) (by decide!)
      (by decide!)).2.2.2.2.1.mpr (by decide!),
   fun h => absurd ((connect_body withToken (by decide!) (by decide!) (by decide!)
      (by decide!)).2.2.2.2.2.1.mp h).1 (by decide!),
   by decide!,
   (connect_body withUser (by decide!) (by decide!) (by decide!)
      (by decide!)).2.2.2.2.2.1.mpr ⟨by decide!, by decide!⟩,
   fun h => absurd rfl ((connect_body withUser (by decide!) (by decide!) (by decide!)
      (by decide!)).2.2.2.2.1.mp h)⟩

theorem map_active_modify (f : PendingRequest → PendingRequest)
    (hf : ∀ r, (f r).active = r.active) : ∀ (reqs : List PendingRequest) (n : Nat),
    (reqs.modify f n).map (fun r => r.active) = reqs.map (fun r => r.active) := by
  intro reqs
  induction reqs with
  | nil => intro n; cases n <;> rfl
  | cons r rest ih =>
    intro n
    cases n with
    | zero => simp [hf]
    | succ n => simp [ih n]

theorem freePendingRequest_none (reqs : List PendingRequest)
    (h : ∀ r ∈ reqs, r.active = true) : NATSClient.freePendingRequest reqs = none := by
  unfold NATSClient.freePendingRequest
  rw [List.findIdx?_eq_none_iff]
  intro r hr
  simp [h r hr]

/-- C18: on a connected client in which every pending-request slot is active, or in
which every subscription slot is active, `request` returns false, and afterwards the
written bytes, the subscription table, the active flags of the pending-request table
and the identifier counter are the same as before. -/
theorem request_fails_when_full (c : NATSClient) (subject data : List Nat)
    (handler : MessageHandler) (timeout : Nat) (hc : c._connected = true)
    (hfull : (∀ r ∈ c._pendingRequests, r.active = true) ∨
      (∀ s ∈ c._subscriptions, s.active = true)) :
    ∃ c2, c.request subject data handler timeout = .ok (false, c2) ∧
      c2._client.tx = c._client.tx ∧ c2._subscriptions = c._subscriptions ∧
      c2._pendingRequests.map (fun r => r.active) = c._pendingRequests.map (fun r => r.active) ∧
      c2._nextSid = c._nextSid := by
  unfold NATSClient.request
  simp only [hc, Bool.not_true, Bool.false_eq_true, if_false]
  cases hp : NATSClient.freePendingRequest c._pendingRequests with
  | none => exact ⟨_, rfl, rfl, rfl, rfl, rfl⟩
  | some slot =>
    rcases hfull with hpend | hsubs
    · rw [freePendingRequest_none _ hpend] at hp
      cases hp
    · simp only [NATSClient._generateInbox, NATSClient.subscribe, hc, Bool.not_true,
        Bool.false_eq_true, if_false, freeSubscription_none _ hsubs]
      exact ⟨_, rfl, rfl, rfl,
        map_active_modify
          (fun r => { r with inbox := NATS_INBOX_PREFIX ++ fmtHex 8 c.millis
                                        ++ fmtHex 4 (c.randomSource.headD 0 % 65535) })
          (fun _ => rfl) c._pendingRequests slot, rfl⟩

theorem request_fails_when_full_witness :
    (pendingFull._connected = true ∧ (∀ r ∈ pendingFull._pendingRequests, r.active = true) ∧
      pendingFull._pendingRequests.length = 5 ∧
      ∃ c2, pendingFull.request (bytes "time.service") [] (some 7) 1000 = .ok (false, c2) ∧
        c2._client.tx = pendingFull._client.tx ∧
        c2._subscriptions = pendingFull._subscriptions ∧
        c2._pendingRequests.map (fun r => r.active)
          = pendingFull._pendingRequests.map (fun r => r.active) ∧
        c2._nextSid = pendingFull._nextSid) ∧
    (tableFull._connected = true ∧ (∀ s ∈ tableFull._subscriptions, s.active = true) ∧
      tableFull._subscriptions.length = 10 ∧
      ∃ c2, tableFull.request (bytes "time.service") [] (some 7) 1000 = .ok (false, c2) ∧
        c2._client.tx = tableFull._client.tx ∧
        c2._subscriptions = tableFull._subscriptions ∧
        c2._pendingRequests.map (fun r => r.active)
          = tableFull._pendingRequests.map (fun r => r.active) ∧
        c2._nextSid = tableFull._nextSid) :=
  ⟨⟨by decide!, by decide!, by decide!,
    request_fails_when_full pendingFull (bytes "time.service") [] (some 7) 1000 (by decide!)
      (Or.inl (by decide!))⟩,
   ⟨by decide!, by decide!, by decide!,
    request_fails_when_full tableFull (bytes "time.service") [] (some 7) 1000 (by decide!)
      (Or.inr (by decide!))⟩⟩

/-! ## Round trip of a published payload -/

/-- C11 (amended): on a connected client with an empty line buffer and no unread
bytes, with an active subscription `sub` (identifier `sid`, handler `h`), for a
subject `S` that is not empty, has no white space and no NUL and is shorter than 256
bytes, and for every payload `B` of at most 1023 bytes (CR, LF and CR-LF inside `B`
are allowed): `publish` writes `PUB S |B|\r\n` ++ `B` ++ `\r\n`, and when the server
echoes this as `MSG S sid |B|\r\n` ++ `B` ++ `\r\n`, `loop` invokes `h` once with the
bytes of `B` before its first zero byte, that is with `B` itself when `B` holds no
zero byte. -/
theorem publish_roundtrip (c : NATSClient) (sub : Subscription) (h : Nat) (sid : Int)
    (S B : List Nat)
    (hc : c._connected = true) (ho : c._client.isOpen = true) (hrx : c._client.rx = [])
    (hpos : c._inBufferPos = 0) (hbuf : c._inBuffer.length = IN_BUFFER_SIZE)
    (hmem : sub ∈ c._subscriptions) (hact : sub.active = true) (hsub : sub.sid = sid)
    (hh : sub.handler = some h) (hd : SidsDistinct c._subscriptions)
    (hsid : -2 ^ 31 ≤ sid ∧ sid < 2 ^ 31)
    (hS : S ≠ [] ∧ S.length < 256 ∧ ∀ b ∈ S, isspace b = false ∧ b ≠ 0)
    (hB : B.length ≤ 1023) :
    ∃ c1 c2, c.publish S B = .ok (true, c1) ∧
      c1._client.tx = c._client.tx ++ (bytes "PUB " ++ S ++ bytes " " ++ decimal B.length
        ++ NATS_CR_LF ++ B ++ NATS_CR_LF) ∧
      (c1.receive (bytes "MSG " ++ S ++ bytes " " ++ fmtInt sid ++ bytes " "
        ++ decimal B.length ++ NATS_CR_LF ++ B ++ NATS_CR_LF)).loop = .ok c2 ∧
      c2.events = c.events ++ [.message h S (cstr B) []] ∧
      ((∀ b ∈ B, b ≠ 0) → cstr B = B) := by
  have hpub := publish_fits c S B hc (pubHeader_short S B.length hS.2.1) (by omega)
  obtain ⟨c2, h1, h2⟩ := msg_line_delivery
    ((c.send (bytes "PUB " ++ S ++ bytes " " ++ decimal B.length ++ NATS_CR_LF ++ B
        ++ NATS_CR_LF)).receive
      (bytes "MSG " ++ S ++ bytes " " ++ fmtInt sid ++ bytes " " ++ decimal B.length
        ++ NATS_CR_LF ++ B ++ NATS_CR_LF))
    sub h sid S B ho hpos hbuf hmem hact hsub hh hd hsid hS hB
    (by simp [NATSClient.receive, NATSClient.setRx, NATSClient.send, Transport.write, hrx])
  exact ⟨_, c2, hpub, by simp [NATSClient.send, Transport.write], h1, h2,
    fun hn => cstr_of_no_nul B hn⟩

theorem publish_roundtrip_witness :
    subscribedTopic.connected = true ∧
    ∃ c1 c2, subscribedTopic.publish (bytes "test.topic") (bytes "a\r\nb") = .ok (true, c1) ∧
      c1._client.tx = subscribedTopic._client.tx ++ (bytes "PUB " ++ bytes "test.topic"
        ++ bytes " " ++ decimal (bytes "a\r\nb").length ++ NATS_CR_LF ++ bytes "a\r\nb"
        ++ NATS_CR_LF) ∧
      (c1.receive (bytes "MSG " ++ bytes "test.topic" ++ bytes " " ++ fmtInt 1 ++ bytes " "
        ++ decimal (bytes "a\r\nb").length ++ NATS_CR_LF ++ bytes "a\r\nb"
        ++ NATS_CR_LF)).loop = .ok c2 ∧
      c2.events = subscribedTopic.events
        ++ [.message 1 (bytes "test.topic") (cstr (bytes "a\r\nb")) []] ∧
      ((∀ b ∈ bytes "a\r\nb", b ≠ 0) → cstr (bytes "a\r\nb") = bytes "a\r\nb") :=
  ⟨by decide!,
   publish_roundtrip subscribedTopic (Subscription.fresh (bytes "test.topic") (some 1) 1) 1 1
    (bytes "test.topic") (bytes "a\r\nb") (by decide!) (by decide!) (by decide!) (by decide!)
    (by decide!) (by decide!) rfl rfl rfl (sidsDistinct_of_pairwise _ (by decide!))
    (by decide) (by decide!) (by decide!)⟩

/-! ## Reconnection status, the line buffer bound and waiting for a payload -/

/-- C21 (failing input): in the scenario of `test_auto_reconnect` (a connected client
with reconnection enabled, the transport is stopped, `loop` runs once)
`isReconnecting()` returns false after `loop`, whether the call made a reconnection
attempt (six seconds later) or not (at once); and when the server greets again, the
attempt succeeds inside `loop`, so that `connected()` returns true afterwards. -/
theorem not_reconnecting_after_loop :
    online.connected = true ∧ online._reconnectEnabled = true ∧
    autoReconnect 0 = .ok (false, false) ∧ autoReconnect 6000 = .ok (false, false) ∧
    autoReconnectGreeted = .ok (true, false) := by
  decide!

/-- C22 (failing input): each of the two wait loops of `connect` stores a line of more
than 1536 bytes past the end of the line buffer: the `INFO` wait loop on an `INFO`
line of 1607 bytes, the `+OK` wait loop on 1600 bytes without a line end. -/
theorem connect_overruns_line_buffer :
    connectLongInfo = .error .overflow ∧ connectLongAck = .error .overflow := by
  decide!

/-- C23 (failing input): on a connected client, when the line `MSG test.topic 1 11`
is followed by five payload bytes only and no further bytes arrive, `loop` does not
return. -/
theorem loop_waits_for_payload :
    subscribedTopic.connected = true ∧ shortPayload = .error .hang := by
  decide!

/-! ## Payload framing -/

/-- C24 (counterexample): of a payload of 1024 bytes only 1023 are consumed, so that
the last payload byte and the CR-LF pair are left as the start of the next line; and
after a payload of 5 bytes a second CR-LF pair (an empty line) that follows the
trailing pair is consumed as well. -/
theorem framing_consumes_otherwise :
    framing 1024 (bytes "PING\r\n") = .ok (bytes "x\r\nPING\r\n") ∧
    framing 5 (bytes "\r\nPING\r\n") = .ok (bytes "PING\r\n") := by
  decide!

theorem dropWhile_line_end (rest : List Nat)
    (h : ∀ b, rest.head? = some b → b ≠ 13 ∧ b ≠ 10) :
    rest.dropWhile (fun b => decide (b = 13 ∨ b = 10)) = rest := by
  cases rest with
  | nil => rfl
  | cons b t =>
    have := h b rfl
    simp [List.dropWhile, this.1, this.2]

theorem deliver_consumes (c : NATSClient) (subject : List Nat) (sid : Int) (reply P rest : List Nat)
    (hP : P.length ≤ 1023) (hrx : c._client.rx = P ++ NATS_CR_LF ++ rest)
    (hrest : ∀ b, rest.head? = some b → b ≠ 13 ∧ b ≠ 10) :
    ∃ r c2, c.deliver subject sid reply P.length = .ok (r, c2) ∧ c2._client.rx = rest := by
  have hneed : min (toSize (P.length : Int)) (NATS_MAX_PAYLOAD_SIZE - 1) = P.length := by
    unfold toSize NATS_MAX_PAYLOAD_SIZE
    omega
  have h1 : ¬ (P ++ NATS_CR_LF ++ rest).length < P.length := by simp
  have h3 : ((P ++ NATS_CR_LF ++ rest).drop P.length).dropWhile
      (fun b => decide (b = 13 ∨ b = 10)) = rest := by
    rw [List.append_assoc, List.drop_left]
    show List.dropWhile (fun b => decide (b = 13 ∨ b = 10)) (13 :: 10 :: rest) = rest
    rw [List.dropWhile_cons_of_pos (by decide), List.dropWhile_cons_of_pos (by decide)]
    exact dropWhile_line_end rest hrest
  unfold NATSClient.deliver
  simp only [hneed, hrx, h1, if_false, h3]
  split
  · exact ⟨_, _, rfl, rfl⟩
  · split
    · exact ⟨_, _, rfl, rfl⟩
    · exact ⟨_, _, rfl, rfl⟩

/-- C24 (amended): when a payload `P` of at most 1023 bytes (any bytes, also CR and
LF) is available, followed by a CR-LF pair and by bytes `rest` that do not start with
CR or LF, then the part of `_processMsg` that follows the parsing, called with the
declared size `|P|`, returns and leaves exactly `rest` unread; and so does
`_processMsg` on the arguments `S sid |P|` of a `MSG` line. -/
theorem payload_framing (c : NATSClient) (P rest : List Nat)
    (hP : P.length ≤ 1023) (hrx : c._client.rx = P ++ NATS_CR_LF ++ rest)
    (hrest : ∀ b, rest.head? = some b → b ≠ 13 ∧ b ≠ 10) :
    (∀ (subject : List Nat) (sid : Int) (reply : List Nat),
      ∃ r c2, c.deliver subject sid reply P.length = .ok (r, c2) ∧ c2._client.rx = rest) ∧
    (∀ (S : List Nat) (sid : Int), S ≠ [] → S.length < 256 → (∀ b ∈ S, isspace b = false) →
      -2 ^ 31 ≤ sid → sid < 2 ^ 31 →
      ∃ r c2, c._processMsg (S ++ bytes " " ++ fmtInt sid ++ bytes " " ++ decimal P.length)
          = .ok (r, c2) ∧ c2._client.rx = rest) := by
  refine ⟨fun subject sid reply => deliver_consumes c subject sid reply P rest hP hrx hrest, ?_⟩
  intro S sid hne hlen hS h1 h2
  have hscan := sscanfMsg_three S sid P.length hne hS
    (by unfold NATS_MAX_SUBJECT_LENGTH; exact hlen) h1 h2 (by omega)
  have eSP : bytes " " = [32] := by decide
  have hatoi : atoi (decimal P.length) = (P.length : Int) := atoi_decimal _ (by omega)
  have hargs : S ++ bytes " " ++ fmtInt sid ++ bytes " " ++ decimal P.length
      = S ++ 32 :: (fmtInt sid ++ 32 :: decimal P.length) := by
    rw [eSP]; simp
  rw [hargs]
  unfold NATSClient._processMsg
  rw [hscan]
  simp only [hatoi]
  exact deliver_consumes c S sid [] P rest hP hrx hrest

theorem payload_framing_witness :
    (∀ (subject : List Nat) (sid : Int) (reply : List Nat),
      ∃ r c2, (subscribedTopic.setRx (bytes "a\r\nb" ++ NATS_CR_LF ++ bytes "PING\r\n")).deliver
          subject sid reply (bytes "a\r\nb").length = .ok (r, c2) ∧
        c2._client.rx = bytes "PING\r\n") ∧
    (∀ (S : List Nat) (sid : Int), S ≠ [] → S.length < 256 → (∀ b ∈ S, isspace b = false) →
      -2 ^ 31 ≤ sid → sid < 2 ^ 31 →
      ∃ r c2, (subscribedTopic.setRx (bytes "a\r\nb" ++ NATS_CR_LF ++ bytes "PING\r\n"))._processMsg
          (S ++ bytes " " ++ fmtInt sid ++ bytes " " ++ decimal (bytes "a\r\nb").length)
          = .ok (r, c2) ∧ c2._client.rx = bytes "PING\r\n") :=
  payload_framing (subscribedTopic.setRx (bytes "a\r\nb" ++ NATS_CR_LF ++ bytes "PING\r\n"))
    (bytes "a\r\nb") (bytes "PING\r\n") (by decide) rfl (by decide)

/-! ## A server error after the handshake -/

/-- C25 (counterexample): after `loop` has read the line
`-ERR 'Authorization Violation'` the last error is that text, but the client is still
connected and a following `publish` returns true. -/
theorem authorization_error_keeps_session :
    errorAfterHandshake = .ok (bytes "\x27Authorization Violation\x27", true, true) := by
  decide!

/-- C25 (amended): on a connected client whose transport is open and whose line
buffer is empty, when the transport holds the line `-ERR t` (`t` without NUL and LF,
at most 1528 bytes, so that the line fits into the line buffer), `loop` returns, the
last error is `t` cut to 127 bytes, the connected flag and the transport stay as they
were, so `connected()` is still true, and a following `publish` (subject shorter than
256 bytes) returns true. -/
theorem server_error_recorded (c : NATSClient) (t : List Nat)
    (hc : c._connected = true) (ho : c._client.isOpen = true)
    (hpos : c._inBufferPos = 0) (hbuf : c._inBuffer.length = IN_BUFFER_SIZE)
    (ht : t.length ≤ 1528 ∧ ∀ b ∈ t, b ≠ 0 ∧ b ≠ 10)
    (hrx : c._client.rx = bytes "-ERR " ++ t ++ NATS_CR_LF) :
    ∃ c2, c.loop = .ok c2 ∧ c2._lastError = t.take 127 ∧ c2.connected = true ∧
      ∀ subject data : List Nat, subject.length < 256 → data.length < 2 ^ 31 →
        ∃ c3, c2.publish subject data = .ok (true, c3) := by
  have eERR : bytes "-ERR " = [45, 69, 82, 82, 32] := by decide
  let L := 45 :: 69 :: 82 :: 82 :: 32 :: t
  have hrx2 : c._client.rx = L ++ 13 :: 10 :: [] := by
    rw [hrx, eERR]; simp [L, NATS_CR_LF]
  have hLmem : ∀ b ∈ L, b ≠ 10 ∧ b ≠ 0 := by
    intro b hb
    simp only [L, List.mem_cons] at hb
    rcases hb with rfl | rfl | rfl | rfl | rfl | hb
    · omega
    · omega
    · omega
    · omega
    · omega
    · exact ⟨(ht.2 b hb).2, (ht.2 b hb).1⟩
  have hLlen : L.length + 2 ≤ IN_BUFFER_SIZE - 1 := by
    simp only [L, List.length_cons, IN_BUFFER_SIZE, NATS_MAX_PAYLOAD_SIZE]
    omega
  have hline := NATSClient.drain_line L [] 0 c hbuf hpos hrx2 (fun b hb => (hLmem b hb).1) hLlen
  have hfuel : c._client.rx.length = L.length + 2 + 0 := by rw [hrx2]; simp
  have hcs : cstr (L ++ 0 :: 10 :: c._inBuffer.drop (L.length + 2)) = L :=
    cstr_append_nul _ _ (fun b hb => (hLmem b hb).2)
  have hargs : cstrAt (L ++ 0 :: 10 :: c._inBuffer.drop (L.length + 2)) 5 = t := by
    rw [cstrAt_append_nul _ _ 5 (fun b hb => (hLmem b hb).2) (by simp [L])]
    rfl
  have e1 : strncmpEq L (bytes "MSG") 3 = false := by simp [strncmpEq, L]; decide
  have e2 : strncmpEq L (bytes "PING") 4 = false := by simp [strncmpEq, L]; decide
  have e3 : strncmpEq L (bytes "PONG") 4 = false := by simp [strncmpEq, L]; decide
  have e4 : strncmpEq L (bytes "+OK") 3 = false := by simp [strncmpEq, L]; decide
  have e5 : strncmpEq L (bytes "-ERR") 4 = true := by simp [strncmpEq, L]; decide
  have hdrain : NATSClient.drain c._client.rx.length c
      = .ok { c.setRx [] with
              _inBuffer := L ++ 0 :: 10 :: c._inBuffer.drop (L.length + 2)
              _inBufferPos := 0
              _lastError := strncpy t 127 } := by
    rw [hfuel, hline]
    simp only [NATSClient._processLine, hcs, e1, e2, e3, e4, e5, Bool.false_eq_true, if_false,
      if_true, hargs, NATSClient._processErr, NATSClient.setRx]
    exact drain_idle _ _ rfl
  obtain ⟨w, subs2, lp, la, hk, _, _⟩ := NATSClient.housekeeping_spec
    { c.setRx [] with
      _inBuffer := L ++ 0 :: 10 :: c._inBuffer.drop (L.length + 2)
      _inBufferPos := 0
      _lastError := strncpy t 127 }
  have hloop : c.loop = NATSClient.housekeeping
      { c.setRx [] with
        _inBuffer := L ++ 0 :: 10 :: c._inBuffer.drop (L.length + 2)
        _inBufferPos := 0
        _lastError := strncpy t 127 } := by
    simp only [NATSClient.loop, ho, Bool.not_true, Bool.false_eq_true, if_false, hdrain]
  rw [hk] at hloop
  refine ⟨_, hloop, rfl, by simp [NATSClient.connected, NATSClient.upkeep, NATSClient.setRx, hc, ho],
    fun subject data hs hd => ⟨_, publish_fits _ subject data ?_ (pubHeader_short subject _ hs) hd⟩⟩
  simp [NATSClient.upkeep, NATSClient.setRx, hc]

theorem server_error_recorded_witness :
    online._connected = true ∧
    ∃ c2, (online.receive (bytes "-ERR " ++ bytes "\x27Authorization Violation\x27"
        ++ NATS_CR_LF)).loop = .ok c2 ∧
      c2._lastError = (bytes "\x27Authorization Violation\x27").take 127 ∧
      c2.connected = true ∧
      ∀ subject data : List Nat, subject.length < 256 → data.length < 2 ^ 31 →
        ∃ c3, c2.publish subject data = .ok (true, c3) :=
  ⟨by decide!,
   server_error_recorded
    (online.receive (bytes "-ERR " ++ bytes "\x27Authorization Violation\x27" ++ NATS_CR_LF))
    (bytes "\x27Authorization Violation\x27") (by decide!) (by decide!) (by decide!)
    (by decide!) (by decide) (by decide!)⟩

/-! ## What a handshake changes -/

namespace NATSClient

theorem awaitInfo_shape (rx : List Nat) : ∀ (c c2 : NATSClient), c.awaitInfo rx = .ok c2 →
    ∃ client buf pos now,
      c2 = c.handshake client buf pos c._lastError now c._lastPing c._lastAnnounce c._connected
            c._reconnectAttempts c.events ∧
      (c.millis < WORD → now < WORD) := by
  induction rx with
  | nil =>
    intro c c2 h
    cases h
    exact ⟨_, _, _, _, rfl, fun _ => Nat.mod_lt _ (by decide)⟩
  | cons b rest ih =>
    intro c c2 h
    unfold awaitInfo at h
    split at h
    · cases h
    · simp only at h
      split at h
      · split at h
        · cases h; exact ⟨_, _, _, _, rfl, fun hm => hm⟩
        · obtain ⟨client, buf, pos, now, e, hb⟩ := ih _ _ h
          exact ⟨client, buf, pos, now, by rw [e]; rfl, hb⟩
      · obtain ⟨client, buf, pos, now, e, hb⟩ := ih _ _ h
        exact ⟨client, buf, pos, now, by rw [e]; rfl, hb⟩

theorem announceDevice_result (c c4 : NATSClient) (h : c.announceDevice = .ok c4) :
    ∃ w la, c4 = c.upkeep w c._subscriptions c._pendingRequests c._lastPing la := by
  obtain ⟨w, la, ha⟩ := announceDevice_frame c
  rw [ha] at h
  cases h
  exact ⟨w, la, rfl⟩

theorem acknowledged_shape (c : NATSClient) (r : Bool) (c2 : NATSClient)
    (h : c.acknowledged = .ok (r, c2)) :
    ∃ client lp la ev,
      r = true ∧
      c2 = c.handshake client c._inBuffer c._inBufferPos c._lastError c.millis lp la true 0 ev ∧
      ∃ more, ev = c.events ++ more ∧ ∀ e ∈ more, e.isConnect = true := by
  unfold acknowledged at h
  simp only at h
  have hev : ∃ more,
      (match ({ c with _connected := true, _reconnectAttempts := 0,
                       _lastPing := c.millis } : NATSClient)._connectHandler with
        | some h => ({ c with _connected := true, _reconnectAttempts := 0,
                              _lastPing := c.millis } : NATSClient).emit (.connection h true)
        | none => { c with _connected := true, _reconnectAttempts := 0,
                           _lastPing := c.millis })
        = c.handshake c._client c._inBuffer c._inBufferPos c._lastError c.millis c.millis
            c._lastAnnounce true 0 (c.events ++ more) ∧
      ∀ e ∈ more, e.isConnect = true := by
    cases hh : c._connectHandler with
    | none => exact ⟨[], by simp [handshake, hh], by simp⟩
    | some k => exact ⟨[.connection k true], by simp [handshake, emit, hh], by simp [Event.isConnect]⟩
  obtain ⟨more, e2, hmore⟩ := hev
  rw [e2] at h
  split at h
  · split at h
    · cases h
    · rename_i c4 hann
      cases h
      obtain ⟨w, la, e⟩ := announceDevice_result _ _ hann
      exact ⟨_, _, _, _, rfl, by rw [e]; rfl, more, rfl, hmore⟩
  · cases h
    exact ⟨_, _, _, _, rfl, rfl, more, rfl, hmore⟩

theorem awaitOk_shape (rx : List Nat) : ∀ (c : NATSClient) (r : Bool) (c2 : NATSClient),
    c.awaitOk rx = .ok (r, c2) →
    ∃ client buf pos err now lp la ev,
      c2 = c.handshake client buf pos err now lp la (r || c._connected)
            (if r then 0 else c._reconnectAttempts) ev ∧
      (∃ more, ev = c.events ++ more ∧ ∀ e ∈ more, e.isConnect = true) ∧
      (c.millis < WORD → now < WORD) := by
  induction rx with
  | nil =>
    intro c r c2 h
    cases h
    exact ⟨_, _, _, _, _, _, _, _, rfl, ⟨[], (List.append_nil _).symm, by simp⟩,
      fun _ => Nat.mod_lt _ (by decide)⟩
  | cons b rest ih =>
    intro c r c2 h
    unfold awaitOk at h
    split at h
    · cases h
    · simp only at h
      split at h
      · split at h
        · obtain ⟨client, lp, la, ev, hr, e, hev⟩ := acknowledged_shape _ _ _ h
          subst hr
          exact ⟨client, _, _, _, _, lp, la, ev, by rw [e]; rfl, hev, fun hm => hm⟩
        · split at h
          · cases h
            exact ⟨_, _, _, _, _, _, _, _, rfl, ⟨[], (List.append_nil _).symm, by simp⟩, fun hm => hm⟩
          · obtain ⟨client, buf, pos, err, now, lp, la, ev, e, hev, hb⟩ := ih _ _ _ h
            exact ⟨client, buf, pos, err, now, lp, la, ev, by rw [e]; rfl, hev, hb⟩
      · obtain ⟨client, buf, pos, err, now, lp, la, ev, e, hev, hb⟩ := ih _ _ _ h
        exact ⟨client, buf, pos, err, now, lp, la, ev, by rw [e]; rfl, hev, hb⟩

theorem connect_shape (c : NATSClient) (server : List Nat) (port : Nat) (user pass : List Nat)
    (r : Bool) (c2 : NATSClient) (h : c.connect server port user pass = .ok (r, c2)) :
    ∃ client buf pos err now lp la ev,
      c2 = ({ c with _server := strncpy server 63, _port := port % 65536,
                     _user := strncpy user 63, _pass := strncpy pass 63 }).handshake
            client buf pos err now lp la (r || c._connected)
            (if r then 0 else c._reconnectAttempts) ev ∧
      (∃ more, ev = c.events ++ more ∧ ∀ e ∈ more, e.isConnect = true) ∧
      (c.millis < WORD → now < WORD) := by
  unfold connect at h
  simp only at h
  split at h
  · cases h
    exact ⟨_, _, _, _, _, _, _, _, rfl, ⟨[], (List.append_nil _).symm, by simp⟩, fun hm => hm⟩
  · split at h
    · cases h
    · rename_i c3 h3
      obtain ⟨client3, buf3, pos3, now3, e3, hb3⟩ := awaitInfo_shape _ _ _ h3
      obtain ⟨client, buf, pos, err, now, lp, la, ev, e, hev, hb⟩ := awaitOk_shape _ _ _ _ h
      refine ⟨client, buf, pos, err, now, lp, la, ev, ?_, ?_, fun hm => hb ?_⟩
      · rw [e, e3]; rfl
      · rw [e3] at hev; exact hev
      · rw [e3]; exact hb3 hm

end NATSClient

/-! ## A handshake whose bytes fit into the line buffer returns -/

namespace NATSClient

theorem awaitInfo_returns (rx : List Nat) : ∀ (c : NATSClient),
    c._inBufferPos + rx.length ≤ IN_BUFFER_SIZE →
    ∃ c3, c.awaitInfo rx = .ok c3 ∧
      c3._inBufferPos + c3._client.rx.length ≤ IN_BUFFER_SIZE := by
  induction rx with
  | nil =>
    intro c h
    exact ⟨_, rfl, by simpa [setRx] using h⟩
  | cons b rest ih =>
    intro c h
    simp only [List.length_cons] at h
    unfold awaitInfo
    have hlt : ¬ IN_BUFFER_SIZE ≤ c._inBufferPos := by omega
    simp only [hlt, if_false]
    split
    · split
      · exact ⟨_, rfl, by simp [_processInfo, setRx]; omega⟩
      · exact ih _ (by simp; omega)
    · exact ih _ (by simp; omega)

theorem acknowledged_returns (c : NATSClient) : ∃ c2, c.acknowledged = .ok (true, c2) := by
  unfold acknowledged
  simp only
  split
  · rename_i hcond
    obtain ⟨w, la, ha⟩ := announceDevice_frame
      ((match ({ c with _connected := true, _reconnectAttempts := 0,
                        _lastPing := c.millis } : NATSClient)._connectHandler with
        | some h => ({ c with _connected := true, _reconnectAttempts := 0,
                              _lastPing := c.millis } : NATSClient).emit (.connection h true)
        | none => { c with _connected := true, _reconnectAttempts := 0,
                           _lastPing := c.millis }).send
        (resubscribeCommands
          (match ({ c with _connected := true, _reconnectAttempts := 0,
                           _lastPing := c.millis } : NATSClient)._connectHandler with
            | some h => ({ c with _connected := true, _reconnectAttempts := 0,
                                  _lastPing := c.millis } : NATSClient).emit (.connection h true)
            | none => { c with _connected := true, _reconnectAttempts := 0,
                               _lastPing := c.millis })._subscriptions))
    rw [ha]
    exact ⟨_, rfl⟩
  · exact ⟨_, rfl⟩

theorem awaitOk_returns (rx : List Nat) : ∀ (c : NATSClient),
    c._inBufferPos + rx.length ≤ IN_BUFFER_SIZE → ∃ r c2, c.awaitOk rx = .ok (r, c2) := by
  induction rx with
  | nil => intro c _; exact ⟨_, _, rfl⟩
  | cons b rest ih =>
    intro c h
    simp only [List.length_cons] at h
    unfold awaitOk
    have hlt : ¬ IN_BUFFER_SIZE ≤ c._inBufferPos := by omega
    simp only [hlt, if_false]
    split
    · split
      · obtain ⟨c2, h2⟩ := acknowledged_returns
          { c.setRx rest with
            _inBuffer := (c._inBuffer.set c._inBufferPos b).set (c._inBufferPos + 1 - 2) 0
            _inBufferPos := 0 }
        exact ⟨_, _, h2⟩
      · split
        · exact ⟨_, _, rfl⟩
        · exact ih _ (by simp; omega)
    · exact ih _ (by simp; omega)

theorem connect_returns (c : NATSClient) (server : List Nat) (port : Nat) (user pass : List Nat)
    (hfit : c._inBufferPos + c._client.rx.length ≤ IN_BUFFER_SIZE) :
    ∃ r c2, c.connect server port user pass = .ok (r, c2) := by
  unfold connect
  simp only
  split
  · exact ⟨_, _, rfl⟩
  · obtain ⟨c3, h3, hfit3⟩ := awaitInfo_returns
      ({ c with _server := strncpy server 63, _port := port % 65536, _user := strncpy user 63,
                _pass := strncpy pass 63 } : NATSClient)._client.connect.2.rx
      { c with _server := strncpy server 63, _port := port % 65536, _user := strncpy user 63,
               _pass := strncpy pass 63,
               _client := ({ c with _server := strncpy server 63, _port := port % 65536,
                                    _user := strncpy user 63,
                                    _pass := strncpy pass 63 } : NATSClient)._client.connect.2 }
      (by
        have : (c._client.connect.2).rx = c._client.rx := by
          unfold Transport.connect; split <;> rfl
        simp only [this]
        exact hfit)
    rw [h3]
    simp only
    exact awaitOk_returns _ _ (by simpa [_sendConnect, send, Transport.write] using hfit3)

end NATSClient

/-! ## The reconnect-attempt counter -/

/-- C28 (counterexample): after five failed automatic attempts the counter is 5, and
an explicit `connect` that fails (the server is unreachable) leaves it at 5. -/
theorem failed_connect_keeps_attempts :
    retriesExhausted._reconnectAttempts = 5 ∧ connectWhenExhausted = .ok (false, 5) := by
  decide!

/-- C28 (amended): an explicit call of `connect` (each of the three overloads) that
returns true leaves the reconnect-attempt counter at 0, and one that returns false
leaves the counter as it was; and `connect` returns whenever the bytes that are
available fit into the line buffer behind its cursor. -/
theorem connect_resets_attempts (c : NATSClient) (server : List Nat) (port : Nat) :
    (∀ user pass r c2, c.connect server port user pass = .ok (r, c2) →
      c2._reconnectAttempts = if r then 0 else c._reconnectAttempts) ∧
    (∀ r c2, c.connectAnonymous server port = .ok (r, c2) →
      c2._reconnectAttempts = if r then 0 else c._reconnectAttempts) ∧
    (∀ token r c2, c.connectToken server port token = .ok (r, c2) →
      c2._reconnectAttempts = if r then 0 else c._reconnectAttempts) ∧
    (c._inBufferPos + c._client.rx.length ≤ IN_BUFFER_SIZE →
      ∀ user pass, ∃ r c2, c.connect server port user pass = .ok (r, c2)) := by
  refine ⟨?_, ?_, ?_, fun hfit user pass => NATSClient.connect_returns c server port user pass hfit⟩
  · intro user pass r c2 h
    obtain ⟨client, buf, pos, err, now, lp, la, ev, e, _, _⟩ :=
      NATSClient.connect_shape c server port user pass r c2 h
    rw [e]; rfl
  · intro r c2 h
    obtain ⟨client, buf, pos, err, now, lp, la, ev, e, _, _⟩ :=
      NATSClient.connect_shape c server port [] [] r c2 h
    rw [e]; rfl
  · intro token r c2 h
    obtain ⟨client, buf, pos, err, now, lp, la, ev, e, _, _⟩ :=
      NATSClient.connect_shape _ server port [] [] r c2 h
    rw [e]; rfl

theorem connect_resets_attempts_witness :
    greetedAgain._reconnectAttempts = 5 ∧
    (greetedAgain.connect (bytes "test.server") 4222 [] []).map
        (fun r => (r.1, r.2._reconnectAttempts)) = .ok (true, 0) ∧
    greetedAgain._inBufferPos + greetedAgain._client.rx.length ≤ IN_BUFFER_SIZE ∧
    (∀ user pass, ∃ r c2, greetedAgain.connect (bytes "test.server") 4222 user pass
        = .ok (r, c2)) :=
  ⟨by decide!, by decide!, by decide!,
   (connect_resets_attempts greetedAgain (bytes "test.server") 4222).2.2.2 (by decide!)⟩

/-! ## What the calls that send commands change -/

namespace NATSClient

theorem publish_traffic (c : NATSClient) (subject data : List Nat) (r : Bool) (c2 : NATSClient)
    (h : c.publish subject data = .ok (r, c2)) :
    ∃ tx err, c2 = c.traffic tx c._subscriptions c._nextSid c._pendingRequests c.randomSource
      err := by
  unfold publish at h
  split at h
  · cases h; exact ⟨_, _, rfl⟩
  · split at h
    · cases h
    · cases h; exact ⟨_, _, rfl⟩

theorem subscribe_traffic (c : NATSClient) (subject : List Nat) (handler : MessageHandler)
    (r : Bool) (c2 : NATSClient) (h : c.subscribe subject handler = .ok (r, c2)) :
    ∃ tx subs sid err, c2 = c.traffic tx subs sid c._pendingRequests c.randomSource err := by
  unfold subscribe at h
  split at h
  · cases h; exact ⟨_, _, _, _, rfl⟩
  · split at h
    · cases h; exact ⟨_, _, _, _, rfl⟩
    · split at h
      · cases h
      · cases h; exact ⟨_, _, _, _, rfl⟩

theorem unsubscribe_traffic (c : NATSClient) (subject : List Nat) :
    ∃ tx subs, (c.unsubscribe subject).2
      = c.traffic tx subs c._nextSid c._pendingRequests c.randomSource c._lastError := by
  unfold unsubscribe
  split
  · exact ⟨_, _, rfl⟩
  · split
    · exact ⟨_, _, rfl⟩
    · exact ⟨_, _, rfl⟩

theorem request_traffic (c : NATSClient) (subject data : List Nat) (handler : MessageHandler)
    (timeout : Nat) (r : Bool) (c2 : NATSClient)
    (h : c.request subject data handler timeout = .ok (r, c2)) :
    ∃ tx subs sid reqs rnd err, c2 = c.traffic tx subs sid reqs rnd err := by
  unfold request at h
  split at h
  · cases h; exact ⟨_, _, _, _, _, _, rfl⟩
  · split at h
    · cases h; exact ⟨_, _, _, _, _, _, rfl⟩
    · simp only [_generateInbox] at h
      split at h
      · cases h
      · rename_i c3 h3
        cases h
        obtain ⟨tx, subs, sid, err, e⟩ := subscribe_traffic _ _ _ _ _ h3
        exact ⟨tx, subs, sid, _, _, err, by rw [e]; rfl⟩
      · rename_i c3 h3
        split at h
        · cases h
        · cases h
          obtain ⟨tx, subs, sid, err, e⟩ := subscribe_traffic _ _ _ _ _ h3
          exact ⟨_, subs, sid, _, _, err, by rw [e]; rfl⟩

theorem noticeDisconnect_shape (c : NATSClient) :
    ∃ ev, c.noticeDisconnect
      = c.handshake c._client c._inBuffer c._inBufferPos c._lastError c.millis c._lastPing
          c._lastAnnounce false c._reconnectAttempts ev ∧
      (ev = c.events ∨
        ∃ h, c._connected = true ∧ c._disconnectHandler = some h ∧
          ev = c.events ++ [.connection h false]) := by
  unfold noticeDisconnect
  split
  · rename_i hc
    split
    · rename_i h hh
      exact ⟨_, rfl, Or.inr ⟨h, hc, hh, rfl⟩⟩
    · exact ⟨_, rfl, Or.inl rfl⟩
  · rename_i hc
    simp only [Bool.not_eq_true] at hc
    exact ⟨c.events, by rw [← hc]; rfl, Or.inl rfl⟩

theorem reconnect_attempts (c : NATSClient) (r : Bool) (c2 : NATSClient)
    (h : c._reconnect = .ok (r, c2)) :
    (c._reconnectAttempts ≥ NATS_MAX_RECONNECT_ATTEMPTS ∧ r = false ∧ c2 = c) ∨
    (c._reconnectAttempts < NATS_MAX_RECONNECT_ATTEMPTS ∧
      c2._reconnectAttempts = if r then 0 else wrapInt (c._reconnectAttempts + 1)) := by
  unfold _reconnect at h
  split at h
  · rename_i hge
    cases h
    exact Or.inl ⟨hge, rfl, rfl⟩
  · rename_i hlt
    simp only at h
    split at h
    · cases h
    · rename_i r3 c3 h3
      cases h
      obtain ⟨client, buf, pos, err, now, lp, la, ev, e, _, _⟩ := connect_shape _ _ _ _ _ _ _ h3
      refine Or.inr ⟨by omega, ?_⟩
      rw [e]; rfl

theorem loop_attempts (c c2 : NATSClient) (h : c.loop = .ok c2) :
    c2._reconnectAttempts = c._reconnectAttempts ∨
    (c._reconnectAttempts < NATS_MAX_RECONNECT_ATTEMPTS ∧
      (c2._reconnectAttempts = 0 ∨
        c2._reconnectAttempts = wrapInt (c._reconnectAttempts + 1))) := by
  unfold loop at h
  split at h
  · simp only at h
    obtain ⟨ev, e1, _⟩ := noticeDisconnect_shape c
    rw [e1] at h
    split at h
    · split at h
      · split at h
        · cases h
        · rename_i r3 c3 h3
          cases h
          rcases reconnect_attempts _ _ _ h3 with ⟨_, _, e⟩ | ⟨hlt, e⟩
          · left; rw [e]; rfl
          · right
            refine ⟨hlt, ?_⟩
            rw [e]
            cases r3
            · right; rfl
            · left; rfl
      · cases h; left; rfl
    · cases h; left; rfl
  · split at h
    · cases h
    · rename_i c1 h1
      obtain ⟨rx, tx, buf, pos, err, ev, e1⟩ := drain_frame _ _ _ h1
      obtain ⟨w, subs2, lp, la, hk, _, _⟩ := housekeeping_spec c1
      rw [hk] at h
      cases h
      left
      rw [e1]; rfl

end NATSClient

theorem run_preserves (P : NATSClient → Prop) (Q : Op → Prop)
    (hstep : ∀ c op r c2, Q op → P c → step c op = .ok (r, c2) → P c2) (ops : List Op) :
    ∀ (c : NATSClient) (n : Nat) (c2 : NATSClient) (n2 : Nat), (∀ op ∈ ops, Q op) → P c →
      run c n ops = .ok (c2, n2) → P c2 := by
  induction ops with
  | nil => intro c n c2 n2 _ hP h; cases h; exact hP
  | cons op ops ih =>
    intro c n c2 n2 hQ hP h
    unfold run at h
    split at h
    · cases h
    · rename_i r c1 h1
      exact ih c1 _ c2 n2 (fun o ho => hQ o (List.mem_cons_of_mem _ ho))
        (hstep c op r c1 (hQ op (List.mem_cons_self _ _)) hP h1) h

theorem step_attempts (c : NATSClient) (op : Op) (r : Bool) (c2 : NATSClient)
    (h : step c op = .ok (r, c2)) :
    c2._reconnectAttempts = c._reconnectAttempts ∨ c2._reconnectAttempts = 0 ∨
    (c._reconnectAttempts < NATS_MAX_RECONNECT_ATTEMPTS ∧
      c2._reconnectAttempts = wrapInt (c._reconnectAttempts + 1)) := by
  have hconn : ∀ (c0 : NATSClient) server port user pass,
      c0.connect server port user pass = .ok (r, c2) →
      c2._reconnectAttempts = c0._reconnectAttempts ∨ c2._reconnectAttempts = 0 ∨
      (c0._reconnectAttempts < NATS_MAX_RECONNECT_ATTEMPTS ∧
        c2._reconnectAttempts = wrapInt (c0._reconnectAttempts + 1)) := by
    intro c0 server port user pass h0
    obtain ⟨client, buf, pos, err, now, lp, la, ev, e, _, _⟩ :=
      NATSClient.connect_shape _ _ _ _ _ _ _ h0
    cases r
    · left; rw [e]; rfl
    · right; left; rw [e]; rfl
  cases op with
  | connect server port user pass => exact hconn c _ _ _ _ h
  | connectAnonymous server port => exact hconn c _ _ _ _ h
  | connectToken server port token =>
    have h2 : ({ c with _token := strncpy token 255 } : NATSClient).connect server port [] []
        = .ok (r, c2) := h
    have := hconn _ _ _ _ _ h2
    exact this
  | disconnect =>
    cases h
    left
    unfold NATSClient.disconnect
    split
    · simp only; split <;> rfl
    · rfl
  | loop =>
    simp only [step, Except.map] at h
    split at h
    · cases h
    · rename_i c1 h1
      cases h
      rcases NATSClient.loop_attempts _ _ h1 with e | ⟨hlt, e | e⟩
      · exact Or.inl e
      · exact Or.inr (Or.inl e)
      · exact Or.inr (Or.inr ⟨hlt, e⟩)
  | publish subject data =>
    obtain ⟨tx, err, e⟩ := NATSClient.publish_traffic _ _ _ _ _ h
    left; rw [e]; rfl
  | subscribe subject handler =>
    obtain ⟨tx, subs, sid, err, e⟩ := NATSClient.subscribe_traffic _ _ _ _ _ h
    left; rw [e]; rfl
  | unsubscribe subject =>
    have h2 : c2 = (c.unsubscribe subject).2 := by
      simp only [step, Except.ok.injEq] at h
      rw [h]
    obtain ⟨tx, subs, e⟩ := NATSClient.unsubscribe_traffic c subject
    left; rw [h2, e]; rfl
  | request subject data handler timeout =>
    obtain ⟨tx, subs, sid, reqs, rnd, err, e⟩ := NATSClient.request_traffic _ _ _ _ _ _ _ h
    left; rw [e]; rfl
  | announceDevice =>
    simp only [step, Except.map] at h
    obtain ⟨w, la, ha⟩ := NATSClient.announceDevice_frame c
    rw [ha] at h
    cases h
    left; rfl
  | setDeviceInfo _ _ _ => cases h; left; rfl
  | enableAutoDiscovery _ => cases h; left; rfl
  | onConnect _ => cases h; left; rfl
  | onDisconnect _ => cases h; left; rfl
  | setClientID _ => cases h; left; rfl
  | setReconnect _ => cases h; left; rfl
  | setPingInterval _ => cases h; left; rfl
  | setVerbose _ => cases h; left; rfl
  | receive _ => cases h; left; rfl
  | elapse _ => cases h; left; rfl
  | linkDown => cases h; left; rfl
  | reachable _ => cases h; left; rfl
  | reseed _ => cases h; left; rfl

/-- C27: starting from a newly constructed client, after every finite sequence of
calls of public methods and of events of the environment the reconnect-attempt
counter lies between 0 and `NATS_MAX_RECONNECT_ATTEMPTS` = 5; and on every client
whose counter has reached 5, a `loop` that returns leaves the counter and the open
state of the transport as they were, and with a closed transport `loop` does return
and leaves the transport untouched (nothing is opened, nothing is written). -/
theorem retries_bounded :
    (∀ (net : Transport) (now : Nat) (rnd : List Nat) (ops : List Op) (c : NATSClient) (n : Nat),
      run (NATSClient.new net now rnd) 0 ops = .ok (c, n) →
      0 ≤ c._reconnectAttempts ∧ c._reconnectAttempts ≤ NATS_MAX_RECONNECT_ATTEMPTS) ∧
    (∀ c : NATSClient, c._reconnectAttempts ≥ NATS_MAX_RECONNECT_ATTEMPTS →
      (∀ c2, c.loop = .ok c2 →
        c2._reconnectAttempts = c._reconnectAttempts ∧ c2._client.isOpen = c._client.isOpen) ∧
      (c._client.isOpen = false →
        ∃ c2, c.loop = .ok c2 ∧ c2._client = c._client ∧
          c2._reconnectAttempts = c._reconnectAttempts)) := by
  constructor
  · intro net now rnd ops c n hrun
    refine run_preserves
      (fun c => 0 ≤ c._reconnectAttempts ∧ c._reconnectAttempts ≤ NATS_MAX_RECONNECT_ATTEMPTS)
      (fun _ => True) ?_ ops _ 0 c n (fun _ _ => trivial) ?_ hrun
    · intro c1 op r c2 _ hP h
      unfold NATS_MAX_RECONNECT_ATTEMPTS at hP ⊢
      rcases step_attempts c1 op r c2 h with e | e | ⟨hlt, e⟩
      · rw [e]; exact hP
      · rw [e]; omega
      · unfold NATS_MAX_RECONNECT_ATTEMPTS at hlt
        rw [e, wrapInt_id _ (by omega) (by omega)]
        omega
    · exact ⟨le_refl _, show (0 : Int) ≤ NATS_MAX_RECONNECT_ATTEMPTS by decide⟩
  · intro c hge
    constructor
    · intro c2 h
      unfold NATSClient.loop at h
      split at h
      · simp only at h
        obtain ⟨ev, e1, _⟩ := NATSClient.noticeDisconnect_shape c
        rw [e1] at h
        split at h
        · split at h
          · split at h
            · cases h
            · rename_i r3 c3 h3
              cases h
              rcases NATSClient.reconnect_attempts _ _ _ h3 with ⟨_, _, e⟩ | ⟨hlt, _⟩
              · rw [e]; exact ⟨rfl, rfl⟩
              · exfalso
                have : c._reconnectAttempts < NATS_MAX_RECONNECT_ATTEMPTS := hlt
                omega
          · cases h; exact ⟨rfl, rfl⟩
        · cases h; exact ⟨rfl, rfl⟩
      · split at h
        · cases h
        · rename_i c1 h1
          obtain ⟨rx, tx, buf, pos, err, ev, e1⟩ := NATSClient.drain_frame _ _ _ h1
          obtain ⟨w, subs2, lp, la, hk, _, _⟩ := NATSClient.housekeeping_spec c1
          rw [hk] at h
          cases h
          rw [e1]
          exact ⟨rfl, rfl⟩
    · intro hclosed
      obtain ⟨ev, e1, _⟩ := NATSClient.noticeDisconnect_shape c
      have hrec : ∀ c0 : NATSClient, c0._reconnectAttempts ≥ NATS_MAX_RECONNECT_ATTEMPTS →
          (match c0._reconnect with
            | .error f => (.error f : Except Fault NATSClient)
            | .ok (_, c2) => .ok c2) = .ok c0 := by
        intro c0 h0
        unfold NATSClient._reconnect
        simp [h0]
      unfold NATSClient.loop
      simp only [hclosed, Bool.not_false, if_true]
      rw [e1]
      split
      · split
        · refine ⟨_, hrec _ ?_, rfl, rfl⟩
          exact hge
        · exact ⟨_, rfl, rfl, rfl⟩
      · exact ⟨_, rfl, rfl, rfl⟩

theorem retries_bounded_witness :
    (∃ c n, run (NATSClient.new greeting 0 []) 0 failingRetries = .ok (c, n) ∧
      c._reconnectAttempts = 5 ∧
      0 ≤ c._reconnectAttempts ∧ c._reconnectAttempts ≤ NATS_MAX_RECONNECT_ATTEMPTS) ∧
    (retriesExhausted._reconnectAttempts ≥ NATS_MAX_RECONNECT_ATTEMPTS ∧
      retriesExhausted._client.isOpen = false ∧
      ∃ c2, (retriesExhausted.elapse 6000).loop = .ok c2 ∧
        c2._client = (retriesExhausted.elapse 6000)._client ∧
        c2._reconnectAttempts = (retriesExhausted.elapse 6000)._reconnectAttempts) :=
  ⟨⟨finalState ((run (NATSClient.new greeting 0 []) 0 failingRetries).map Prod.fst), 0,
     by decide!, by decide!,
     retries_bounded.1 greeting 0 [] failingRetries _ 0 (by decide!)⟩,
   ⟨by decide!, by decide!,
    (retries_bounded.2 (retriesExhausted.elapse 6000) (by decide!)).2 (by decide!)⟩⟩

/-! ## Calls of the disconnect handler -/

theorem filter_isDisconnect_of_isConnect (more : List Event)
    (h : ∀ e ∈ more, e.isConnect = true) : more.filter Event.isDisconnect = [] := by
  rw [List.filter_eq_nil_iff]
  intro e he
  have := h e he
  cases e with
  | message _ _ _ _ => simp [Event.isDisconnect]
  | connection k b => cases b <;> simp_all [Event.isConnect, Event.isDisconnect]

theorem filter_isDisconnect_of_isMessage (more : List Event)
    (h : ∀ e ∈ more, e.isMessage = true) : more.filter Event.isDisconnect = [] := by
  rw [List.filter_eq_nil_iff]
  intro e he
  have := h e he
  cases e with
  | message _ _ _ _ => simp [Event.isDisconnect]
  | connection k b => simp [Event.isMessage] at this

namespace NATSClient

theorem deliver_events (c : NATSClient) (subject : List Nat) (sid : Int) (reply : List Nat)
    (size : Int) (r : Bool) (c2 : NATSClient) (h : c.deliver subject sid reply size = .ok (r, c2)) :
    ∃ more, c2.events = c.events ++ more ∧ ∀ e ∈ more, e.isMessage = true := by
  unfold deliver at h
  simp only at h
  split at h
  · cases h
  · split at h
    · cases h; exact ⟨[], (List.append_nil _).symm, by simp⟩
    · split at h
      · cases h; exact ⟨[], (List.append_nil _).symm, by simp⟩
      · cases h; exact ⟨[_], rfl, by simp [Event.isMessage]⟩

theorem processLine_events (c : NATSClient) (r : Bool) (c2 : NATSClient)
    (h : c._processLine = .ok (r, c2)) :
    ∃ more, c2.events = c.events ++ more ∧ ∀ e ∈ more, e.isMessage = true := by
  unfold _processLine at h
  split at h
  · unfold _processMsg at h
    split at h
    · cases h
    · cases h; exact ⟨[], (List.append_nil _).symm, by simp⟩
    · exact deliver_events _ _ _ _ _ _ _ h
    · exact deliver_events _ _ _ _ _ _ _ h
  · split at h
    · unfold _processPing _sendPong at h
      split at h
      · cases h; exact ⟨[], (List.append_nil _).symm, by simp⟩
      · cases h; exact ⟨[], (List.append_nil _).symm, by simp⟩
    · split at h
      · cases h; exact ⟨[], (List.append_nil _).symm, by simp⟩
      · split at h
        · cases h; exact ⟨[], (List.append_nil _).symm, by simp⟩
        · split at h
          · cases h; exact ⟨[], (List.append_nil _).symm, by simp⟩
          · split at h <;> (cases h; exact ⟨[], (List.append_nil _).symm, by simp⟩)

theorem drain_events (fuel : Nat) : ∀ (c c2 : NATSClient), drain fuel c = .ok c2 →
    ∃ more, c2.events = c.events ++ more ∧ ∀ e ∈ more, e.isMessage = true := by
  induction fuel with
  | zero => intro c c2 h; cases h; exact ⟨[], (List.append_nil _).symm, by simp⟩
  | succ fuel ih =>
    intro c c2 h
    unfold drain at h
    split at h
    · cases h; exact ⟨[], (List.append_nil _).symm, by simp⟩
    · rename_i b rest hrx
      simp only at h
      have hstore : ∃ buf pos,
          (if (c.setRx rest)._inBufferPos < IN_BUFFER_SIZE - 1 then
            { c.setRx rest with
              _inBuffer := (c.setRx rest)._inBuffer.set (c.setRx rest)._inBufferPos b
              _inBufferPos := (c.setRx rest)._inBufferPos + 1 }
           else c.setRx rest) = c.intake rest c._client.tx buf pos c._lastError c.events := by
        split
        · exact ⟨_, _, rfl⟩
        · exact ⟨_, _, rfl⟩
      obtain ⟨buf, pos, hst⟩ := hstore
      rw [hst] at h
      split at h
      · split at h
        · cases h
        · rename_i r c3 hpl
          obtain ⟨m3, e3, h3⟩ := processLine_events _ _ _ hpl
          obtain ⟨m4, e4, h4⟩ := ih _ _ h
          refine ⟨m3 ++ m4, ?_, ?_⟩
          · rw [e4]
            show c3.events ++ m4 = c.events ++ (m3 ++ m4)
            rw [e3]
            simp [intake]
          · intro e he
            rcases List.mem_append.mp he with he | he
            · exact h3 e he
            · exact h4 e he
      · obtain ⟨m4, e4, h4⟩ := ih _ _ h
        exact ⟨m4, by rw [e4]; rfl, h4⟩

theorem loop_open_shape (c c2 : NATSClient) (ho : c._client.isOpen = true)
    (h : c.loop = .ok c2) :
    ∃ rx tx buf pos err more w subs reqs lp la,
      c2 = (c.intake rx tx buf pos err (c.events ++ more)).upkeep w subs reqs lp la ∧
      ∀ e ∈ more, e.isMessage = true := by
  unfold loop at h
  simp only [ho, Bool.not_true, Bool.false_eq_true, if_false] at h
  split at h
  · cases h
  · rename_i c1 h1
    obtain ⟨rx, tx, buf, pos, err, ev, e1⟩ := drain_frame _ _ _ h1
    obtain ⟨more, e2, hm⟩ := drain_events _ _ _ h1
    obtain ⟨w, subs2, lp, la, hk, _, _⟩ := housekeeping_spec c1
    rw [hk] at h
    cases h
    refine ⟨rx, tx, buf, pos, err, more, w, subs2, c1._pendingRequests.map (evict c1.millis),
      lp, la, ?_, hm⟩
    have : ev = c.events ++ more := by
      rw [← e2, e1]; rfl
    rw [← this, ← e1]

theorem reconnect_shape (c : NATSClient) (r : Bool) (c2 : NATSClient)
    (h : c._reconnect = .ok (r, c2)) :
    ∃ more, c2.events = c.events ++ more ∧ (∀ e ∈ more, e.isConnect = true) ∧
      c2._connected = (r || c._connected) := by
  unfold _reconnect at h
  split at h
  · cases h
    exact ⟨[], (List.append_nil _).symm, by simp, rfl⟩
  · simp only at h
    split at h
    · cases h
    · rename_i r3 c3 h3
      cases h
      obtain ⟨client, buf, pos, err, now, lp, la, ev, e, ⟨more, e2, hm⟩, _⟩ :=
        connect_shape _ _ _ _ _ _ _ h3
      refine ⟨more, ?_, hm, ?_⟩
      · rw [e]; exact e2
      · rw [e]; rfl

theorem loop_closed_shape (c c2 : NATSClient) (hcl : c._client.isOpen = false)
    (h : c.loop = .ok c2) :
    ∃ more, c2.events = c.noticeDisconnect.events ++ more ∧ (∀ e ∈ more, e.isConnect = true) ∧
      (c2._connected = true →
        ∃ c1, ({ c.noticeDisconnect with
                 _lastReconnectAttempt := c.noticeDisconnect.millis } : NATSClient)._reconnect
              = .ok (true, c1)) := by
  unfold loop at h
  simp only [hcl, Bool.not_false, if_true] at h
  obtain ⟨ev, e1, _⟩ := noticeDisconnect_shape c
  have hflag1 : c.noticeDisconnect._connected = false := by rw [e1]; rfl
  split at h
  · split at h
    · split at h
      · cases h
      · rename_i r3 c3 h3
        cases h
        obtain ⟨more, e2, hm, hflag⟩ := reconnect_shape _ _ _ h3
        refine ⟨more, e2, hm, ?_⟩
        intro hc2
        rw [hflag] at hc2
        have hr : r3 = true := by
          cases r3
          · exact absurd hc2 (by simp [hflag1])
          · rfl
        subst hr
        exact ⟨_, h3⟩
    · cases h
      exact ⟨[], (List.append_nil _).symm, by simp, fun hc2 => absurd hc2 (by simp [hflag1])⟩
  · cases h
    exact ⟨[], (List.append_nil _).symm, by simp, fun hc2 => absurd hc2 (by simp [hflag1])⟩

theorem noticeDisconnect_events (c : NATSClient) :
    (c._connected = false → c.noticeDisconnect.events = c.events) ∧
    (c._disconnectHandler = none → c.noticeDisconnect.events = c.events) ∧
    (∀ k, c._connected = true → c._disconnectHandler = some k →
      c.noticeDisconnect.events = c.events ++ [.connection k false]) := by
  refine ⟨fun hc => ?_, fun hk => ?_, fun k hc hk => ?_⟩
  · simp [noticeDisconnect, hc]
  · unfold noticeDisconnect
    split
    · simp [hk]
    · rfl
  · simp [noticeDisconnect, hc, hk, emit]

end NATSClient
theorem potential_step (d d2 : Nat) (f f2 s : Bool)
    (h : (d2 = d ∧ (f2 = true → f = true ∨ s = true)) ∨
      (f = true ∧ d2 = d + 1 ∧ (f2 = true → s = true))) :
    d2 + (if f2 then 1 else 0) ≤ d + (if f then 1 else 0) + (if s then 1 else 0) := by
  cases f <;> cases f2 <;> cases s <;> simp_all <;> omega

theorem disconnectCalls_append (c c2 : NATSClient) (more : List Event)
    (h : c2.events = c.events ++ more) (hm : more.filter Event.isDisconnect = []) :
    c2.disconnectCalls = c.disconnectCalls := by
  simp [NATSClient.disconnectCalls, h, hm]

theorem step_sessions (c : NATSClient) (op : Op) (r : Bool) (c2 : NATSClient)
    (h : step c op = .ok (r, c2)) :
    (c2.disconnectCalls = c.disconnectCalls ∧
      (c2._connected = true → c._connected = true ∨ succeeded c op r c2 = true)) ∨
    (c._connected = true ∧ c2.disconnectCalls = c.disconnectCalls + 1 ∧
      (c2._connected = true → succeeded c op r c2 = true)) := by
  have hconn : ∀ (c0 : NATSClient) server port user pass, c0.events = c.events →
      c0._connected = c._connected → c0.connect server port user pass = .ok (r, c2) →
      c2.disconnectCalls = c.disconnectCalls ∧
        (c2._connected = true → c._connected = true ∨ r = true) := by
    intro c0 server port user pass hev hfl h0
    obtain ⟨client, buf, pos, err, now, lp, la, ev, e, ⟨more, e2, hm⟩, _⟩ :=
      NATSClient.connect_shape _ _ _ _ _ _ _ h0
    refine ⟨disconnectCalls_append c c2 more (by rw [e, ← hev]; exact e2)
      (filter_isDisconnect_of_isConnect more hm), ?_⟩
    intro hc2
    rw [e] at hc2
    have : (r || c0._connected) = true := hc2
    rw [hfl] at this
    cases r
    · left; simpa using this
    · right; rfl
  have hsame : c2.events = c.events → c2._connected = c._connected →
      (c2.disconnectCalls = c.disconnectCalls ∧
        (c2._connected = true → c._connected = true ∨ succeeded c op r c2 = true)) ∨
      (c._connected = true ∧ c2.disconnectCalls = c.disconnectCalls + 1 ∧
        (c2._connected = true → succeeded c op r c2 = true)) := by
    intro hev hfl
    exact Or.inl ⟨by simp [NATSClient.disconnectCalls, hev], fun hc2 => Or.inl (hfl ▸ hc2)⟩
  cases op with
  | connect server port user pass => exact Or.inl (hconn c _ _ _ _ rfl rfl h)
  | connectAnonymous server port => exact Or.inl (hconn c _ _ _ _ rfl rfl h)
  | connectToken server port token =>
    have h2 : ({ c with _token := strncpy token 255 } : NATSClient).connect server port [] []
        = .ok (r, c2) := h
    have := hconn ({ c with _token := strncpy token 255 }) server port [] [] rfl rfl h2
    exact Or.inl this
  | disconnect =>
    cases h
    unfold NATSClient.disconnect
    split
    · rename_i hc
      cases hk : c._disconnectHandler with
      | none =>
        exact Or.inl ⟨by simp [NATSClient.disconnectCalls], fun hc2 => Or.inl hc⟩
      | some k =>
        refine Or.inr ⟨hc, by simp [NATSClient.disconnectCalls, NATSClient.emit,
          Event.isDisconnect], fun hc2 => ?_⟩
        simp [NATSClient.emit] at hc2
    · exact Or.inl ⟨rfl, fun hc2 => Or.inl hc2⟩
  | loop =>
    simp only [step, Except.map] at h
    split at h
    · cases h
    · rename_i c1 h1
      cases h
      cases ho : c._client.isOpen with
      | true =>
        obtain ⟨rx, tx, buf, pos, err, more, w, subs, reqs, lp, la, e, hm⟩ :=
          NATSClient.loop_open_shape c c2 ho h1
        refine Or.inl ⟨disconnectCalls_append c c2 more (by rw [e]; rfl)
          (filter_isDisconnect_of_isMessage more hm), fun hc2 => Or.inl ?_⟩
        rw [e] at hc2
        exact hc2
      | false =>
        obtain ⟨more, e, hm, _⟩ := NATSClient.loop_closed_shape c c2 ho h1
        have hd : c2.disconnectCalls = c.noticeDisconnect.disconnectCalls :=
          disconnectCalls_append _ _ more e (filter_isDisconnect_of_isConnect more hm)
        have hs : ∀ hc2 : c2._connected = true, succeeded c Op.loop true c2 = true := by
          intro hc2
          simp [succeeded, ho, hc2]
        obtain ⟨g1, g2, g3⟩ := NATSClient.noticeDisconnect_events c
        cases hc : c._connected with
        | false =>
          exact Or.inl ⟨by rw [hd]; simp [NATSClient.disconnectCalls, g1 hc],
            fun hc2 => Or.inr (hs hc2)⟩
        | true =>
          cases hk : c._disconnectHandler with
          | none =>
            exact Or.inl ⟨by rw [hd]; simp [NATSClient.disconnectCalls, g2 hk],
              fun hc2 => Or.inr (hs hc2)⟩
          | some k =>
            exact Or.inr ⟨rfl, by rw [hd]; simp [NATSClient.disconnectCalls, g3 k hc hk,
              Event.isDisconnect], hs⟩
  | publish subject data =>
    obtain ⟨tx, err, e⟩ := NATSClient.publish_traffic _ _ _ _ _ h
    exact hsame (by rw [e]; rfl) (by rw [e]; rfl)
  | subscribe subject handler =>
    obtain ⟨tx, subs, sid, err, e⟩ := NATSClient.subscribe_traffic _ _ _ _ _ h
    exact hsame (by rw [e]; rfl) (by rw [e]; rfl)
  | unsubscribe subject =>
    have h2 : c2 = (c.unsubscribe subject).2 := by
      simp only [step, Except.ok.injEq] at h
      rw [h]
    obtain ⟨tx, subs, e⟩ := NATSClient.unsubscribe_traffic c subject
    exact hsame (by rw [h2, e]; rfl) (by rw [h2, e]; rfl)
  | request subject data handler timeout =>
    obtain ⟨tx, subs, sid, reqs, rnd, err, e⟩ := NATSClient.request_traffic _ _ _ _ _ _ _ h
    exact hsame (by rw [e]; rfl) (by rw [e]; rfl)
  | announceDevice =>
    simp only [step, Except.map] at h
    obtain ⟨w, la, ha⟩ := NATSClient.announceDevice_frame c
    rw [ha] at h
    cases h
    exact hsame rfl rfl
  | setDeviceInfo _ _ _ => cases h; exact hsame rfl rfl
  | enableAutoDiscovery _ => cases h; exact hsame rfl rfl
  | onConnect _ => cases h; exact hsame rfl rfl
  | onDisconnect _ => cases h; exact hsame rfl rfl
  | setClientID _ => cases h; exact hsame rfl rfl
  | setReconnect _ => cases h; exact hsame rfl rfl
  | setPingInterval _ => cases h; exact hsame rfl rfl
  | setVerbose _ => cases h; exact hsame rfl rfl
  | receive _ => cases h; exact hsame rfl rfl
  | elapse _ => cases h; exact hsame rfl rfl
  | linkDown => cases h; exact hsame rfl rfl
  | reachable _ => cases h; exact hsame rfl rfl
  | reseed _ => cases h; exact hsame rfl rfl

theorem run_sessions (ops : List Op) : ∀ (c : NATSClient) (n : Nat) (c2 : NATSClient) (n2 : Nat),
    run c n ops = .ok (c2, n2) →
    c2.disconnectCalls + (if c2._connected then 1 else 0)
      ≤ c.disconnectCalls + (if c._connected then 1 else 0) + handshakes c ops := by
  induction ops with
  | nil => intro c n c2 n2 h; cases h; simp [handshakes]
  | cons op ops ih =>
    intro c n c2 n2 h
    unfold run at h
    split at h
    · cases h
    · rename_i r c1 h1
      have hstep := potential_step c.disconnectCalls c1.disconnectCalls c._connected
        c1._connected (succeeded c op r c1) (step_sessions c op r c1 h1)
      have := ih c1 _ c2 n2 h
      have hh : handshakes c (op :: ops)
          = (if succeeded c op r c1 then 1 else 0) + handshakes c1 ops := by
        rw [handshakes, h1]
      rw [hh]
      omega
namespace NATSClient

theorem reconnect_returns (c : NATSClient)
    (hfit : c._inBufferPos + c._client.rx.length ≤ IN_BUFFER_SIZE) :
    ∃ c2, (match c._reconnect with
      | .error f => (.error f : Except Fault NATSClient)
      | .ok (_, c2) => .ok c2) = .ok c2 := by
  by_cases hge : c._reconnectAttempts ≥ NATS_MAX_RECONNECT_ATTEMPTS
  · have : c._reconnect = .ok (false, c) := by
      unfold _reconnect
      simp [hge]
    rw [this]
    exact ⟨_, rfl⟩
  · obtain ⟨r, c2, h2⟩ := connect_returns
      { c with _reconnecting := true, _reconnectAttempts := wrapInt (c._reconnectAttempts + 1) }
      c._server c._port c._user c._pass hfit
    have : c._reconnect = .ok (r, { c2 with _reconnecting := false }) := by
      unfold _reconnect
      simp only [hge, if_false]
      rw [h2]
    rw [this]
    exact ⟨_, rfl⟩

theorem loop_closed_returns (c : NATSClient) (hcl : c._client.isOpen = false)
    (hfit : c._inBufferPos + c._client.rx.length ≤ IN_BUFFER_SIZE) : ∃ c2, c.loop = .ok c2 := by
  obtain ⟨ev, e1, _⟩ := noticeDisconnect_shape c
  unfold loop
  simp only [hcl, Bool.not_false, if_true]
  split
  · split
    · exact reconnect_returns _ (by rw [e1]; exact hfit)
    · exact ⟨_, rfl⟩
  · exact ⟨_, rfl⟩

end NATSClient

/-- C26: in every run, from any state, the number of calls of the disconnect handler
during the run, plus one if the connected flag is set at the end, is at most the
number of handshakes completed during the run, plus one if the flag was set at the
start: in a stretch without a completed handshake the handler is called at most once,
and not at all when the flag was cleared at its start.  A `loop` with the flag set and
the transport closed calls the handler once with false, before anything else, and
leaves the flag cleared unless the reconnection attempt inside this call succeeded;
it returns when the available bytes fit into the line buffer.  No step made while
the flag is cleared calls the handler, and a second `disconnect` in a row changes
nothing. -/
theorem disconnect_notification :
    (∀ (c : NATSClient) (ops : List Op) (c2 : NATSClient) (n n2 : Nat),
      run c n ops = .ok (c2, n2) →
      c2.disconnectCalls + (if c2._connected then 1 else 0)
        ≤ c.disconnectCalls + (if c._connected then 1 else 0) + handshakes c ops) ∧
    (∀ (c : NATSClient) (k : Nat), c._connected = true → c._client.isOpen = false →
      c._disconnectHandler = some k →
      (∀ c2, c.loop = .ok c2 →
        ∃ more, c2.events = c.events ++ .connection k false :: more ∧
          (∀ e ∈ more, e.isConnect = true) ∧
          c2.disconnectCalls = c.disconnectCalls + 1 ∧
          (c2._connected = true →
            ∃ c1, ({ c.noticeDisconnect with
                     _lastReconnectAttempt := c.noticeDisconnect.millis } : NATSClient)._reconnect
                  = .ok (true, c1))) ∧
      (c._inBufferPos + c._client.rx.length ≤ IN_BUFFER_SIZE → ∃ c2, c.loop = .ok c2)) ∧
    (∀ (c : NATSClient) (op : Op) (r : Bool) (c2 : NATSClient), c._connected = false →
      step c op = .ok (r, c2) → c2.disconnectCalls = c.disconnectCalls) ∧
    (∀ c : NATSClient, c.disconnect.disconnect = c.disconnect ∧
      c.disconnect.disconnectCalls ≤ c.disconnectCalls + 1) := by
  refine ⟨?_, ?_, ?_, ?_⟩
  · intro c ops c2 n n2 hrun
    exact run_sessions ops c n c2 n2 hrun
  · intro c k hc hcl hk
    refine ⟨fun c2 h => ?_, NATSClient.loop_closed_returns c hcl⟩
    obtain ⟨more, e, hm, hflag⟩ := NATSClient.loop_closed_shape c c2 hcl h
    have hev := (NATSClient.noticeDisconnect_events c).2.2 k hc hk
    rw [hev] at e
    refine ⟨more, by rw [e]; simp, hm, ?_, hflag⟩
    have := filter_isDisconnect_of_isConnect more hm
    simp [NATSClient.disconnectCalls, e, this, Event.isDisconnect]
  · intro c op r c2 hc h
    rcases step_sessions c op r c2 h with ⟨hd, _⟩ | ⟨hc2, _, _⟩
    · exact hd
    · rw [hc] at hc2; cases hc2
  · intro c
    constructor
    · unfold NATSClient.disconnect
      cases hc : c._connected with
      | false => simp [hc]
      | true =>
        cases hk : c._disconnectHandler with
        | none => simp
        | some k => simp [NATSClient.emit]
    · rcases step_sessions c .disconnect true c.disconnect rfl with ⟨hd, _⟩ | ⟨_, hd, _⟩
      · omega
      · omega

theorem disconnect_notification_witness :
    (∃ c n, run (NATSClient.new greeting 0 []) 0 sessionsRun = .ok (c, n) ∧
      c.disconnectCalls = 2 ∧ handshakes (NATSClient.new greeting 0 []) sessionsRun = 2 ∧
      c.disconnectCalls + (if c._connected then 1 else 0)
        ≤ (NATSClient.new greeting 0 []).disconnectCalls
          + (if (NATSClient.new greeting 0 [])._connected then 1 else 0)
          + handshakes (NATSClient.new greeting 0 []) sessionsRun) ∧
    (watched._connected = true ∧ watched._client.isOpen = false ∧
      watched._disconnectHandler = some 9 ∧
      ∃ c2, watched.loop = .ok c2 ∧
        ∃ more, c2.events = watched.events ++ .connection 9 false :: more ∧
          (∀ e ∈ more, e.isConnect = true) ∧
          c2.disconnectCalls = watched.disconnectCalls + 1 ∧
          (c2._connected = true →
            ∃ c1, ({ watched.noticeDisconnect with
                     _lastReconnectAttempt := watched.noticeDisconnect.millis }
                    : NATSClient)._reconnect = .ok (true, c1))) :=
  ⟨⟨finalState ((run (NATSClient.new greeting 0 []) 0 sessionsRun).map Prod.fst), 0,
     by decide!, by decide!, by decide!,
     disconnect_notification.1 (NATSClient.new greeting 0 []) sessionsRun _ 0 0 (by decide!)⟩,
   ⟨by decide!, by decide!, by decide!, finalState watched.loop, by decide!,
    (disconnect_notification.2.1 watched 9 (by decide!) (by decide!) (by decide!)).1
      (finalState watched.loop) (by decide!)⟩⟩

/-! ## The text of an inbox -/

theorem hexCore_acc (fuel : Nat) : ∀ n acc, n < fuel →
    hexCore fuel n acc = hexCore (n + 1) n [] ++ acc := by
  induction fuel using Nat.strong_induction_on with
  | _ fuel ih =>
    intro n acc hn
    cases fuel with
    | zero => omega
    | succ f =>
      simp only [hexCore]
      by_cases h : n / 16 = 0
      · simp [h]
      · simp only [h, if_false]
        have h1 : n / 16 < f := by omega
        rw [ih f (by omega) (n / 16) _ h1]
        cases n with
        | zero => simp at h
        | succ m =>
          rw [ih (m + 1) (by omega) ((m + 1) / 16) _ (by omega)]
          simp

theorem hex_small (n : Nat) (h : n < 16) : hexCore (n + 1) n [] = [hexDigit n] := by
  have h0 : n / 16 = 0 := by omega
  have h1 : n % 16 = n := by omega
  simp [hexCore, h0, h1]

theorem hex_step (n : Nat) (h : 16 ≤ n) :
    hexCore (n + 1) n [] = hexCore (n / 16 + 1) (n / 16) [] ++ [hexDigit (n % 16)] := by
  have h0 : ¬ n / 16 = 0 := by omega
  simp only [hexCore, h0, if_false]
  exact hexCore_acc n (n / 16) _ (by omega)

theorem hexValue_hexDigit (d : Nat) (h : d < 16) : hexValue (hexDigit d) = d := by
  unfold hexValue hexDigit
  split
  · rename_i h1
    have : 48 + d < 58 := by omega
    simp [this]
  · rename_i h1
    have : ¬ 55 + d < 58 := by omega
    simp [this]

theorem hexVal_append (xs : List Nat) (d : Nat) :
    hexVal (xs ++ [d]) = 16 * hexVal xs + hexValue d := by
  simp [hexVal, List.foldl_append]

theorem hexVal_hexCore (n : Nat) : hexVal (hexCore (n + 1) n []) = n := by
  induction n using Nat.strong_induction_on with
  | _ n ih =>
    by_cases h : n < 16
    · rw [hex_small n h]
      simp [hexVal, hexValue_hexDigit n h]
    · rw [hex_step n (by omega), hexVal_append, ih (n / 16) (by omega),
        hexValue_hexDigit _ (Nat.mod_lt _ (by decide))]
      omega

theorem hexVal_pad (k : Nat) (ds : List Nat) : hexVal (List.replicate k 48 ++ ds) = hexVal ds := by
  induction k with
  | zero => simp
  | succ k ih =>
    have : hexVal (List.replicate (k + 1) 48 ++ ds) = hexVal (List.replicate k 48 ++ ds) := by
      simp only [hexVal, List.replicate_succ, List.cons_append, List.foldl_cons]
      rfl
    rw [this, ih]

theorem hexVal_fmtHex (w n : Nat) : hexVal (fmtHex w n) = n := by
  unfold fmtHex
  simp only
  rw [hexVal_pad, hexVal_hexCore]

theorem hex_length (k : Nat) : ∀ n, n < 16 ^ (k + 1) → (hexCore (n + 1) n []).length ≤ k + 1 := by
  induction k with
  | zero =>
    intro n hn
    rw [hex_small n (by simpa using hn)]; simp
  | succ k ih =>
    intro n hn
    by_cases h : n < 16
    · rw [hex_small n h]; simp
    · rw [hex_step n (by omega)]
      have : n / 16 < 16 ^ (k + 1) := by
        rw [Nat.div_lt_iff_lt_mul (by norm_num)]
        calc n < 16 ^ (k + 1 + 1) := hn
          _ = 16 ^ (k + 1) * 16 := by ring
      have := ih (n / 16) this
      simp; omega

theorem fmtHex_length (k n : Nat) (h : n < 16 ^ (k + 1)) : (fmtHex (k + 1) n).length = k + 1 := by
  have := hex_length k n h
  unfold fmtHex
  simp only [List.length_append, List.length_replicate]
  omega

theorem inboxOf_injective (m1 m2 r1 r2 : Nat) (h1 : m1 < WORD) (h2 : m2 < WORD)
    (h : inboxOf m1 r1 = inboxOf m2 r2) : m1 = m2 ∧ r1 % 65535 = r2 % 65535 := by
  unfold inboxOf at h
  rw [List.append_assoc, List.append_assoc] at h
  have h3 := List.append_cancel_left h
  have l1 : (fmtHex 8 m1).length = 8 := fmtHex_length 7 m1 (by unfold WORD at h1; omega)
  have l2 : (fmtHex 8 m2).length = 8 := fmtHex_length 7 m2 (by unfold WORD at h2; omega)
  obtain ⟨e1, e2⟩ := List.append_inj h3 (by rw [l1, l2])
  have v1 := congrArg hexVal e1
  have v2 := congrArg hexVal e2
  rw [hexVal_fmtHex, hexVal_fmtHex] at v1 v2
  exact ⟨v1, v2⟩

/-- C30 (counterexample): while a request is pending, a second `request` at the same
clock value and with the same random value succeeds with the very same inbox
`_INBOX.000000000000`, which is the subject of an active subscription and the inbox
of an active pending request at the time of the call. -/
theorem inbox_repeats :
    requestPending._subscriptions.any
        (fun s => s.active && decide (s.subject = bytes "_INBOX.000000000000")) = true ∧
    requestPending._pendingRequests.any
        (fun q => q.active && decide (q.inbox = bytes "_INBOX.000000000000")) = true ∧
    secondRequest
      = .ok (true, [bytes "_INBOX.000000000000", bytes "_INBOX.000000000000"]) := by
  decide!

namespace NATSClient

theorem request_stores (c : NATSClient) (subject data : List Nat) (handler : MessageHandler)
    (timeout : Nat) (c2 : NATSClient)
    (h : c.request subject data handler timeout = .ok (true, c2)) :
    ∃ slot q0 c3,
      freePendingRequest c._pendingRequests = some slot ∧
      c._pendingRequests[slot]? = some q0 ∧ q0.active = false ∧
      ({ c with
          randomSource := c.randomSource.tail,
          _pendingRequests := c._pendingRequests.modify
            (fun r => { r with inbox := inboxOf c.millis (c.randomSource.headD 0) }) slot }
        : NATSClient).subscribe (inboxOf c.millis (c.randomSource.headD 0)) handler
          = .ok (true, c3) ∧
      c2._subscriptions = c3._subscriptions ∧
      c2._pendingRequests = c._pendingRequests.set slot
        { inbox := inboxOf c.millis (c.randomSource.headD 0), handler := handler,
          timeout := timeout % WORD, timestamp := c.millis, active := true } := by
  unfold request at h
  split at h
  · cases h
  · split at h
    · cases h
    · rename_i slot hslot
      simp only [_generateInbox] at h
      have hslot2 := hslot
      unfold freePendingRequest at hslot2
      obtain ⟨hlt, hp, _⟩ := List.findIdx?_eq_some_iff_getElem.mp hslot2
      split at h
      · cases h
      · cases h
      · rename_i c3 h3
        split at h
        · cases h
        · cases h
          obtain ⟨tx, subs, sid, err, e⟩ := subscribe_traffic _ _ _ _ _ h3
          refine ⟨slot, c._pendingRequests[slot], c3, hslot, List.getElem?_eq_getElem hlt,
            by simpa using hp, h3, rfl, ?_⟩
          rw [e]
          apply List.ext_getElem?
          intro i
          simp only [traffic, send, Transport.write, List.getElem?_modify, List.getElem?_set]
          by_cases hi : slot = i
          · subst hi
            simp [hlt, inboxOf]
          · simp [hi]

end NATSClient

/-- C30 (amended): the inbox that a successful `request` stores in the pending entry
and subscribes to is `_INBOX.` followed by the eight hexadecimal digits of the clock
value and the four hexadecimal digits of the random value modulo 65535.  It is not
compared with the tables.  It differs from every inbox text that was formatted from
a different clock value or a different random value, so from every active
subscription subject and pending inbox of that form. -/
theorem inbox_text (c : NATSClient) (subject data : List Nat) (handler : MessageHandler)
    (timeout : Nat) (c2 : NATSClient)
    (h : c.request subject data handler timeout = .ok (true, c2)) (hm : c.millis < WORD) :
    ∃ slot q,
      NATSClient.freePendingRequest c._pendingRequests = some slot ∧
      c2._pendingRequests[slot]? = some q ∧ q.active = true ∧
      q.inbox = inboxOf c.millis (c.randomSource.headD 0) ∧
      (∀ now rnd, now < WORD →
        (now ≠ c.millis ∨ rnd % 65535 ≠ c.randomSource.headD 0 % 65535) →
        inboxOf now rnd ≠ q.inbox) := by
  obtain ⟨slot, q0, c3, hslot, hq0, _, _, _, hreq⟩ :=
    NATSClient.request_stores c subject data handler timeout c2 h
  have hlt : slot < c._pendingRequests.length := (List.getElem?_eq_some_iff.mp hq0).1
  refine ⟨slot,
    { inbox := inboxOf c.millis (c.randomSource.headD 0), handler := handler,
      timeout := timeout % WORD, timestamp := c.millis, active := true },
    hslot, by simp only [hreq, List.getElem?_set, hlt, if_true], rfl, rfl, ?_⟩
  intro now rnd hnow hne heq
  have := inboxOf_injective now c.millis rnd (c.randomSource.headD 0) hnow hm heq
  rcases hne with hne | hne
  · exact hne this.1
  · exact hne this.2

theorem inbox_text_witness :
    online.millis < WORD ∧
    ∃ c2, online.request (bytes "time.service") [] (some 7) 1000 = .ok (true, c2) ∧
      ∃ slot q,
        NATSClient.freePendingRequest online._pendingRequests = some slot ∧
        c2._pendingRequests[slot]? = some q ∧ q.active = true ∧
        q.inbox = inboxOf online.millis (online.randomSource.headD 0) ∧
        (∀ now rnd, now < WORD →
          (now ≠ online.millis ∨ rnd % 65535 ≠ online.randomSource.headD 0 % 65535) →
          inboxOf now rnd ≠ q.inbox) :=
  ⟨by decide!, requestPending, by decide!,
   inbox_text online (bytes "time.service") [] (some 7) 1000 requestPending (by decide!)
     (by decide!)⟩

/-! ## Pending requests and their inbox subscriptions -/

theorem countP_set_at (p : PendingRequest → Bool) : ∀ (l : List PendingRequest) (i : Nat)
    (a x : PendingRequest), l[i]? = some x →
    (l.set i a).countP p + (if p x then 1 else 0) = l.countP p + (if p a then 1 else 0) := by
  intro l
  induction l with
  | nil => intro i a x h; simp at h
  | cons y ys ih =>
    intro i a x h
    cases i with
    | zero =>
      simp only [List.getElem?_cons_zero, Option.some.injEq] at h
      subst h
      simp only [List.set_cons_zero, List.countP_cons]
      omega
    | succ i =>
      simp only [List.getElem?_cons_succ] at h
      have := ih i a x h
      simp only [List.set_cons_succ, List.countP_cons]
      omega

theorem countP_set_sub (p : Subscription → Bool) : ∀ (l : List Subscription) (i : Nat)
    (a x : Subscription), l[i]? = some x →
    (l.set i a).countP p + (if p x then 1 else 0) = l.countP p + (if p a then 1 else 0) := by
  intro l
  induction l with
  | nil => intro i a x h; simp at h
  | cons y ys ih =>
    intro i a x h
    cases i with
    | zero =>
      simp only [List.getElem?_cons_zero, Option.some.injEq] at h
      subst h
      simp only [List.set_cons_zero, List.countP_cons]
      omega
    | succ i =>
      simp only [List.getElem?_cons_succ] at h
      have := ih i a x h
      simp only [List.set_cons_succ, List.countP_cons]
      omega

theorem inboxCount_set (reqs : List PendingRequest) (i : Nat) (a x : PendingRequest)
    (inbox : List Nat) (h : reqs[i]? = some x) :
    inboxCount (reqs.set i a) inbox + (if x.active && decide (x.inbox = inbox) then 1 else 0)
      = inboxCount reqs inbox + (if a.active && decide (a.inbox = inbox) then 1 else 0) := by
  have := countP_set_at (fun q => q.active && decide (q.inbox = inbox)) reqs i a x h
  simpa [inboxCount, List.countP_eq_length_filter] using this

theorem activeCount_set (subs : List Subscription) (i : Nat) (a x : Subscription)
    (subject : List Nat) (h : subs[i]? = some x) :
    activeCount (subs.set i a) subject
        + (if x.active && decide (x.subject = subject) then 1 else 0)
      = activeCount subs subject + (if a.active && decide (a.subject = subject) then 1 else 0) := by
  have := countP_set_sub (fun s => s.active && decide (s.subject = subject)) subs i a x h
  simpa [activeCount, List.countP_eq_length_filter] using this

theorem modify_eq_set_request (f : PendingRequest → PendingRequest)
    (reqs : List PendingRequest) (k : Nat) (q : PendingRequest) (h : reqs[k]? = some q) :
    reqs.modify f k = reqs.set k (f q) := by
  apply List.ext_getElem?
  intro i
  rw [List.getElem?_modify, List.getElem?_set]
  by_cases hki : k = i
  · subst hki
    have hlt := (List.getElem?_eq_some_iff.mp h).1
    simp [h, hlt]
  · simp [hki]

namespace NATSClient

theorem subscribe_stored (c : NATSClient) (subject : List Nat) (handler : MessageHandler)
    (c2 : NATSClient) (h : c.subscribe subject handler = .ok (true, c2)) :
    ∃ slot s0, freeSubscription c._subscriptions = some slot ∧
      c._subscriptions[slot]? = some s0 ∧ s0.active = false ∧
      c2._subscriptions = c._subscriptions.set slot
        (Subscription.fresh (strncpy subject (NATS_MAX_SUBJECT_LENGTH - 1)) handler c._nextSid) ∧
      c2._pendingRequests = c._pendingRequests ∧ c2.millis = c.millis := by
  unfold subscribe at h
  split at h
  · cases h
  · split at h
    · cases h
    · rename_i slot hslot
      split at h
      · cases h
      · cases h
        have hslot2 := hslot
        unfold freeSubscription at hslot2
        obtain ⟨hlt, hp, _⟩ := List.findIdx?_eq_some_iff_getElem.mp hslot2
        exact ⟨slot, c._subscriptions[slot], hslot, List.getElem?_eq_getElem hlt,
          by simpa using hp, rfl, rfl, rfl⟩

theorem subscribe_counts (c : NATSClient) (subject : List Nat) (handler : MessageHandler)
    (r : Bool) (c2 : NATSClient) (h : c.subscribe subject handler = .ok (r, c2)) :
    c2._pendingRequests = c._pendingRequests ∧ c2.millis = c.millis ∧
    ∀ X, activeCount c._subscriptions X ≤ activeCount c2._subscriptions X := by
  cases r with
  | false =>
    rcases subscribe_effect _ _ _ _ _ h with ⟨_, hreg, hp⟩ | ⟨hcontra, _⟩
    · obtain ⟨tx, subs, sid, err, e⟩ := subscribe_traffic _ _ _ _ _ h
      have hs : c2._subscriptions = c._subscriptions := congrArg Prod.fst hreg
      exact ⟨hp, by rw [e]; rfl, fun X => by rw [hs]⟩
    · cases hcontra
  | true =>
    obtain ⟨slot, s0, _, hs0, hin, hset, hp, hm⟩ := subscribe_stored _ _ _ _ h
    refine ⟨hp, hm, fun X => ?_⟩
    have := activeCount_set c._subscriptions slot
      (Subscription.fresh (strncpy subject (NATS_MAX_SUBJECT_LENGTH - 1)) handler c._nextSid)
      s0 X hs0
    rw [hset]
    simp only [hin, Bool.false_and, Bool.false_eq_true, if_false, Nat.add_zero] at this
    omega

theorem unsubscribe_counts (c : NATSClient) (subject : List Nat) :
    (c.unsubscribe subject).2._pendingRequests = c._pendingRequests ∧
    (c.unsubscribe subject).2.millis = c.millis ∧
    (∀ X, X ≠ subject →
      activeCount (c.unsubscribe subject).2._subscriptions X = activeCount c._subscriptions X) ∧
    (∀ X, activeCount c._subscriptions X
      ≤ activeCount (c.unsubscribe subject).2._subscriptions X + 1) := by
  obtain ⟨tx, subs, e⟩ := unsubscribe_traffic c subject
  refine ⟨by rw [e]; rfl, by rw [e]; rfl, ?_⟩
  unfold unsubscribe
  split
  · exact ⟨fun _ _ => rfl, fun _ => Nat.le_succ _⟩
  · cases hk : c._findSubscription subject with
    | none => exact ⟨fun _ _ => rfl, fun _ => Nat.le_succ _⟩
    | some k =>
      obtain ⟨s, hs, hact, hsub⟩ := findSubscription_active c subject k hk
      have hmod : deactivate c._subscriptions k
          = c._subscriptions.set k { s with active := false } :=
        modify_eq_set_of_getElem? _ _ k s hs
      simp only [hmod]
      constructor
      · intro X hX
        have := activeCount_set c._subscriptions k { s with active := false } s X hs
        have hne : ¬ s.subject = X := fun h => hX (by rw [← h, hsub])
        simp only [hne, decide_False, Bool.and_false, Bool.false_eq_true, if_false,
          Nat.add_zero, Bool.false_and] at this
        exact this
      · intro X
        have := activeCount_set c._subscriptions k { s with active := false } s X hs
        simp only [Bool.false_and, Bool.false_eq_true, if_false, Nat.add_zero] at this
        split at this <;> omega

end NATSClient

theorem inboxOf_length (now rnd : Nat) (h : now < WORD) : (inboxOf now rnd).length = 19 := by
  have l1 : (fmtHex 8 now).length = 8 := fmtHex_length 7 now (by unfold WORD at h; omega)
  have l2 : (fmtHex 4 (rnd % 65535)).length = 4 := fmtHex_length 3 _ (by omega)
  have l0 : NATS_INBOX_PREFIX.length = 7 := by decide
  simp only [inboxOf, List.length_append, l0, l1, l2]

theorem inboxOf_prefix (now rnd : Nat) : NATS_INBOX_PREFIX <+: inboxOf now rnd :=
  ⟨fmtHex 8 now ++ fmtHex 4 (rnd % 65535), by simp [inboxOf, List.append_assoc]⟩

theorem backed_congr (c c2 : NATSClient) (hm : c2.millis = c.millis)
    (hs : c2._subscriptions = c._subscriptions) (hp : c2._pendingRequests = c._pendingRequests)
    (h : RequestsBacked c) : RequestsBacked c2 := by
  unfold RequestsBacked at h ⊢
  rw [hm, hs, hp]
  exact h

/-- The invariant survives when a slot of the pending table that is not active is
overwritten, provided an active new entry has an inbox that starts with `_INBOX.` and
is backed by one more active subscription. -/
theorem backed_store (c c2 : NATSClient) (slot : Nat) (q0 q : PendingRequest)
    (hm : c2.millis = c.millis) (hq0 : c._pendingRequests[slot]? = some q0)
    (hin : q0.active = false)
    (hp : c2._pendingRequests = c._pendingRequests.set slot q)
    (hname : q.active = true → NATS_INBOX_PREFIX <+: q.inbox)
    (hs : ∀ X, activeCount c._subscriptions X
        + (if q.active && decide (q.inbox = X) then 1 else 0)
      ≤ activeCount c2._subscriptions X)
    (h : RequestsBacked c) : RequestsBacked c2 := by
  obtain ⟨h1, h2, h3⟩ := h
  refine ⟨by rw [hm]; exact h1, ?_, ?_⟩
  · intro x hx hact
    rw [hp] at hx
    rcases List.mem_or_eq_of_mem_set hx with hx | rfl
    · exact h2 x hx hact
    · exact hname hact
  · intro X
    have := inboxCount_set c._pendingRequests slot q q0 X hq0
    simp only [hin, Bool.false_and, Bool.false_eq_true, if_false, Nat.add_zero] at this
    rw [hp, this]
    have := h3 X
    have := hs X
    omega

namespace NATSClient

theorem request_backed (c : NATSClient) (subject data : List Nat) (handler : MessageHandler)
    (timeout : Nat) (r : Bool) (c2 : NATSClient)
    (h : c.request subject data handler timeout = .ok (r, c2)) (hb : RequestsBacked c) :
    RequestsBacked c2 := by
  obtain ⟨tx, subs, sid, reqs, rnd, err, e⟩ := request_traffic _ _ _ _ _ _ _ h
  have hm : c2.millis = c.millis := by rw [e]; rfl
  cases r with
  | true =>
    obtain ⟨slot, q0, c3, hslot, hq0, hin, hsub, hs2, hp2⟩ := request_stores _ _ _ _ _ _ h
    obtain ⟨k, s0, _, hs0, hs0in, hset, _, _⟩ := subscribe_stored _ _ _ _ hsub
    have hcopy : strncpy (inboxOf c.millis (c.randomSource.headD 0)) (NATS_MAX_SUBJECT_LENGTH - 1)
        = inboxOf c.millis (c.randomSource.headD 0) := by
      unfold strncpy NATS_MAX_SUBJECT_LENGTH
      exact List.take_of_length_le (by rw [inboxOf_length _ _ hb.1]; omega)
    refine backed_store c c2 slot q0 _ hm hq0 hin hp2 (fun _ => inboxOf_prefix _ _) ?_ hb
    intro X
    have := activeCount_set c._subscriptions k
      (Subscription.fresh (inboxOf c.millis (c.randomSource.headD 0)) handler c._nextSid) s0 X hs0
    have e1 : (Subscription.fresh (inboxOf c.millis (c.randomSource.headD 0)) handler
        c._nextSid).active = true := rfl
    have e2 : (Subscription.fresh (inboxOf c.millis (c.randomSource.headD 0)) handler
        c._nextSid).subject = inboxOf c.millis (c.randomSource.headD 0) := rfl
    rw [e1, e2] at this
    simp only [hs0in, Bool.false_and, Bool.true_and, Bool.false_eq_true, if_false,
      Nat.add_zero] at this
    rw [hs2, hset, hcopy]
    simp only [Bool.true_and]
    omega
  | false =>
    unfold request at h
    split at h
    · cases h; exact backed_congr _ _ rfl rfl rfl hb
    · split at h
      · cases h; exact backed_congr _ _ rfl rfl rfl hb
      · rename_i slot hslot
        simp only [_generateInbox] at h
        have hslot2 := hslot
        unfold freePendingRequest at hslot2
        obtain ⟨hlt, hp, _⟩ := List.findIdx?_eq_some_iff_getElem.mp hslot2
        have hq0 : c._pendingRequests[slot]? = some c._pendingRequests[slot] :=
          List.getElem?_eq_getElem hlt
        split at h
        · cases h
        · rename_i c3 h3
          cases h
          obtain ⟨hp3, hm3, hcount⟩ := subscribe_counts _ _ _ _ _ h3
          refine backed_store c c2 slot c._pendingRequests[slot]
            { c._pendingRequests[slot] with
              inbox := NATS_INBOX_PREFIX ++ fmtHex 8 c.millis
                ++ fmtHex 4 (c.randomSource.headD 0 % 65535) }
            hm hq0 (by simpa using hp) ?_ ?_ ?_ hb
          · rw [hp3]
            exact modify_eq_set_request _ _ _ _ hq0
          · intro hact
            have : (c._pendingRequests[slot]).active = false := by simpa using hp
            simp [this] at hact
          · intro X
            have : (c._pendingRequests[slot]).active = false := by simpa using hp
            simp only [this, Bool.false_and, Bool.false_eq_true, if_false, Nat.add_zero]
            exact hcount X
        · rename_i c3 h3
          split at h <;> cases h

end NATSClient

namespace NATSClient

theorem cleanupFrom_backed (reqs : List PendingRequest) :
    ∀ (pre : List PendingRequest) (c : NATSClient), c._pendingRequests = pre ++ reqs →
      RequestsBacked c → RequestsBacked (c.cleanupFrom pre.length reqs) := by
  induction reqs with
  | nil => intro pre c _ hb; exact hb
  | cons r rest ih =>
    intro pre c hp hb
    unfold cleanupFrom
    split
    · rename_i hcond
      have hact : r.active = true := by
        simp only [Bool.and_eq_true] at hcond
        exact hcond.1
      obtain ⟨hp1, hm1, hne, hle⟩ := unsubscribe_counts c r.inbox
      have hq : c._pendingRequests[pre.length]? = some r := by
        rw [hp, List.getElem?_append_right (le_refl _)]; simp
      have e : (c.unsubscribe r.inbox).2._pendingRequests.modify
          (fun q => { q with active := false }) pre.length
          = pre ++ [{ r with active := false }] ++ rest := by
        rw [hp1, hp, modify_at_length]
        simp
      have hb1 : RequestsBacked
          { (c.unsubscribe r.inbox).2 with
            _pendingRequests := (c.unsubscribe r.inbox).2._pendingRequests.modify
              (fun q => { q with active := false }) pre.length } := by
        obtain ⟨h1, h2, h3⟩ := hb
        refine ⟨by show (c.unsubscribe r.inbox).2.millis < WORD; rw [hm1]; exact h1, ?_, ?_⟩
        · intro x hx hxact
          have hx2 : x ∈ pre ++ [{ r with active := false }] ++ rest := by
            rw [← e]; exact hx
          simp only [List.mem_append, List.mem_singleton] at hx2
          rcases hx2 with (hx2 | rfl) | hx2
          · exact h2 x (by rw [hp]; simp [hx2]) hxact
          · simp at hxact
          · exact h2 x (by rw [hp]; simp [hx2]) hxact
        · intro X
          have hc := inboxCount_set c._pendingRequests pre.length { r with active := false } r X hq
          have hset : (c.unsubscribe r.inbox).2._pendingRequests.modify
              (fun q => { q with active := false }) pre.length
              = c._pendingRequests.set pre.length { r with active := false } := by
            rw [hp1]
            exact modify_eq_set_request _ _ _ _ hq
          show inboxCount ((c.unsubscribe r.inbox).2._pendingRequests.modify
              (fun q => { q with active := false }) pre.length) X
            ≤ activeCount (c.unsubscribe r.inbox).2._subscriptions X
          rw [hset]
          simp only [hact, Bool.true_and, Bool.false_and, Bool.false_eq_true, if_false,
            Nat.add_zero] at hc
          have h3X := h3 X
          by_cases hX : r.inbox = X
          · subst hX
            have := hle r.inbox
            simp only [decide_True, if_true] at hc
            omega
          · have := hne X (fun h => hX h.symm)
            simp only [hX, decide_False, Bool.false_eq_true, if_false, Nat.add_zero] at hc
            omega
      have := ih (pre ++ [{ r with active := false }]) _ e hb1
      simpa using this
    · have := ih (pre ++ [r]) c (by simp [hp]) hb
      simpa using this

theorem housekeeping_backed (c c2 : NATSClient) (h : c.housekeeping = .ok c2)
    (hb : RequestsBacked c) : RequestsBacked c2 := by
  have hb0 : RequestsBacked
      (if c._connected && decide (usub c.millis c._lastPing > c._pingInterval) then c._sendPing.2
        else c) := by
    split
    · obtain ⟨w, lp, e⟩ := sendPing_frame c
      rw [e]
      exact backed_congr _ _ rfl rfl rfl hb
    · exact hb
  have hb1 := cleanupFrom_backed _ [] _ rfl hb0
  simp only [List.length_nil] at hb1
  have key : ∀ c1 : NATSClient, RequestsBacked c1 →
      (if c1._connected && c1._autoDiscovery && decide (c1._deviceId.length > 0) then
        if usub c1.millis c1._lastAnnounce > 300000 then c1.announceDevice else .ok c1
       else .ok c1) = .ok c2 → RequestsBacked c2 := by
    intro c1 hc1 h1
    split at h1
    · split at h1
      · obtain ⟨w, la, e⟩ := announceDevice_result _ _ h1
        rw [e]
        exact backed_congr _ _ rfl rfl rfl hc1
      · cases h1; exact hc1
    · cases h1; exact hc1
  exact key _ hb1 h

theorem reconnect_backed (c : NATSClient) (r : Bool) (c2 : NATSClient)
    (h : c._reconnect = .ok (r, c2)) (hb : RequestsBacked c) : RequestsBacked c2 := by
  unfold _reconnect at h
  split at h
  · cases h; exact hb
  · simp only at h
    split at h
    · cases h
    · rename_i r3 c3 h3
      cases h
      obtain ⟨client, buf, pos, err, now, lp, la, ev, e, _, hnow⟩ := connect_shape _ _ _ _ _ _ _ h3
      obtain ⟨h1, h2, h3⟩ := hb
      rw [e]
      exact ⟨hnow h1, h2, h3⟩

theorem loop_backed (c c2 : NATSClient) (h : c.loop = .ok c2) (hb : RequestsBacked c) :
    RequestsBacked c2 := by
  unfold loop at h
  split at h
  · simp only at h
    obtain ⟨ev, e1, _⟩ := noticeDisconnect_shape c
    have hb1 : RequestsBacked c.noticeDisconnect := by
      rw [e1]; exact backed_congr _ _ rfl rfl rfl hb
    split at h
    · split at h
      · split at h
        · cases h
        · rename_i r3 c3 h3
          cases h
          exact reconnect_backed _ _ _ h3 (backed_congr _ _ rfl rfl rfl hb1)
      · cases h; exact hb1
    · cases h; exact hb1
  · split at h
    · cases h
    · rename_i c1 h1
      obtain ⟨rx, tx, buf, pos, err, ev, e1⟩ := drain_frame _ _ _ h1
      exact housekeeping_backed c1 c2 h (by rw [e1]; exact backed_congr _ _ rfl rfl rfl hb)

end NATSClient

theorem step_backed (c : NATSClient) (op : Op) (r : Bool) (c2 : NATSClient)
    (hop : op.sparesInboxes = true) (hb : RequestsBacked c) (h : step c op = .ok (r, c2)) :
    RequestsBacked c2 := by
  have hconn : ∀ (c0 : NATSClient) server port user pass, RequestsBacked c0 →
      c0.connect server port user pass = .ok (r, c2) → RequestsBacked c2 := by
    intro c0 server port user pass hb0 h0
    obtain ⟨client, buf, pos, err, now, lp, la, ev, e, _, hnow⟩ :=
      NATSClient.connect_shape _ _ _ _ _ _ _ h0
    obtain ⟨h1, h2, h3⟩ := hb0
    rw [e]
    exact ⟨hnow h1, h2, h3⟩
  cases op with
  | connect server port user pass => exact hconn c _ _ _ _ hb h
  | connectAnonymous server port => exact hconn c _ _ _ _ hb h
  | connectToken server port token =>
    have h2 : ({ c with _token := strncpy token 255 } : NATSClient).connect server port [] []
        = .ok (r, c2) := h
    exact hconn ({ c with _token := strncpy token 255 }) _ _ _ _
      (backed_congr _ _ rfl rfl rfl hb) h2
  | disconnect =>
    cases h
    refine backed_congr _ _ ?_ ?_ ?_ hb
    all_goals
      unfold NATSClient.disconnect
      split
      · simp only; split <;> rfl
      · rfl
  | loop =>
    simp only [step, Except.map] at h
    split at h
    · cases h
    · rename_i c1 h1
      cases h
      exact NATSClient.loop_backed _ _ h1 hb
  | publish subject data =>
    obtain ⟨tx, err, e⟩ := NATSClient.publish_traffic _ _ _ _ _ h
    rw [e]; exact backed_congr _ _ rfl rfl rfl hb
  | subscribe subject handler =>
    obtain ⟨hp, hm, hcount⟩ := NATSClient.subscribe_counts _ _ _ _ _ h
    obtain ⟨h1, h2, h3⟩ := hb
    refine ⟨by rw [hm]; exact h1, by rw [hp]; exact h2, fun X => ?_⟩
    rw [hp]
    exact le_trans (h3 X) (hcount X)
  | unsubscribe subject =>
    have h2 : c2 = (c.unsubscribe subject).2 := by
      simp only [step, Except.ok.injEq] at h
      rw [h]
    obtain ⟨hp, hm, hne, _⟩ := NATSClient.unsubscribe_counts c subject
    obtain ⟨h1, h2', h3⟩ := hb
    have hpre : ¬ NATS_INBOX_PREFIX <+: subject := by
      simpa [Op.sparesInboxes] using hop
    subst h2
    refine ⟨by rw [hm]; exact h1, by rw [hp]; exact h2', fun X => ?_⟩
    rw [hp]
    by_cases hX : X = subject
    · have : inboxCount c._pendingRequests X = 0 := by
        unfold inboxCount
        rw [List.length_eq_zero, List.filter_eq_nil_iff]
        intro q hq
        simp only [Bool.and_eq_true, decide_eq_true_eq, not_and]
        intro hact hin
        exact hpre (by rw [← hX, ← hin]; exact h2' q hq hact)
      omega
    · rw [hne X hX]
      exact h3 X
  | request subject data handler timeout =>
    exact NATSClient.request_backed _ _ _ _ _ _ _ h hb
  | announceDevice =>
    simp only [step, Except.map] at h
    obtain ⟨w, la, ha⟩ := NATSClient.announceDevice_frame c
    rw [ha] at h
    cases h
    exact backed_congr _ _ rfl rfl rfl hb
  | setDeviceInfo _ _ _ => cases h; exact backed_congr _ _ rfl rfl rfl hb
  | enableAutoDiscovery _ => cases h; exact backed_congr _ _ rfl rfl rfl hb
  | onConnect _ => cases h; exact backed_congr _ _ rfl rfl rfl hb
  | onDisconnect _ => cases h; exact backed_congr _ _ rfl rfl rfl hb
  | setClientID _ => cases h; exact backed_congr _ _ rfl rfl rfl hb
  | setReconnect _ => cases h; exact backed_congr _ _ rfl rfl rfl hb
  | setPingInterval _ => cases h; exact backed_congr _ _ rfl rfl rfl hb
  | setVerbose _ => cases h; exact backed_congr _ _ rfl rfl rfl hb
  | receive _ => cases h; exact backed_congr _ _ rfl rfl rfl hb
  | elapse ms =>
    cases h
    obtain ⟨_, h2, h3⟩ := hb
    exact ⟨Nat.mod_lt _ (by decide), h2, h3⟩
  | linkDown => cases h; exact backed_congr _ _ rfl rfl rfl hb
  | reachable _ => cases h; exact backed_congr _ _ rfl rfl rfl hb
  | reseed _ => cases h; exact backed_congr _ _ rfl rfl rfl hb

theorem new_backed (net : Transport) (now : Nat) (rnd : List Nat) (h : now < WORD) :
    RequestsBacked (NATSClient.new net now rnd) := by
  refine ⟨h, ?_, ?_⟩
  · intro q hq hact
    have : q.active = false := by
      simp only [NATSClient.new] at hq
      rw [List.eq_of_mem_replicate hq]
    rw [this] at hact
    cases hact
  · intro X
    have : inboxCount (NATSClient.new net now rnd)._pendingRequests X = 0 := by
      unfold inboxCount
      rw [List.length_eq_zero, List.filter_eq_nil_iff]
      intro q hq
      simp only [NATSClient.new] at hq
      rw [List.eq_of_mem_replicate hq]
      simp
    omega

/-- C29 (counterexample): after connect, request and `unsubscribe` on the inbox of
the request, the pending entry is active and no active subscription stores its
inbox; and after two requests at the same clock value with the same random value,
two active subscriptions store the inbox of each of the two pending entries. -/
theorem pending_without_subscription :
    inboxesAfter orphanRun = .ok ([bytes "_INBOX.000000000000"], 0) ∧
    inboxesAfter twinRun
      = .ok ([bytes "_INBOX.000000000000", bytes "_INBOX.000000000000"], 2) := by
  decide!

/-- C29 (amended): starting from a newly constructed client (the clock value is an
`unsigned long`), after every finite sequence of calls of public methods and of
events of the environment in which `unsubscribe` is never called on a subject that
starts with `_INBOX.`, every active pending request has at least one active
subscription whose stored subject equals its inbox; more precisely, for every inbox
there are at least as many active subscriptions on it as active pending requests
with it. -/
theorem pending_backed (net : Transport) (now : Nat) (rnd : List Nat) (ops : List Op)
    (c : NATSClient) (n : Nat) (hnow : now < WORD)
    (hops : ∀ op ∈ ops, op.sparesInboxes = true)
    (hrun : run (NATSClient.new net now rnd) 0 ops = .ok (c, n)) :
    (∀ q ∈ c._pendingRequests, q.active = true →
      ∃ s ∈ c._subscriptions, s.active = true ∧ s.subject = q.inbox) ∧
    (∀ inbox, inboxCount c._pendingRequests inbox ≤ activeCount c._subscriptions inbox) := by
  have hb : RequestsBacked c :=
    run_preserves RequestsBacked (fun op => op.sparesInboxes = true)
      (fun c1 op r c2 hop hb h => step_backed c1 op r c2 hop hb h) ops _ 0 c n hops
      (new_backed net now rnd hnow) hrun
  refine ⟨?_, hb.2.2⟩
  intro q hq hact
  have h1 : 0 < inboxCount c._pendingRequests q.inbox := by
    unfold inboxCount
    rw [List.length_pos]
    intro hnil
    have := List.filter_eq_nil_iff.mp hnil q hq
    simp [hact] at this
  have h2 : 0 < activeCount c._subscriptions q.inbox := lt_of_lt_of_le h1 (hb.2.2 q.inbox)
  unfold activeCount at h2
  obtain ⟨s, hs⟩ := List.exists_mem_of_length_pos h2
  rw [List.mem_filter] at hs
  simp only [Bool.and_eq_true, decide_eq_true_eq] at hs
  exact ⟨s, hs.1, hs.2.1, hs.2.2⟩

theorem pending_backed_witness :
    ∃ c n, run (NATSClient.new greeting 0 []) 0 pendingRun = .ok (c, n) ∧
      (c._pendingRequests.filter (fun q => q.active)).length = 1 ∧
      (∀ q ∈ c._pendingRequests, q.active = true →
        ∃ s ∈ c._subscriptions, s.active = true ∧ s.subject = q.inbox) ∧
      (∀ inbox, inboxCount c._pendingRequests inbox ≤ activeCount c._subscriptions inbox) :=
  ⟨finalState ((run (NATSClient.new greeting 0 []) 0 pendingRun).map Prod.fst), 2,
    by decide!, by decide!,
    pending_backed greeting 0 [] pendingRun _ 2 (by decide) (by decide) (by decide!)⟩

namespace NATSClient

/-- After `loop` has returned the flag behind `isReconnecting()` is cleared whenever it
was cleared before the call: `_reconnect` sets it only for the duration of its call
of `connect`. -/
theorem loop_not_reconnecting (c c2 : NATSClient) (hr : c._reconnecting = false)
    (h : c.loop = .ok c2) : c2.isReconnecting = false := by
  unfold isReconnecting
  unfold loop at h
  split at h
  · simp only at h
    obtain ⟨ev, e1, _⟩ := noticeDisconnect_shape c
    have h1 : c.noticeDisconnect._reconnecting = false := by rw [e1]; exact hr
    split at h
    · split at h
      · split at h
        · cases h
        · rename_i r3 c3 h3
          cases h
          unfold _reconnect at h3
          split at h3
          · cases h3; exact h1
          · simp only at h3
            split at h3
            · cases h3
            · cases h3; rfl
      · cases h; exact h1
    · cases h; exact h1
  · split at h
    · cases h
    · rename_i c1 h1
      obtain ⟨rx, tx, buf, pos, err, ev, e1⟩ := drain_frame _ _ _ h1
      obtain ⟨w, subs2, lp, la, hk, _, _⟩ := housekeeping_spec c1
      rw [hk] at h
      cases h
      rw [e1]
      exact hr

end NATSClient

namespace NATSClient

/-- The "Process incoming data" loop of `loop` keeps the cursor of the line buffer
below the last index of the buffer, whatever bytes arrive. -/
theorem drain_cursor (fuel : Nat) : ∀ (c c2 : NATSClient),
    c._inBufferPos ≤ IN_BUFFER_SIZE - 1 → drain fuel c = .ok c2 →
    c2._inBufferPos ≤ IN_BUFFER_SIZE - 1 := by
  induction fuel with
  | zero => intro c c2 hpos h; cases h; exact hpos
  | succ fuel ih =>
    intro c c2 hpos h
    unfold drain at h
    split at h
    · cases h; exact hpos
    · rename_i b rest hrx
      simp only at h
      have hstore : ∃ buf pos,
          (if (c.setRx rest)._inBufferPos < IN_BUFFER_SIZE - 1 then
            { c.setRx rest with
              _inBuffer := (c.setRx rest)._inBuffer.set (c.setRx rest)._inBufferPos b
              _inBufferPos := (c.setRx rest)._inBufferPos + 1 }
           else c.setRx rest) = c.intake rest c._client.tx buf pos c._lastError c.events ∧
          pos ≤ IN_BUFFER_SIZE - 1 := by
        split
        · rename_i hlt
          have hlt2 : c._inBufferPos < IN_BUFFER_SIZE - 1 := hlt
          exact ⟨_, _, rfl, by omega⟩
        · exact ⟨_, _, rfl, hpos⟩
      obtain ⟨buf, pos, hst, hle⟩ := hstore
      rw [hst] at h
      split at h
      · split at h
        · cases h
        · exact ih _ _ (Nat.zero_le _) h
      · exact ih _ _ hle h

end NATSClient

/-! ## Undeliverable messages and failed handshakes -/

/-- C31 (failing input): after a delivered message, the line `MSG` without arguments
is parsed from the bytes that the earlier line left in the line buffer behind its
terminator: the handler of `sid` 1 is invoked a second time, with the following
protocol line `PING` as payload, and no `PONG` is written for that `PING`. -/
theorem bare_msg_line_invokes_handler :
    bareMsgLine
      = .ok ([.message 1 (bytes "test.topic") (bytes "Hello") [],
              .message 1 (bytes "est.topic") (bytes "PING\r") []], [], []) := by
  decide!

/-- C33 (failing input): when the server accepts the connection and sends nothing,
`connect` writes the `CONNECT` line after the first timeout has elapsed and returns
false with "Connection timeout" after the second one. -/
theorem connect_sent_without_info :
    connectSilent = .ok (false, connectLinePlain, bytes "Connection timeout", 10000) := by
  decide!

/-- C34 (failing input): a `connect` that returns false on a client whose connected
flag is set leaves the flag set, and the following `publish` returns true. -/
theorem failed_connect_keeps_flag :
    online.linkDown._connected = true ∧
    connectFailsWhileFlagged = .ok (false, true, bytes "Connection timeout", true) := by
  decide!

/-! ## Keep-alive -/

namespace NATSClient

theorem deliver_unmatched (c : NATSClient) (subject : List Nat) (sid : Int) (reply : List Nat)
    (size : Int)
    (hno : c._subscriptions.find? (fun s => s.active && decide (s.sid = sid)) = none)
    (hav : min (toSize size) (NATS_MAX_PAYLOAD_SIZE - 1) ≤ c._client.rx.length) :
    ∃ rx, c.deliver subject sid reply size = .ok (false, c.setRx rx) := by
  unfold deliver
  simp only [Nat.not_lt.mpr hav, if_false]
  have : (c.setRx ((c._client.rx.drop (min (toSize size) (NATS_MAX_PAYLOAD_SIZE - 1))).dropWhile
      (fun b => decide (b = 13 ∨ b = 10))))._subscriptions = c._subscriptions := rfl
  rw [this, hno]
  exact ⟨_, rfl⟩

end NATSClient

namespace NATSClient

end NATSClient

namespace NATSClient

end NATSClient

/-! ## A line longer than the line buffer -/

namespace NATSClient

theorem setRx_nil_self (c : NATSClient) (h : c._client.rx = []) : c.setRx [] = c := by
  obtain ⟨⟨_, _, _, _⟩, _⟩ := c
  simp only at h
  subst h
  rfl

/-- Once the cursor has reached the last position of the line buffer and the byte
two positions before it is not CR, the "Process incoming data" loop reads every
further byte and does nothing else. -/
theorem drain_stuck (L : List Nat) : ∀ (k : Nat) (c : NATSClient),
    c._inBufferPos = IN_BUFFER_SIZE - 1 → c._inBuffer.getD (IN_BUFFER_SIZE - 3) 0 ≠ 13 →
    c._client.rx = L → drain (L.length + k) c = .ok (c.setRx []) := by
  induction L with
  | nil =>
    intro k c _ _ hrx
    rw [setRx_nil_self c hrx]
    simp only [List.length_nil, Nat.zero_add]
    cases k with
    | zero => rfl
    | succ k =>
      rw [drain]
      simp only [hrx]
  | cons b L ih =>
    intro k c hpos hcr hrx
    have hfuel : (b :: L).length + k = (L.length + k) + 1 := by simp; omega
    rw [hfuel, drain]
    simp only [hrx]
    have hp : (c.setRx L)._inBufferPos = IN_BUFFER_SIZE - 1 := hpos
    have hnot : ¬ ((c.setRx L)._inBufferPos < IN_BUFFER_SIZE - 1) := by rw [hp]; exact lt_irrefl _
    simp only [hnot, if_false]
    have hb : (c.setRx L)._inBuffer.getD ((c.setRx L)._inBufferPos - 2) 0 ≠ 13 := by
      rw [hp]; exact hcr
    have hcond : ¬ (b = 10 ∧ (c.setRx L)._inBufferPos > 1 ∧
        (c.setRx L)._inBuffer.getD ((c.setRx L)._inBufferPos - 2) 0 = 13) :=
      fun h => hb h.2.2
    rw [if_neg hcond]
    exact ih k (c.setRx L) hpos hcr rfl

/-- A line that fills the line buffer and is followed by any further bytes: the
"Process incoming data" loop stores the first `IN_BUFFER_SIZE - 1` bytes, reads all
the rest, dispatches nothing and leaves the cursor at the last position. -/
theorem drain_long_line (c : NATSClient) (L rest : List Nat) (hpos : c._inBufferPos = 0)
    (hlen : c._inBuffer.length = IN_BUFFER_SIZE) (hL : ∀ b ∈ L, b ≠ 10)
    (hlong : L.length = IN_BUFFER_SIZE - 1) (hcr : L.getD (IN_BUFFER_SIZE - 3) 0 ≠ 13)
    (hrx : c._client.rx = L ++ rest) :
    drain c._client.rx.length c
      = .ok { c with _client := { c._client with rx := [] },
                     _inBuffer := L ++ c._inBuffer.drop L.length,
                     _inBufferPos := IN_BUFFER_SIZE - 1 } := by
  have hfuel : c._client.rx.length = L.length + rest.length := by
    rw [hrx, List.length_append]
  have h1 := drain_store L rest.length c [] c._inBuffer rest rfl hpos hrx hL
    (by simp [hlong]) (by rw [hlen, hlong]; decide)
  rw [hfuel, h1]
  have h2 := drain_stuck rest 0
    { c with _client := { c._client with rx := rest },
             _inBuffer := [] ++ L ++ List.drop L.length c._inBuffer,
             _inBufferPos := ([] : List Nat).length + L.length }
    (by show ([] : List Nat).length + L.length = _; simp [hlong])
    (by
      show ([] ++ L ++ List.drop L.length c._inBuffer).getD (IN_BUFFER_SIZE - 3) 0 ≠ 13
      rw [List.nil_append, List.getD_append _ _ _ _ (by rw [hlong]; decide)]
      exact hcr)
    rfl
  rw [Nat.add_zero] at h2
  rw [h2]
  simp [setRx, hlong]

end NATSClient

/-- C35 (failing input): the connected client `online`, whose line buffer cursor is
0, receives a line of 1600 letters, its CR-LF, and the line `PING`.  `loop` reads all
the bytes, dispatches no line, leaves the cursor at 1535 instead of 0, and writes no
`PONG` for the `PING` line that followed. -/
theorem overlong_line_blocks_reader :
    online._connected = true ∧ online._inBufferPos = 0 ∧
    overlongLine = .ok (1535, [], [], []) := by
  have hd := NATSClient.drain_long_line
    (online.receive (longLine ++ bytes "\r\nPING\r\n"))
    (List.replicate 1535 120) (List.replicate 65 120 ++ bytes "\r\nPING\r\n")
    (by decide!) (by decide!)
    (fun b hb => by rw [List.eq_of_mem_replicate hb]; decide)
    (by rw [List.length_replicate]; decide) (by decide!) (by decide!)
  have hs : ({ online.receive (longLine ++ bytes "\r\nPING\r\n") with
        _client := { (online.receive (longLine ++ bytes "\r\nPING\r\n"))._client with rx := [] },
        _inBuffer := List.replicate 1535 120
          ++ (online.receive (longLine ++ bytes "\r\nPING\r\n"))._inBuffer.drop
              (List.replicate 1535 120).length,
        _inBufferPos := IN_BUFFER_SIZE - 1 } : NATSClient) = overlongRead := by
    decide!
  rw [hs] at hd
  have hloop : (online.receive (longLine ++ bytes "\r\nPING\r\n")).loop
      = overlongRead.housekeeping := by
    unfold NATSClient.loop
    have ho : (online.receive (longLine ++ bytes "\r\nPING\r\n"))._client.isOpen = true := by
      decide!
    simp only [ho, Bool.not_true, Bool.false_eq_true, if_false, hd]
  refine ⟨by decide!, by decide!, ?_⟩
  unfold overlongLine
  rw [hloop]
  decide!

end Arduino

/-! # Theorems about the ESPHome component -/

namespace ESPHome

open Arduino (bytes cstr decimal isspace isdigit digitsVal usub WORD)

namespace NATSClient

/-- The scenario state `connected` is what `connect_` returns when the host name
resolves and the server accepts the connection. -/
theorem connect_succeeds (lib : Library) (c : NATSClient) (hc : c.connecting_ = false)
    (hr : lib.resolves c.server_ = true) (hs : c.client_.reachable = true) :
    c.connect_ lib = c.connected := by
  simp [connect_, connected, hc, hr, hs, WiFiClient.connect]

theorem send_command_written (c : NATSClient) (command : List Nat)
    (ho : c.client_.isOpen = true) :
    c.send_command_ command
      = { c with client_ := { c.client_ with tx := c.client_.tx ++ cstr command } } := by
  simp [send_command_, ho, WiFiClient.print]

/-- The loop "Process publish queue" on a connected client with an open transport
writes, for every queued pair in order, the `PUB` command up to its first NUL byte,
and empties the queue. -/
theorem flushFrom_writes (q : List (List Nat × List Nat)) : ∀ (c : NATSClient),
    c.connected_ = true → c.client_.isOpen = true →
    flushFrom q c
      = { c with client_ := { c.client_ with
                   tx := c.client_.tx ++ (q.map (fun p => cstr (pubCommand p.1 p.2))).flatten },
                 publish_queue_ := if q = [] then c.publish_queue_ else [] } := by
  induction q with
  | nil => intro c _ _; simp [flushFrom]
  | cons item rest ih =>
    intro c hc ho
    rw [flushFrom, if_pos hc, send_command_written c _ ho, ih]
    · by_cases hr : rest = []
      · simp [hr]
      · simp [hr, List.append_assoc]
    · exact hc
    · exact ho

theorem send_command_rx (c : NATSClient) (command : List Nat) :
    (c.send_command_ command).client_.rx = c.client_.rx := by
  unfold send_command_
  split <;> rfl

theorem publish_rx (c : NATSClient) (subject payload : List Nat) :
    (c.publish subject payload).client_.rx = c.client_.rx := by
  unfold publish
  split
  · rfl
  · exact send_command_rx _ _

theorem subscribe_rx (c : NATSClient) (subject : List Nat) (callback : Callback) :
    (c.subscribe subject callback).client_.rx = c.client_.rx := by
  unfold subscribe
  split
  · rfl
  · exact send_command_rx _ _

theorem send_connect_rx (lib : Library) (c : NATSClient) :
    (c.send_connect_ lib).client_.rx = c.client_.rx := by
  simp only [send_connect_, announce_device_, publish_json, publish_rx, subscribe_rx,
    send_command_rx]

theorem process_info_rx (lib : Library) (c : NATSClient) (info : List Nat) :
    (c.process_info_ lib info).client_.rx = c.client_.rx := by
  unfold process_info_
  split <;> rfl

theorem disconnect_rx (c : NATSClient) :
    c.disconnect_.client_.rx.length ≤ c.client_.rx.length := by
  unfold disconnect_
  split
  · simp [WiFiClient.stop]
  · exact le_refl _

theorem invoke_rx (c c2 : NATSClient) (callback : Callback) (payload : List Nat)
    (h : c.invoke callback payload = .ok c2) : c2.client_.rx = c.client_.rx := by
  unfold invoke at h
  split at h
  · cases h
  · cases h; rfl

theorem deliver_rx (c c2 : NATSClient) (parts : List (List Nat)) (payload_size : Int)
    (h : c.deliver parts payload_size = .ok c2) :
    c2.client_.rx.length ≤ c.client_.rx.length := by
  unfold deliver at h
  simp only [bind, Except.bind] at h
  have h0 : (({ c with client_ := { c.client_ with
      rx := (c.client_.rx.drop payload_size.toNat).drop 2 } } : NATSClient)).client_.rx.length
      ≤ c.client_.rx.length := by
    simp only [List.length_drop]
    omega
  split at h
  · cases h
  · rename_i c1 h1
    have e1 : c1.client_.rx.length ≤ c.client_.rx.length := by
      split at h1
      · rw [invoke_rx _ _ _ _ h1]; exact h0
      · cases h1; exact h0
    split at h
    · split at h
      · rename_i entry _
        cases h2 : c1.invoke entry.1 (List.take payload_size.toNat c.client_.rx) with
        | error e => rw [h2] at h; cases h
        | ok c3 =>
          rw [h2] at h
          cases h
          show c3.client_.rx.length ≤ _
          rw [invoke_rx _ _ _ _ h2]
          exact e1
      · cases h; exact e1
    · cases h; exact e1

/-- Every call of `handle_message_` that returns, made while a byte is available,
leaves fewer bytes available. -/
theorem handle_message_reads (lib : Library) (c c2 : NATSClient)
    (hav : c.client_.available = true) (h : c.handle_message_ lib = .ok c2) :
    c2.client_.rx.length < c.client_.rx.length := by
  obtain ⟨b, rest, hrx⟩ : ∃ b rest, c.client_.rx = b :: rest := by
    cases hr : c.client_.rx with
    | nil => simp [WiFiClient.available, hr] at hav
    | cons b rest => exact ⟨b, rest, rfl⟩
  have hread : c.client_.read.2.rx = rest := by simp [WiFiClient.read, hrx]
  have hlen : rest.length < c.client_.rx.length := by rw [hrx]; simp
  unfold handle_message_ at h
  simp only at h
  split at h
  · cases h; show c.client_.read.2.rx.length < _; rw [hread]; exact hlen
  · split at h
    · split at h
      · cases h
      · cases h
        rw [send_connect_rx, process_info_rx]
        show c.client_.read.2.rx.length < _; rw [hread]; exact hlen
    · split at h
      · cases h
        show (send_command_ _ _).client_.rx.length < _
        rw [send_command_rx]
        show c.client_.read.2.rx.length < _; rw [hread]; exact hlen
      · split at h
        · split at h
          · split at h
            · cases h
            · have := deliver_rx _ _ _ _ h
              have e : c.client_.read.2.rx.length < c.client_.rx.length := by
                rw [hread]; exact hlen
              exact lt_of_le_of_lt this e
          · cases h; show c.client_.read.2.rx.length < _; rw [hread]; exact hlen
        · split at h
          · cases h; show c.client_.read.2.rx.length < _; rw [hread]; exact hlen
          · split at h
            · split at h
              · cases h
                refine lt_of_le_of_lt (disconnect_rx _) ?_
                show c.client_.read.2.rx.length < _; rw [hread]; exact hlen
              · cases h; show c.client_.read.2.rx.length < _; rw [hread]; exact hlen
            · cases h; show c.client_.read.2.rx.length < _; rw [hread]; exact hlen

/-- The loop "Handle incoming messages" with as many rounds as there are available
bytes ends because no byte is available any more. -/
theorem receive_exhausts (lib : Library) : ∀ (fuel : Nat) (c c2 : NATSClient),
    c.client_.rx.length ≤ fuel → receive fuel lib c = .ok c2 →
    c2.client_.available = false := by
  intro fuel
  induction fuel with
  | zero =>
    intro c c2 hle h
    cases h
    have : c.client_.rx = [] := List.length_eq_zero.mp (Nat.le_zero.mp hle)
    simp [WiFiClient.available, this]
  | succ fuel ih =>
    intro c c2 hle h
    unfold receive at h
    split at h
    · rename_i hav
      split at h
      · cases h
      · rename_i c1 h1
        have := handle_message_reads lib c c1 hav h1
        exact ih c1 c2 (by omega) h
    · rename_i hav
      cases h
      simpa using hav

end NATSClient

theorem inboxCounter_decimal (p : List Nat) (k : Nat) :
    inboxCounter (p ++ bytes "." ++ decimal k) = k := by
  unfold inboxCounter
  have h1 : (p ++ bytes "." ++ decimal k).reverse
      = (decimal k).reverse ++ (46 :: p.reverse) := by
    have : bytes "." = [46] := by decide
    rw [this]
    simp
  rw [h1, Arduino.takeWhile_append_stop isdigit _ _
    (fun b hb => by
      have := Arduino.decimal_digits k b (List.mem_reverse.mp hb)
      simp [isdigit, this])
    (fun b hb => by
      simp only [List.head?_cons, Option.some.injEq] at hb
      subst hb
      decide),
    List.reverse_reverse, Arduino.digitsVal_decimal]

theorem word_value : WORD = 4294967296 := by decide

theorem inboxes_get (calls : List (List Nat × Nat)) : ∀ (c : NATSClient) (i : Nat),
    c.counter < WORD → i < calls.length →
    (inboxes calls c)[i]? = some
      (bytes "_INBOX." ++ (calls.getD i ([], 0)).1 ++ bytes "."
        ++ decimal (calls.getD i ([], 0)).2 ++ bytes "."
        ++ decimal ((c.counter + i) % WORD)) := by
  induction calls with
  | nil => intro c i _ hi; simp at hi
  | cons call rest ih =>
    intro c i hc hi
    cases i with
    | zero => simp [inboxes, NATSClient.generate_inbox_, Nat.mod_eq_of_lt hc]
    | succ i =>
      have hi2 : i < rest.length := by simpa using hi
      have hc2 : (({ c with device_id_ := call.1, millis := call.2 } : NATSClient).generate_inbox_).2.counter
          = (c.counter + 1) % WORD := rfl
      have hlt : (c.counter + 1) % WORD < WORD := Nat.mod_lt _ (by decide)
      have hk : ((c.counter + 1) % WORD + i) % WORD = (c.counter + (i + 1)) % WORD := by
        rw [word_value]; omega
      have h := ih _ i (hc2 ▸ hlt) hi2
      rw [hc2, hk] at h
      simpa [inboxes] using h

/-- Two inboxes that end in the decimal renderings of different counter values are
different. -/
theorem inbox_differs (p q : List Nat) (k l : Nat) (h : k ≠ l) :
    p ++ bytes "." ++ decimal k ≠ q ++ bytes "." ++ decimal l := by
  intro e
  have := congrArg inboxCounter e
  rw [inboxCounter_decimal, inboxCounter_decimal] at this
  exact h this

theorem mapFind_assign {α : Type} (m : List (List Nat × α)) (key : List Nat) (value : α) :
    mapFind (mapAssign m key value) key = some value := by
  unfold mapAssign
  split
  · rename_i h
    induction m with
    | nil => simp at h
    | cons e rest ih =>
      by_cases he : e.1 = key
      · simp [mapFind, he]
      · have hr : rest.any (fun e => decide (e.1 = key)) = true := by
          simpa [he] using h
        have := ih hr
        simp only [mapFind] at this ⊢
        simp only [List.map_cons, he, if_false, List.find?_cons, decide_False]
        exact this
  · rename_i h
    have hn : m.find? (fun e => decide (e.1 = key)) = none := by
      simp only [List.find?_eq_none]
      intro x hx hk
      apply h
      simp only [List.any_eq_true]
      exact ⟨x, hx, hk⟩
    simp [mapFind, List.find?_append, hn]

theorem retains_refl (c : NATSClient) : Retains c c := ⟨rfl, fun _ h => h⟩

theorem retains_trans {a b c : NATSClient} (h1 : Retains a b) (h2 : Retains b c) :
    Retains a c :=
  ⟨h2.1.trans h1.1, fun e he => h1.2 e (h2.2 e he)⟩

namespace NATSClient

theorem send_command_retains (c : NATSClient) (command : List Nat) :
    Retains c (c.send_command_ command) := by
  unfold send_command_
  split
  · exact ⟨rfl, fun _ h => h⟩
  · exact retains_refl c

theorem publish_retains (c : NATSClient) (subject payload : List Nat) :
    Retains c (c.publish subject payload) := by
  unfold publish
  split
  · exact ⟨rfl, fun _ h => h⟩
  · exact send_command_retains _ _

theorem subscribe_retains (c : NATSClient) (subject : List Nat) (callback : Callback) :
    Retains c (c.subscribe subject callback) := by
  unfold subscribe
  split
  · exact retains_refl c
  · exact retains_trans ⟨rfl, fun _ h => h⟩ (send_command_retains _ _)

theorem send_connect_retains (lib : Library) (c : NATSClient) :
    Retains c (c.send_connect_ lib) := by
  unfold send_connect_ announce_device_ publish_json
  exact retains_trans (retains_trans (send_command_retains _ _) (subscribe_retains _ _ _))
    (publish_retains _ _ _)

theorem process_info_retains (lib : Library) (c : NATSClient) (info : List Nat) :
    Retains c (c.process_info_ lib info) := by
  unfold process_info_
  split
  · exact retains_refl c
  · exact ⟨rfl, fun _ h => h⟩

theorem disconnect_retains (c : NATSClient) : Retains c c.disconnect_ := by
  unfold disconnect_
  split
  · exact ⟨rfl, fun _ h => by simp at h⟩
  · exact retains_refl c

theorem connect_retains (lib : Library) (c : NATSClient) : Retains c (c.connect_ lib) := by
  unfold connect_
  split
  · exact retains_refl c
  · simp only
    split
    · exact ⟨rfl, fun _ h => h⟩
    · split <;> exact ⟨rfl, fun _ h => h⟩

theorem invoke_retains (c c2 : NATSClient) (callback : Callback) (payload : List Nat)
    (h : c.invoke callback payload = .ok c2) : Retains c c2 := by
  unfold invoke at h
  split at h
  · cases h
  · cases h; exact ⟨rfl, fun _ h => h⟩

theorem deliver_retains (c c2 : NATSClient) (parts : List (List Nat)) (payload_size : Int)
    (h : c.deliver parts payload_size = .ok c2) : Retains c c2 := by
  unfold deliver at h
  simp only [bind, Except.bind] at h
  have h0 : Retains c ({ c with client_ := { c.client_ with
      rx := (c.client_.rx.drop payload_size.toNat).drop 2 } } : NATSClient) :=
    ⟨rfl, fun _ h => h⟩
  split at h
  · cases h
  · rename_i c1 h1
    have e1 : Retains c c1 := by
      split at h1
      · exact retains_trans h0 (invoke_retains _ _ _ _ h1)
      · cases h1; exact h0
    split at h
    · split at h
      · rename_i entry _
        cases h2 : c1.invoke entry.1 (List.take payload_size.toNat c.client_.rx) with
        | error e => rw [h2] at h; cases h
        | ok c3 =>
          rw [h2] at h
          cases h
          refine retains_trans (retains_trans e1 (invoke_retains _ _ _ _ h2)) ?_
          exact ⟨rfl, fun e he => (List.mem_filter.mp he).1⟩
      · cases h; exact e1
    · cases h; exact e1

theorem handle_message_retains (lib : Library) (c c2 : NATSClient)
    (h : c.handle_message_ lib = .ok c2) : Retains c c2 := by
  have h0 : ∀ buf : List Nat, Retains c
      ({ c with client_ := c.client_.read.2, read_buffer_ := buf } : NATSClient) :=
    fun _ => ⟨rfl, fun _ h => h⟩
  unfold handle_message_ at h
  simp only at h
  split at h
  · cases h; exact h0 _
  · split at h
    · split at h
      · cases h
      · cases h
        exact retains_trans (retains_trans (h0 _) (process_info_retains _ _ _))
          (send_connect_retains _ _)
    · split at h
      · cases h
        exact retains_trans (h0 _) (send_command_retains _ _)
      · split at h
        · split at h
          · split at h
            · cases h
            · exact retains_trans (h0 _) (deliver_retains _ _ _ _ h)
          · cases h; exact h0 _
        · split at h
          · cases h; exact h0 _
          · split at h
            · split at h
              · cases h
                exact retains_trans (h0 _) (disconnect_retains _)
              · cases h; exact h0 _
            · cases h; exact h0 _

theorem receive_retains (lib : Library) : ∀ (fuel : Nat) (c c2 : NATSClient),
    receive fuel lib c = .ok c2 → Retains c c2 := by
  intro fuel
  induction fuel with
  | zero => intro c c2 h; cases h; exact retains_refl c
  | succ fuel ih =>
    intro c c2 h
    unfold receive at h
    split at h
    · split at h
      · cases h
      · rename_i c1 h1
        exact retains_trans (handle_message_retains lib c c1 h1) (ih c1 c2 h)
    · cases h; exact retains_refl c

theorem keepAlive_retains (c : NATSClient) : Retains c c.keepAlive := by
  unfold keepAlive send_ping_
  split
  · exact retains_trans (send_command_retains _ _) ⟨rfl, fun _ h => h⟩
  · exact retains_refl c

theorem reportStatus_retains (lib : Library) (c : NATSClient) :
    Retains c (c.reportStatus lib) := by
  unfold reportStatus publish_status_ publish_json
  split
  · exact retains_trans (publish_retains _ _ _) ⟨rfl, fun _ h => h⟩
  · exact retains_refl c

theorem flushFrom_retains (q : List (List Nat × List Nat)) : ∀ (c : NATSClient),
    Retains c (flushFrom q c) := by
  induction q with
  | nil => intro c; exact retains_refl c
  | cons item rest ih =>
    intro c
    unfold flushFrom
    split
    · exact retains_trans (retains_trans (send_command_retains _ _) ⟨rfl, fun _ h => h⟩) (ih _)
    · exact retains_refl c

theorem expire_retains (c : NATSClient) : Retains c c.expire :=
  ⟨rfl, fun _ he => (List.mem_filter.mp he).1⟩

theorem loop_retains (lib : Library) (c c2 : NATSClient) (h : c.loop lib = .ok c2) :
    Retains c c2 := by
  unfold loop at h
  split at h
  · split at h
    · cases h; exact connect_retains lib c
    · cases h; exact retains_refl c
  · split at h
    · cases h
    · rename_i c1 h1
      cases h
      exact retains_trans (receive_retains lib _ _ _ h1)
        (retains_trans (retains_trans (retains_trans (keepAlive_retains _)
          (reportStatus_retains lib _)) (flushFrom_retains _ _)) (expire_retains _))

end NATSClient

theorem tracked_of_retains {k0 n : Nat} {c c2 : NATSClient} (h : Tracked k0 n c)
    (hr : Retains c c2) : Tracked k0 n c2 :=
  ⟨hr.1.trans h.1, fun e he => h.2 e (hr.2 e he)⟩

theorem mem_mapAssign {α : Type} (m : List (List Nat × α)) (key : List Nat) (value : α)
    (e : List Nat × α) (h : e ∈ mapAssign m key value) : e ∈ m ∨ e = (key, value) := by
  unfold mapAssign at h
  split at h
  · obtain ⟨x, hx, hxe⟩ := List.mem_map.mp h
    split at hxe
    · exact Or.inr hxe.symm
    · exact Or.inl (hxe ▸ hx)
  · rcases List.mem_append.mp h with h | h
    · exact Or.inl h
    · exact Or.inr (by simpa using h)

theorem request_tracked (k0 n : Nat) (c : NATSClient) (subject payload : List Nat)
    (callback : Callback) (timeout_ms : Nat) (h : Tracked k0 n c) :
    ∃ n2, n ≤ n2 ∧ n2 ≤ n + 1 ∧ Tracked k0 n2 (c.request subject payload callback timeout_ms) := by
  unfold NATSClient.request
  split
  · exact ⟨n, le_refl _, Nat.le_succ _, h⟩
  · refine ⟨n + 1, Nat.le_succ _, le_refl _, ?_⟩
    refine tracked_of_retains ?_ (retains_trans (NATSClient.send_command_retains _ _)
      (NATSClient.send_command_retains _ _))
    constructor
    · show (c.counter + 1) % WORD = (k0 + (n + 1)) % WORD
      rw [h.1, word_value]
      omega
    · intro e he
      rcases mem_mapAssign _ _ _ _ he with he | he
      · obtain ⟨p, m, hm, e1⟩ := h.2 e he
        exact ⟨p, m, Nat.lt_succ_of_lt hm, e1⟩
      · refine ⟨bytes "_INBOX." ++ c.device_id_ ++ bytes "." ++ decimal c.millis, n,
          Nat.lt_succ_self _, ?_⟩
        rw [he, ← h.1]
        rfl

theorem step_tracked (lib : Library) (k0 n : Nat) (c c2 : NATSClient) (op : Op)
    (h : Tracked k0 n c) (hs : step lib c op = .ok c2) :
    ∃ n2, n ≤ n2 ∧ n2 ≤ n + (if op.isRequest then 1 else 0) ∧ Tracked k0 n2 c2 := by
  cases op with
  | set_device_id device_id =>
    cases hs; exact ⟨n, le_refl _, le_refl _, tracked_of_retains h ⟨rfl, fun _ h => h⟩⟩
  | publish subject payload =>
    cases hs
    exact ⟨n, le_refl _, le_refl _, tracked_of_retains h (NATSClient.publish_retains _ _ _)⟩
  | subscribe subject callback =>
    cases hs
    exact ⟨n, le_refl _, le_refl _, tracked_of_retains h (NATSClient.subscribe_retains _ _ _)⟩
  | request subject payload callback timeout_ms =>
    cases hs
    exact request_tracked k0 n c subject payload callback timeout_ms h
  | loop =>
    exact ⟨n, le_refl _, le_refl _, tracked_of_retains h (NATSClient.loop_retains lib _ _ hs)⟩
  | arrive data =>
    cases hs; exact ⟨n, le_refl _, le_refl _, tracked_of_retains h ⟨rfl, fun _ h => h⟩⟩
  | hangUp =>
    cases hs; exact ⟨n, le_refl _, le_refl _, tracked_of_retains h ⟨rfl, fun _ h => h⟩⟩
  | elapse ms =>
    cases hs; exact ⟨n, le_refl _, le_refl _, tracked_of_retains h ⟨rfl, fun _ h => h⟩⟩

theorem run_tracked (lib : Library) (k0 : Nat) (ops : List Op) : ∀ (n : Nat) (c c2 : NATSClient),
    Tracked k0 n c → run lib ops c = .ok c2 →
    ∃ n2, n2 ≤ n + ops.countP Op.isRequest ∧ Tracked k0 n2 c2 := by
  induction ops with
  | nil => intro n c c2 h hr; cases hr; exact ⟨n, by simp, h⟩
  | cons op rest ih =>
    intro n c c2 h hr
    unfold run at hr
    split at hr
    · cases hr
    · rename_i c1 h1
      obtain ⟨n1, _, hn1, ht1⟩ := step_tracked lib k0 n c c1 op h h1
      obtain ⟨n2, hn2, ht2⟩ := ih n1 c1 c2 ht1 hr
      refine ⟨n2, ?_, ht2⟩
      rw [List.countP_cons]
      omega

/-- When fewer than `2 ^ 32` inboxes were generated, the next inbox is not the key of
a pending request. -/
theorem tracked_fresh (k0 n : Nat) (c : NATSClient) (h : Tracked k0 n c) (hn : n < WORD) :
    mapFind c.pending_requests_ c.generate_inbox_.1 = none := by
  have hnone : c.pending_requests_.find? (fun e => decide (e.1 = c.generate_inbox_.1)) = none := by
    rw [List.find?_eq_none]
    intro e he
    obtain ⟨p, m, hm, e1⟩ := h.2 e he
    have hk : (k0 + m) % WORD ≠ (k0 + n) % WORD := by
      rw [word_value] at *
      omega
    have : e.1 ≠ c.generate_inbox_.1 := by
      rw [e1]
      show _ ≠ bytes "_INBOX." ++ c.device_id_ ++ bytes "." ++ decimal c.millis ++ bytes "."
        ++ decimal c.counter
      rw [h.1]
      exact inbox_differs _ _ _ _ hk
    simpa using this
  simp [mapFind, hnone]

/-- C38: in every sequence of calls of `generate_inbox_`, with any device id and any
clock value at each call, two calls that are fewer than `2 ^ 32` calls apart return
different strings: each string ends in `.` followed by the decimal rendering of the
counter value of its call, and the two counter values are different.  A `request`
on a connected client registers its pending entry under the inbox that
`generate_inbox_` returns and advances the counter by one.  And after every run of
operations with fewer than `2 ^ 32` calls of `request`, started without pending
requests, the inbox that `generate_inbox_` returns next is not the key of a pending
request. -/
theorem inbox_unique (calls : List (List Nat × Nat)) (c : NATSClient) (i j : Nat)
    (hc : c.counter < WORD) (hij : i < j) (hj : j < calls.length) (hd : j - i < WORD) :
    (∃ a b p q k l, (inboxes calls c)[i]? = some a ∧ (inboxes calls c)[j]? = some b ∧
      a = p ++ bytes "." ++ decimal k ∧ b = q ++ bytes "." ++ decimal l ∧ k ≠ l ∧ a ≠ b) ∧
    (∀ (s : NATSClient) (subject payload : List Nat) (callback : Callback) (timeout_ms : Nat),
      s.connected_ = true →
      mapFind (s.request subject payload callback timeout_ms).pending_requests_
          s.generate_inbox_.1
        = some (callback, (s.millis + timeout_ms) % WORD) ∧
      (s.request subject payload callback timeout_ms).counter = (s.counter + 1) % WORD) ∧
    (∀ (lib : Library) (ops : List Op) (s0 s : NATSClient),
      s0.pending_requests_ = [] → s0.counter < WORD → ops.countP Op.isRequest < WORD →
      run lib ops s0 = .ok s →
      mapFind s.pending_requests_ s.generate_inbox_.1 = none) := by
  have hk : (c.counter + i) % WORD ≠ (c.counter + j) % WORD := by
    rw [word_value] at *
    omega
  refine ⟨⟨_, _, _, _, _, _, inboxes_get calls c i hc (lt_trans hij hj),
    inboxes_get calls c j hc hj, rfl, rfl, hk, inbox_differs _ _ _ _ hk⟩, ?_, ?_⟩
  · intro s subject payload callback timeout_ms hs
    constructor
    · simp only [NATSClient.request, hs, Bool.not_true, Bool.false_eq_true, if_false]
      have : ∀ (x : NATSClient) (a b : List Nat),
          ((x.send_command_ a).send_command_ b).pending_requests_ = x.pending_requests_ := by
        intro x a b
        simp only [NATSClient.send_command_]
        split <;> (try split) <;> rfl
      rw [this]
      exact mapFind_assign _ _ _
    · simp only [NATSClient.request, hs, Bool.not_true, Bool.false_eq_true, if_false]
      have : ∀ (x : NATSClient) (a b : List Nat),
          ((x.send_command_ a).send_command_ b).counter = x.counter := by
        intro x a b
        simp only [NATSClient.send_command_]
        split <;> (try split) <;> rfl
      rw [this]
      rfl
  · intro lib ops s0 s h0 hs0 hn hrun
    have ht : Tracked s0.counter 0 s0 :=
      ⟨by rw [Nat.add_zero, Nat.mod_eq_of_lt hs0], by rw [h0]; intro e he; simp at he⟩
    obtain ⟨n, hle, htn⟩ := run_tracked lib s0.counter ops 0 s0 s ht hrun
    exact tracked_fresh _ n s htn (by omega)

theorem inbox_unique_witness :
    (∃ a b p q k l,
      (inboxes [(bytes "dev1", 5), (bytes "dev1", 5), (bytes "e.1", 77)]
          ({ session with counter := 4294967295 } : NATSClient))[0]? = some a ∧
      (inboxes [(bytes "dev1", 5), (bytes "dev1", 5), (bytes "e.1", 77)]
          ({ session with counter := 4294967295 } : NATSClient))[2]? = some b ∧
      a = p ++ bytes "." ++ decimal k ∧ b = q ++ bytes "." ++ decimal l ∧ k ≠ l ∧ a ≠ b) ∧
    (inboxes [(bytes "dev1", 5), (bytes "dev1", 5), (bytes "e.1", 77)]
        ({ session with counter := 4294967295 } : NATSClient))
      = [bytes "_INBOX.dev1.5.4294967295", bytes "_INBOX.dev1.5.0", bytes "_INBOX.e.1.77.1"] :=
  ⟨(inbox_unique [(bytes "dev1", 5), (bytes "dev1", 5), (bytes "e.1", 77)]
      ({ session with counter := 4294967295 } : NATSClient) 0 2
      (by decide) (by decide) (by decide) (by decide)).1, by decide!⟩

/-- C36 (failing input): with an empty read buffer the bytes `INFO\r\n` make
`handle_message_`, called by `loop`, raise `std::out_of_range`, and the bytes
`MSG a b c\r\n` make it raise `std::invalid_argument`; the call that raises is the
one that reads the line feed.  The line `-ERR` is handled without an exception and
leaves `connected_` set. -/
theorem malformed_lines_raise (lib : Library) :
    (session.arrive (bytes "INFO\r\n")).loop lib = .error .out_of_range ∧
    (session.arrive (bytes "MSG a b c\r\n")).loop lib = .error .invalid_argument ∧
    (({ session with read_buffer_ := bytes "INFO\r" } : NATSClient).arrive [10]).handle_message_ lib
      = .error .out_of_range ∧
    (({ session with read_buffer_ := bytes "MSG a b c\r" } : NATSClient).arrive
        [10]).handle_message_ lib
      = .error .invalid_argument ∧
    ((session.arrive (bytes "-ERR\r\n")).loop lib).map (fun c => c.connected_) = .ok true :=
  ⟨rfl, rfl, rfl, rfl, rfl⟩

/-- C37 (failing input): `publish("a", "x\0y")` and `publish("b", "hello")` on the
disconnected client write nothing and queue both pairs in call order.  After
`connect_`, `loop` leaves the transport open and the queue empty, but for the first
pair it writes only `PUB a 3\r\nx`: the command is cut at the NUL byte of the
payload, so the two payload bytes that the header announces and the line end are
missing before the second command. -/
theorem flush_cuts_command_at_nul (lib : Library) :
    queued.client_.tx = [] ∧
    queued.publish_queue_ = [(bytes "a", [120, 0, 121]), (bytes "b", bytes "hello")] ∧
    (queued.connected.loop lib).map
        (fun c => (c.client_.isOpen, c.connected_, c.client_.tx, c.publish_queue_))
      = .ok (true, true, bytes "PUB a 3\r\nx" ++ bytes "PUB b 5\r\nhello\r\n", []) ∧
    NATSClient.pubCommand (bytes "a") [120, 0, 121] = bytes "PUB a 3\r\nx\x00y\r\n" :=
  ⟨rfl, rfl, rfl, rfl⟩

/-- C39 (failing input): on a connected client at the clock value `2 ^ 32 - 1000`,
`request` with a timeout of 5000 ms registers its pending entry with the deadline
4000, and a `loop` run at the same clock value, 0 ms later, erases the entry. -/
theorem request_erased_before_timeout (lib : Library) :
    requested.pending_requests_
      = [(bytes "_INBOX.dev1.4294966296.0", (some 7, 4000))] ∧
    usub requested.millis aged.millis = 0 ∧
    (requested.loop lib).map (fun c => c.pending_requests_) = .ok [] :=
  ⟨rfl, rfl, rfl⟩

end ESPHome
